import Mathlib

/-!
# zfs_ioctl.c: the control-plane dispatcher of zfs-fuse

A shallow embedding of `src/zfs-fuse/zfs_ioctl.c`: the security policies, the
nvlist codec (`get_nvlist`, `put_nvlist`), `zfs_set_prop_nvlist`, the command
table `zfs_ioc_vec`, the entry point `zfsdev_ioctl`, and the handlers
`zfs_ioc_objset_stats`, `zfs_ioc_dataset_list_next`, `zfs_ioc_snapshot_list_next`
and `zfs_ioc_create`.

Conventions of the embedding.

* A `char` is a `Nat` (its byte value); a `const char *` argument is the list of
  bytes it points to, read as a C string through `cstr` (the bytes before the
  first NUL).
* Functions of other translation units (the DSL/DMU engine, zones, privileges,
  libnvpair, the property tables, the user-memory copy routines) are fields of
  `Kernel`; the engine is stateful, so its entry points thread a state `σ`.
* Every function returns, next to its C result, the list of the collaborator
  calls it made, in order (`event`).
-/

namespace ZfsIoctl

/-! ## errno values (`<sys/errno.h>`) -/

def EPERM : Int := 1
def ENOENT : Int := 2
def ESRCH : Int := 3
def ENXIO : Int := 6
def ENOMEM : Int := 12
def EBUSY : Int := 16
def EINVAL : Int := 22
def ENOSYS : Int := 38

/-- A credential pointer `cred_t *`, kept abstract. -/
abbrev cred_t := Nat

/-! ## C strings -/

/-- The C string stored at the start of a byte sequence: the bytes before the first NUL. -/
def cstr : List Nat → List Nat
  | [] => []
  | b :: p => if b = 0 then [] else b :: cstr p

/-- C `strlen`. -/
def strlen (p : List Nat) : Nat := (cstr p).length

/-- C `strncpy(dst, src, n)`: the `n` bytes left in `dst`, i.e. the string of `src`
cut at `n` bytes and padded with NUL up to `n` bytes (no NUL when the string has `n`
bytes or more). -/
def strncpy (src : List Nat) (n : Nat) : List Nat :=
  (cstr src).take n ++ List.replicate (n - (cstr src).length) 0

/-- Scan of `strrchr`: index (counted from `i`) of the last occurrence of `c` before the
first NUL. -/
def strrchr_from (c : Nat) : List Nat → Nat → Option Nat
  | [], _ => none
  | x :: xs, i =>
    if x = 0 then none
    else
      match strrchr_from c xs (i + 1) with
      | some j => some j
      | none => if x = c then some i else none

/-- C `strrchr(p, c)` for a character `c` other than NUL: the offset of the last `c` in
the string at `p`, `none` for a NULL result.  The scan stops at the end of the bytes given
when they hold no NUL. -/
def strrchr (p : List Nat) (c : Nat) : Option Nat := strrchr_from c p 0

/-- The string literal "zoned". -/
def str_zoned : List Nat := [122, 111, 110, 101, 100]

/-! ## Data model -/

/-- The part of `dmu_objset_stats_t` that this file reads, and the rest of it. -/
structure dmu_objset_stats_t where
  dds_inconsistent : Bool
  dds_rest : Nat
deriving DecidableEq

/-- The fields of `zfs_cmd_t` (`sys/zfs_ioctl.h`) that this file reads or writes.  The
character arrays `zc_name` and `zc_value` are byte lists of the length of the array. -/
structure zfs_cmd_t where
  zc_name : List Nat
  zc_value : List Nat
  zc_guid : Nat
  zc_cookie : Nat
  zc_nvlist_src : Nat
  zc_nvlist_src_size : Nat
  zc_nvlist_dst : Nat
  zc_nvlist_dst_size : Nat
  zc_cred : Nat
  zc_dev : Nat
  zc_objset_type : Nat
  zc_objset_stats : dmu_objset_stats_t
deriving DecidableEq

/-- The value of an nvpair: a string, a 64-bit integer, or a value of another libnvpair
data type (given by its `data_type_t` code). -/
inductive nvvalue where
  | string (s : List Nat)
  | uint64 (v : Nat)
  | other (data_type : Nat)
deriving DecidableEq

/-- One `nvpair_t`: a name and a typed value. -/
structure nvpair_t where
  name : List Nat
  value : nvvalue
deriving DecidableEq

/-- An `nvlist_t`, as the sequence `nvlist_next_nvpair` walks. -/
abbrev nvlist_t := List nvpair_t

/-- The property identifiers `zfs_prop_t` that `zfs_set_prop_nvlist` tells apart; every
other known property is `other n`. -/
inductive zfs_prop_t where
  | ZFS_PROP_INVAL
  | ZFS_PROP_ZONED
  | ZFS_PROP_QUOTA
  | ZFS_PROP_RESERVATION
  | ZFS_PROP_VOLSIZE
  | ZFS_PROP_VOLBLOCKSIZE
  | other (n : Nat)
deriving DecidableEq

/-- The declared type of a property, `zfs_proptype_t`. -/
inductive zfs_proptype_t where
  | prop_type_number
  | prop_type_boolean
  | prop_type_string
  | prop_type_index
deriving DecidableEq

/-- The handlers named in `zfs_ioc_vec`. -/
inductive zfs_ioc_func_t where
  | zfs_ioc_pool_create
  | zfs_ioc_pool_destroy
  | zfs_ioc_pool_import
  | zfs_ioc_pool_export
  | zfs_ioc_pool_configs
  | zfs_ioc_pool_stats
  | zfs_ioc_pool_tryimport
  | zfs_ioc_pool_scrub
  | zfs_ioc_pool_freeze
  | zfs_ioc_pool_upgrade
  | zfs_ioc_pool_get_history
  | zfs_ioc_pool_log_history
  | zfs_ioc_vdev_add
  | zfs_ioc_vdev_remove
  | zfs_ioc_vdev_online
  | zfs_ioc_vdev_offline
  | zfs_ioc_vdev_attach
  | zfs_ioc_vdev_detach
  | zfs_ioc_vdev_setpath
  | zfs_ioc_objset_stats
  | zfs_ioc_dataset_list_next
  | zfs_ioc_snapshot_list_next
  | zfs_ioc_set_prop
  | zfs_ioc_create_minor
  | zfs_ioc_remove_minor
  | zfs_ioc_create
  | zfs_ioc_destroy
  | zfs_ioc_rollback
  | zfs_ioc_rename
  | zfs_ioc_recvbackup
  | zfs_ioc_sendbackup
  | zfs_ioc_inject_fault
  | zfs_ioc_clear_fault
  | zfs_ioc_inject_list_next
  | zfs_ioc_error_log
  | zfs_ioc_clear
  | zfs_ioc_bookmark_name
  | zfs_ioc_promote
  | zfs_ioc_destroy_snaps
  | zfs_ioc_snapshot
deriving DecidableEq

/-- The security policies named in `zfs_ioc_vec`. -/
inductive zfs_secpolicy_func_t where
  | zfs_secpolicy_none
  | zfs_secpolicy_read
  | zfs_secpolicy_write
  | zfs_secpolicy_parent
  | zfs_secpolicy_config
  | zfs_secpolicy_inject
deriving DecidableEq

/-- The anonymous enum of `zfs_ioc_vec_t`. -/
inductive zvec_namecheck_t where
  | no_name
  | pool_name
  | dataset_name
deriving DecidableEq

/-- One row of the command table. -/
structure zfs_ioc_vec_t where
  zvec_func : zfs_ioc_func_t
  zvec_secpolicy : zfs_secpolicy_func_t
  zvec_namecheck : zvec_namecheck_t
deriving DecidableEq

/-- A call made to a collaborator, with the arguments that matter; the engine's set calls
also carry the value they returned. -/
inductive event where
  | zone_dataset_visible (dataset : List Nat)
  | dsl_prop_get_integer (dataset propname : List Nat)
  | secpolicy_zfs (cr : cred_t)
  | secpolicy_sys_config (cr : cred_t)
  | secpolicy_zinject (cr : cred_t)
  | xcopyin (uaddr size : Nat)
  | nvlist_unpack (packed : List Nat) (size : Nat)
  | xcopyout (packed : List Nat) (uaddr size : Nat)
  | dsl_prop_set (name propname : List Nat) (intsz numints : Nat) (buf : List Nat) (ret : Int)
  | dsl_dir_set_quota (name : List Nat) (quota : Nat) (ret : Int)
  | dsl_dir_set_reservation (name : List Nat) (reservation : Nat) (ret : Int)
  | xcopyin_zc (arg : Nat)
  | zvec_secpolicy (vec : Nat) (zc_name : List Nat)
  | pool_namecheck (name : List Nat)
  | dataset_namecheck (name : List Nat)
  | zvec_func (vec : Nat) (zc : zfs_cmd_t)
  | xcopyout_zc (zc : zfs_cmd_t) (arg : Nat)
  | dmu_objset_open (name : List Nat) (type mode : Nat) (ret : Int)
  | delay (ticks : Nat)
  | dmu_objset_close (os : Nat)
  | dmu_objset_fast_stat (os : Nat)
  | dsl_prop_get_all (os : Nat)
  | dmu_objset_stats (os : Nat)
  | zvol_get_stats (os : Nat)
  | spa_altroot (os : Nat)
  | dmu_dir_list_next (os namelen cookie : Nat) (ret : Int)
  | dmu_snapshot_list_next (os namelen cookie : Nat) (ret : Int)
  | dmu_objset_create (name : List Nat) (type : Nat) (clone : Option Nat) (ret : Int)
  | dmu_objset_destroy (name : List Nat) (ret : Int)
deriving DecidableEq

/-- The collaborators of `zfs_ioctl.c`: constants and functions that other translation
units define.  `σ` is the state of the engine and of user memory.

* `zone_dataset_visible s dataset` is the result of the C call and the value it stores
  through its `write` pointer, when it stores one.
* `dsl_prop_get_integer s dataset propname` is the error, the value and the setpoint.
* `nvlist_pack nvl` is the packed buffer and the size reported through `buflen`.
* `xcopyin s uaddr size` is the error and the bytes left in the kernel buffer.
* a set call returns its error and the next state.
* `dmu_objset_open s name type mode` is the error, the objset handle and the next state;
  `delay s ticks` is the state after the calling thread slept, other threads running.
* `dmu_objset_create s name type clone` is the creation of `name`, from the objset `clone`
  when there is one; the creation callback of this file, `zfs_create_cb`, is empty.
* `dmu_dir_list_next s os namelen cookie` and `dmu_snapshot_list_next` are the error, the
  bytes stored at `name` and the cookie stored through `offp`.
* `spa_altroot s os buflen` is the bytes stored in the buffer. -/
structure Kernel (σ : Type) where
  ZFS_IOC : Int
  MAXNAMELEN : Nat
  INGLOBALZONE : Bool
  zone_dataset_visible : σ → List Nat → Int × Option Int
  dsl_prop_get_integer : σ → List Nat → List Nat → Int × Nat × List Nat
  secpolicy_zfs : cred_t → Int
  secpolicy_sys_config : cred_t → Int
  secpolicy_zinject : cred_t → Int
  pool_namecheck : List Nat → Int
  dataset_namecheck : List Nat → Int
  xcopyin : σ → Nat → Nat → Int × List Nat
  xcopyout : σ → List Nat → Nat → Nat → Int × σ
  nvlist_size : nvlist_t → Nat
  nvlist_pack : nvlist_t → List Nat × Nat
  nvlist_unpack : List Nat → Nat → Int × nvlist_t
  zfs_name_to_prop : List Nat → zfs_prop_t
  zfs_prop_user : List Nat → Bool
  zfs_prop_get_type : zfs_prop_t → zfs_proptype_t
  zfs_prop_index_to_string : zfs_prop_t → Nat → Int
  dsl_prop_set : σ → List Nat → List Nat → Nat → Nat → List Nat → Int × σ
  dsl_dir_set_quota : σ → List Nat → Nat → Int × σ
  dsl_dir_set_reservation : σ → List Nat → Nat → Int × σ
  xcopyin_zc : σ → Nat → Int × zfs_cmd_t
  xcopyout_zc : σ → zfs_cmd_t → Nat → Int × σ
  zvec_func : zfs_ioc_func_t → σ → zfs_cmd_t → Int × zfs_cmd_t × σ
  DMU_OST_ZFS : Nat
  DMU_OST_ZVOL : Nat
  DMU_OST_ANY : Nat
  DS_MODE_STANDARD : Nat
  DS_MODE_READONLY : Nat
  dmu_objset_open : σ → List Nat → Nat → Nat → Int × Nat × σ
  delay : σ → Nat → σ
  dmu_objset_close : σ → Nat → σ
  dmu_objset_fast_stat : σ → Nat → dmu_objset_stats_t
  dsl_prop_get_all : σ → Nat → Int × nvlist_t
  dmu_objset_stats : σ → Nat → nvlist_t → nvlist_t
  dmu_objset_type : σ → Nat → Nat
  zvol_get_stats : σ → Nat → nvlist_t → nvlist_t
  spa_altroot : σ → Nat → Nat → List Nat
  dmu_dir_list_next : σ → Nat → Nat → Nat → Int × List Nat × Nat
  dmu_snapshot_list_next : σ → Nat → Nat → Nat → Int × List Nat × Nat
  dmu_objset_create : σ → List Nat → Nat → Option Nat → Int × σ
  dmu_objset_destroy : σ → List Nat → Int × σ

variable {σ : Type}

/-! ## Security policies -/

/-- `zfs_secpolicy_none`: no privilege needed. -/
def zfs_secpolicy_none (_unused1 : List Nat) (_cr : cred_t) : Int × List event :=
  (0, [])

/-- `zfs_secpolicy_read`: the dataset must be visible in the local zone.  The `||` of the
source does not call `zone_dataset_visible` in the global zone. -/
def zfs_secpolicy_read (k : Kernel σ) (s : σ) (dataset : List Nat) (_cr : cred_t) :
    Int × List event :=
  if k.INGLOBALZONE then (0, [])
  else if (k.zone_dataset_visible s dataset).1 ≠ 0 then
    (0, [event.zone_dataset_visible dataset])
  else (ENOENT, [event.zone_dataset_visible dataset])

/-- `zfs_dozonecheck`.  `writable` starts at 1 and is what `zone_dataset_visible` stored
through `&writable`, if it was called and stored a value. -/
def zfs_dozonecheck (k : Kernel σ) (s : σ) (dataset : List Nat) (cr : cred_t) :
    Int × List event :=
  let vis := k.zone_dataset_visible s dataset
  let writable : Int := if k.INGLOBALZONE then 1 else vis.2.getD 1
  let t1 : List event := if k.INGLOBALZONE then [] else [event.zone_dataset_visible dataset]
  if k.INGLOBALZONE = false ∧ vis.1 = 0 then (ENOENT, t1)
  else
    let z := k.dsl_prop_get_integer s dataset str_zoned
    let t2 := t1 ++ [event.dsl_prop_get_integer dataset str_zoned]
    if z.1 ≠ 0 then (ENOENT, t2)
    else if k.INGLOBALZONE then
      if k.secpolicy_zfs cr ≠ 0 ∧ z.2.1 ≠ 0 then (EPERM, t2 ++ [event.secpolicy_zfs cr])
      else (0, t2 ++ [event.secpolicy_zfs cr])
    else if z.2.1 = 0 then (EPERM, t2)
    else if writable = 0 then (EPERM, t2)
    else (0, t2)

/-- `zfs_secpolicy_write`: the zone check, then `secpolicy_zfs`. -/
def zfs_secpolicy_write (k : Kernel σ) (s : σ) (dataset : List Nat) (cr : cred_t) :
    Int × List event :=
  let r := zfs_dozonecheck k s dataset cr
  if r.1 ≠ 0 then r
  else (k.secpolicy_zfs cr, r.2 ++ [event.secpolicy_zfs cr])

/-- `zfs_secpolicy_parent`: copy the name into `parentname[MAXNAMELEN]`, cut it at the
last '@' (byte 64), else at the last '/' (byte 47), and apply the write policy to the
string left in `parentname`. -/
def zfs_secpolicy_parent (k : Kernel σ) (s : σ) (dataset : List Nat) (cr : cred_t) :
    Int × List event :=
  let parentname := strncpy dataset k.MAXNAMELEN
  match strrchr parentname 64 with
  | some cp => zfs_secpolicy_write k s (cstr (parentname.set cp 0)) cr
  | none =>
    match strrchr parentname 47 with
    | none => (ENOENT, [])
    | some cp => zfs_secpolicy_write k s (cstr (parentname.set cp 0)) cr

/-- `zfs_secpolicy_config`: needs the SYS_CONFIG privilege. -/
def zfs_secpolicy_config (k : Kernel σ) (_unused : List Nat) (cr : cred_t) :
    Int × List event :=
  if k.secpolicy_sys_config cr ≠ 0 then (EPERM, [event.secpolicy_sys_config cr])
  else (0, [event.secpolicy_sys_config cr])

/-- `zfs_secpolicy_inject`: needs all privileges. -/
def zfs_secpolicy_inject (k : Kernel σ) (_unused : List Nat) (cr : cred_t) :
    Int × List event :=
  (k.secpolicy_zinject cr, [event.secpolicy_zinject cr])

/-- The decision table of the write policy, as the specification words it: the first
row that applies gives the result. -/
def zfs_secpolicy_write_table (k : Kernel σ) (s : σ) (dataset : List Nat) (cr : cred_t) :
    Int :=
  let visible := (k.zone_dataset_visible s dataset).1 ≠ 0
  let writable := (k.zone_dataset_visible s dataset).2.getD 1 ≠ 0
  let readable := (k.dsl_prop_get_integer s dataset str_zoned).1 = 0
  let zoned := (k.dsl_prop_get_integer s dataset str_zoned).2.1 ≠ 0
  if k.INGLOBALZONE = false ∧ ¬ visible then ENOENT
  else if ¬ readable then ENOENT
  else if k.INGLOBALZONE = true ∧ zoned ∧ k.secpolicy_zfs cr ≠ 0 then EPERM
  else if k.INGLOBALZONE = false ∧ (¬ zoned ∨ ¬ writable) then EPERM
  else k.secpolicy_zfs cr

/-! ## The nvlist codec -/

/-- `get_nvlist`: the error, the list stored through `nvp` (if one was stored) and the
calls made.  The packed buffer is allocated and freed inside; `size_t` is 64 bits wide. -/
def get_nvlist (k : Kernel σ) (s : σ) (zc : zfs_cmd_t) :
    Int × Option nvlist_t × List event :=
  let size := zc.zc_nvlist_src_size
  if size = 0 then (EINVAL, none, [])
  else
    let c := k.xcopyin s zc.zc_nvlist_src size
    if c.1 ≠ 0 then (c.1, none, [event.xcopyin zc.zc_nvlist_src size])
    else
      let u := k.nvlist_unpack c.2 size
      if u.1 ≠ 0 then
        (u.1, none, [event.xcopyin zc.zc_nvlist_src size, event.nvlist_unpack c.2 size])
      else
        (0, some u.2, [event.xcopyin zc.zc_nvlist_src size, event.nvlist_unpack c.2 size])

/-- `put_nvlist`: the error, the request afterwards, the calls made and the next state.
`nvlist_size` and `nvlist_pack` are under `VERIFY` in the source and taken to succeed. -/
def put_nvlist (k : Kernel σ) (s : σ) (zc : zfs_cmd_t) (nvl : nvlist_t) :
    Int × zfs_cmd_t × List event × σ :=
  let size := k.nvlist_size nvl
  if size > zc.zc_nvlist_dst_size then
    (ENOMEM, { zc with zc_nvlist_dst_size := size }, [], s)
  else
    let p := k.nvlist_pack nvl
    let c := k.xcopyout s p.1 zc.zc_nvlist_dst p.2
    (c.1, { zc with zc_nvlist_dst_size := p.2 },
      [event.xcopyout p.1 zc.zc_nvlist_dst p.2], c.2)

/-! ## The command table and the entry point -/

/-- The table `zfs_ioc_vec`, row by row. -/
def zfs_ioc_vec : List zfs_ioc_vec_t :=
  [
    ⟨.zfs_ioc_pool_create, .zfs_secpolicy_config, .pool_name⟩,
    ⟨.zfs_ioc_pool_destroy, .zfs_secpolicy_config, .pool_name⟩,
    ⟨.zfs_ioc_pool_import, .zfs_secpolicy_config, .pool_name⟩,
    ⟨.zfs_ioc_pool_export, .zfs_secpolicy_config, .pool_name⟩,
    ⟨.zfs_ioc_pool_configs, .zfs_secpolicy_none, .no_name⟩,
    ⟨.zfs_ioc_pool_stats, .zfs_secpolicy_read, .pool_name⟩,
    ⟨.zfs_ioc_pool_tryimport, .zfs_secpolicy_config, .no_name⟩,
    ⟨.zfs_ioc_pool_scrub, .zfs_secpolicy_config, .pool_name⟩,
    ⟨.zfs_ioc_pool_freeze, .zfs_secpolicy_config, .no_name⟩,
    ⟨.zfs_ioc_pool_upgrade, .zfs_secpolicy_config, .pool_name⟩,
    ⟨.zfs_ioc_pool_get_history, .zfs_secpolicy_config, .pool_name⟩,
    ⟨.zfs_ioc_pool_log_history, .zfs_secpolicy_config, .pool_name⟩,
    ⟨.zfs_ioc_vdev_add, .zfs_secpolicy_config, .pool_name⟩,
    ⟨.zfs_ioc_vdev_remove, .zfs_secpolicy_config, .pool_name⟩,
    ⟨.zfs_ioc_vdev_online, .zfs_secpolicy_config, .pool_name⟩,
    ⟨.zfs_ioc_vdev_offline, .zfs_secpolicy_config, .pool_name⟩,
    ⟨.zfs_ioc_vdev_attach, .zfs_secpolicy_config, .pool_name⟩,
    ⟨.zfs_ioc_vdev_detach, .zfs_secpolicy_config, .pool_name⟩,
    ⟨.zfs_ioc_vdev_setpath, .zfs_secpolicy_config, .pool_name⟩,
    ⟨.zfs_ioc_objset_stats, .zfs_secpolicy_read, .dataset_name⟩,
    ⟨.zfs_ioc_dataset_list_next, .zfs_secpolicy_read, .dataset_name⟩,
    ⟨.zfs_ioc_snapshot_list_next, .zfs_secpolicy_read, .dataset_name⟩,
    ⟨.zfs_ioc_set_prop, .zfs_secpolicy_write, .dataset_name⟩,
    ⟨.zfs_ioc_create_minor, .zfs_secpolicy_config, .dataset_name⟩,
    ⟨.zfs_ioc_remove_minor, .zfs_secpolicy_config, .dataset_name⟩,
    ⟨.zfs_ioc_create, .zfs_secpolicy_parent, .dataset_name⟩,
    ⟨.zfs_ioc_destroy, .zfs_secpolicy_parent, .dataset_name⟩,
    ⟨.zfs_ioc_rollback, .zfs_secpolicy_write, .dataset_name⟩,
    ⟨.zfs_ioc_rename, .zfs_secpolicy_write, .dataset_name⟩,
    ⟨.zfs_ioc_recvbackup, .zfs_secpolicy_write, .dataset_name⟩,
    ⟨.zfs_ioc_sendbackup, .zfs_secpolicy_write, .dataset_name⟩,
    ⟨.zfs_ioc_inject_fault, .zfs_secpolicy_inject, .no_name⟩,
    ⟨.zfs_ioc_clear_fault, .zfs_secpolicy_inject, .no_name⟩,
    ⟨.zfs_ioc_inject_list_next, .zfs_secpolicy_inject, .no_name⟩,
    ⟨.zfs_ioc_error_log, .zfs_secpolicy_inject, .pool_name⟩,
    ⟨.zfs_ioc_clear, .zfs_secpolicy_config, .pool_name⟩,
    ⟨.zfs_ioc_bookmark_name, .zfs_secpolicy_inject, .pool_name⟩,
    ⟨.zfs_ioc_promote, .zfs_secpolicy_write, .dataset_name⟩,
    ⟨.zfs_ioc_destroy_snaps, .zfs_secpolicy_write, .dataset_name⟩,
    ⟨.zfs_ioc_snapshot, .zfs_secpolicy_write, .dataset_name⟩
  ]

/-- The call `zfs_ioc_vec[vec].zvec_secpolicy(zc->zc_name, cr)`: the policy of the row,
applied to the string found in the name array.  The array is passed as the copy-in left
it; when it holds no NUL the C code reads on past its end, and the string taken here is
the whole array. -/
def zvec_secpolicy_call (k : Kernel σ) (s : σ) (p : zfs_secpolicy_func_t)
    (zc_name : List Nat) (cr : cred_t) : Int × List event :=
  match p with
  | .zfs_secpolicy_none => zfs_secpolicy_none (cstr zc_name) cr
  | .zfs_secpolicy_read => zfs_secpolicy_read k s (cstr zc_name) cr
  | .zfs_secpolicy_write => zfs_secpolicy_write k s (cstr zc_name) cr
  | .zfs_secpolicy_parent => zfs_secpolicy_parent k s (cstr zc_name) cr
  | .zfs_secpolicy_config => zfs_secpolicy_config k (cstr zc_name) cr
  | .zfs_secpolicy_inject => zfs_secpolicy_inject k (cstr zc_name) cr

/-- The local variables of `zfsdev_ioctl` between two steps, with the calls made so far
and the state reached. -/
structure ioctl_frame (σ : Type) where
  error : Int
  zc : zfs_cmd_t
  trace : List event
  state : σ

/-- Step `error = xcopyin((void *)arg, zc, sizeof (zfs_cmd_t))`. -/
def ioctl_copyin (k : Kernel σ) (s : σ) (arg : Nat) : ioctl_frame σ :=
  ⟨(k.xcopyin_zc s arg).1, (k.xcopyin_zc s arg).2, [event.xcopyin_zc arg], s⟩

/-- Step `if (error == 0)`: record the credentials and the device, call the policy. -/
def ioctl_secpolicy (k : Kernel σ) (dev vec : Nat) (row : zfs_ioc_vec_t) (cr : cred_t)
    (f : ioctl_frame σ) : ioctl_frame σ :=
  if f.error = 0 then
    let zc := { f.zc with zc_cred := cr, zc_dev := dev }
    let p := zvec_secpolicy_call k f.state row.zvec_secpolicy zc.zc_name cr
    ⟨p.1, zc, f.trace ++ event.zvec_secpolicy vec zc.zc_name :: p.2, f.state⟩
  else f

/-- Step `if (error == 0)`: force the last byte of `zc_name` to NUL and check the name
as the row asks. -/
def ioctl_namecheck (k : Kernel σ) (row : zfs_ioc_vec_t) (f : ioctl_frame σ) :
    ioctl_frame σ :=
  if f.error = 0 then
    let zc := { f.zc with zc_name := f.zc.zc_name.set (f.zc.zc_name.length - 1) 0 }
    match row.zvec_namecheck with
    | .pool_name =>
      ⟨if k.pool_namecheck (cstr zc.zc_name) ≠ 0 then EINVAL else f.error, zc,
        f.trace ++ [event.pool_namecheck zc.zc_name], f.state⟩
    | .dataset_name =>
      ⟨if k.dataset_namecheck (cstr zc.zc_name) ≠ 0 then EINVAL else f.error, zc,
        f.trace ++ [event.dataset_namecheck zc.zc_name], f.state⟩
    | .no_name => ⟨f.error, zc, f.trace, f.state⟩
  else f

/-- Step `if (error == 0) error = zfs_ioc_vec[vec].zvec_func(zc)`. -/
def ioctl_func (k : Kernel σ) (vec : Nat) (row : zfs_ioc_vec_t) (f : ioctl_frame σ) :
    ioctl_frame σ :=
  if f.error = 0 then
    let h := k.zvec_func row.zvec_func f.state f.zc
    ⟨h.1, h.2.1, f.trace ++ [event.zvec_func vec f.zc], h.2.2⟩
  else f

/-- Step `rc = xcopyout(zc, (void *)arg, sizeof (zfs_cmd_t)); if (error == 0) error = rc`. -/
def ioctl_copyout (k : Kernel σ) (arg : Nat) (f : ioctl_frame σ) : ioctl_frame σ :=
  let rc := k.xcopyout_zc f.state f.zc arg
  ⟨if f.error = 0 then rc.1 else f.error, f.zc, f.trace ++ [event.xcopyout_zc f.zc arg],
    rc.2⟩

/-- The body of `zfsdev_ioctl` once `vec` is known to be in range, on row `row`. -/
def zfsdev_ioctl_row (k : Kernel σ) (s : σ) (dev vec : Nat) (row : zfs_ioc_vec_t)
    (arg : Nat) (cr : cred_t) : ioctl_frame σ :=
  ioctl_copyout k arg
    (ioctl_func k vec row
      (ioctl_namecheck k row
        (ioctl_secpolicy k dev vec row cr
          (ioctl_copyin k s arg))))

/-- The index `vec = cmd - ZFS_IOC`, a `uint_t`: the difference modulo 2^32. -/
def ioctl_vec (k : Kernel σ) (cmd : Int) : Nat :=
  ((cmd - k.ZFS_IOC) % 4294967296).toNat

/-- `zfsdev_ioctl`: the status returned, the calls made and the state reached. -/
def zfsdev_ioctl (k : Kernel σ) (s : σ) (dev : Nat) (cmd : Int) (arg : Nat) (cr : cred_t) :
    Int × List event × σ :=
  let vec := ioctl_vec k cmd
  if h : vec ≥ zfs_ioc_vec.length then (EINVAL, [], s)
  else
    let f := zfsdev_ioctl_row k s dev vec (zfs_ioc_vec.get ⟨vec, by omega⟩) arg cr
    (f.error, f.trace, f.state)

/-- An event is a call of `pool_namecheck` or `dataset_namecheck`. -/
def event.is_namecheck : event → Bool
  | .pool_namecheck _ => true
  | .dataset_namecheck _ => true
  | _ => false

/-- An event is the call of a handler of the table. -/
def event.is_zvec_func : event → Bool
  | .zvec_func _ _ => true
  | _ => false

/-- An event is the call of a security policy of the table. -/
def event.is_zvec_secpolicy : event → Bool
  | .zvec_secpolicy _ _ => true
  | _ => false

/-- An event is the copy-out of the request structure to user memory. -/
def event.is_xcopyout_zc : event → Bool
  | .xcopyout_zc _ _ => true
  | _ => false

/-- An event is one of the calls the security policies make. -/
def event.is_policy_query : event → Bool
  | .zone_dataset_visible _ => true
  | .dsl_prop_get_integer _ _ => true
  | .secpolicy_zfs _ => true
  | .secpolicy_sys_config _ => true
  | .secpolicy_zinject _ => true
  | _ => false

/-- The first nonzero error of a sequence of step results, 0 when there is none. -/
def first_nonzero : List Int → Int
  | [] => 0
  | e :: es => if e ≠ 0 then e else first_nonzero es

/-- The request as the policy sees it: copied in, with `zc_cred` and `zc_dev` set. -/
def ioctl_request (k : Kernel σ) (s : σ) (dev arg : Nat) (cr : cred_t) : zfs_cmd_t :=
  { (k.xcopyin_zc s arg).2 with zc_cred := cr, zc_dev := dev }

/-- The target name with its last byte forced to NUL. -/
def ioctl_checked_name (k : Kernel σ) (s : σ) (arg : Nat) : List Nat :=
  (k.xcopyin_zc s arg).2.zc_name.set ((k.xcopyin_zc s arg).2.zc_name.length - 1) 0

/-- The request as the handler sees it: `ioctl_request` with the name terminated. -/
def ioctl_checked_request (k : Kernel σ) (s : σ) (dev arg : Nat) (cr : cred_t) :
    zfs_cmd_t :=
  { ioctl_request k s dev arg cr with zc_name := ioctl_checked_name k s arg }

/-- The outcome of the name check of a row on the terminated name: `EINVAL` or 0. -/
def ioctl_namecheck_error (k : Kernel σ) (s : σ) (row : zfs_ioc_vec_t) (arg : Nat) : Int :=
  match row.zvec_namecheck with
  | .pool_name =>
    if k.pool_namecheck (cstr (ioctl_checked_name k s arg)) ≠ 0 then EINVAL else 0
  | .dataset_name =>
    if k.dataset_namecheck (cstr (ioctl_checked_name k s arg)) ≠ 0 then EINVAL else 0
  | .no_name => 0

/-- The request structure `zc` as `zfsdev_ioctl` holds it when it reaches its copy-out:
what the copy-in left, when the copy-in failed; that with `zc_cred` and `zc_dev` set, when
the policy refused; that with the name terminated as well, when the name check failed;
and what the handler left, when the handler ran. -/
def ioctl_copied_request (k : Kernel σ) (s : σ) (dev : Nat) (row : zfs_ioc_vec_t)
    (arg : Nat) (cr : cred_t) : zfs_cmd_t :=
  if (k.xcopyin_zc s arg).1 ≠ 0 then (k.xcopyin_zc s arg).2
  else if (zvec_secpolicy_call k s row.zvec_secpolicy (k.xcopyin_zc s arg).2.zc_name
      cr).1 ≠ 0 then
    ioctl_request k s dev arg cr
  else if ioctl_namecheck_error k s row arg ≠ 0 then ioctl_checked_request k s dev arg cr
  else (k.zvec_func row.zvec_func s (ioctl_checked_request k s dev arg cr)).2.1

/-- The state in which `zfsdev_ioctl` makes its copy-out: the state the handler left,
when the handler ran, and the state of the call otherwise. -/
def ioctl_copyout_state (k : Kernel σ) (s : σ) (dev : Nat) (row : zfs_ioc_vec_t)
    (arg : Nat) (cr : cred_t) : σ :=
  if (k.xcopyin_zc s arg).1 = 0 ∧
      (zvec_secpolicy_call k s row.zvec_secpolicy (k.xcopyin_zc s arg).2.zc_name cr).1 = 0 ∧
      ioctl_namecheck_error k s row arg = 0 then
    (k.zvec_func row.zvec_func s (ioctl_checked_request k s dev arg cr)).2.2
  else s

/-! ## Setting properties -/

/-- Modelled from the spec: libnvpair's `nvpair_name` (nvpair.c is not under src/), the
string key of an entry of the payload list. -/
def nvpair_name (elem : nvpair_t) : List Nat := elem.name

/-- Modelled from the spec: libnvpair's `nvpair_value_uint64` (nvpair.c is not under
src/): an entry is typed, and reading it as a 64-bit integer gives 0 and the value on a
64-bit integer entry and fails with `EINVAL` on an entry of another type. -/
def nvpair_value_uint64 (elem : nvpair_t) : Int × Nat :=
  match elem.value with
  | .uint64 v => (0, v)
  | _ => (EINVAL, 0)

/-- How an iteration of the `while` loop of `zfs_set_prop_nvlist` ends: it reaches the
next iteration (`continue`, or the end of the body), it leaves the loop (`break`), or it
leaves the function (`return`). -/
inductive loop_ctl where
  | next
  | brk
  | ret (error : Int)
deriving DecidableEq

/-- The first `switch (prop)` of `zfs_set_prop_nvlist`, case `ZFS_PROP_QUOTA`: the zone
check and, outside the global zone, the rule that the dataset is strictly longer than
the setpoint of 'zoned'.  Result 0 lets the entry through. -/
def zfs_set_prop_quota_check (k : Kernel σ) (s : σ) (name : List Nat) (cr : cred_t) :
    Int × List event :=
  let d := zfs_dozonecheck k s name cr
  if d.1 ≠ 0 then d
  else if k.INGLOBALZONE then (0, d.2)
  else
    let z := k.dsl_prop_get_integer s name str_zoned
    let t := d.2 ++ [event.dsl_prop_get_integer name str_zoned]
    if z.1 ≠ 0 then (EPERM, t)
    else if z.2.1 = 0 then (EPERM, t)
    else if strlen name ≤ strlen z.2.2 then (EPERM, t)
    else (0, t)

/-- The first `switch (prop)`: permission checks for special properties. -/
def zfs_set_prop_special (k : Kernel σ) (s : σ) (name : List Nat) (cr : cred_t)
    (prop : zfs_prop_t) : Int × List event :=
  match prop with
  | .ZFS_PROP_ZONED => if k.INGLOBALZONE then (0, []) else (EPERM, [])
  | .ZFS_PROP_QUOTA => zfs_set_prop_quota_check k s name cr
  | _ => (0, [])

/-- The `default` case of the second `switch (prop)`: the type check against the declared
type of the property, then `dsl_prop_set`. -/
def zfs_set_prop_default (k : Kernel σ) (s : σ) (name : List Nat) (elem : nvpair_t)
    (prop : zfs_prop_t) (t : List event) : loop_ctl × List event × σ :=
  match elem.value with
  | .string strval =>
    if k.zfs_prop_get_type prop ≠ zfs_proptype_t.prop_type_string then
      (.ret EINVAL, t, s)
    else
      let r := k.dsl_prop_set s name (nvpair_name elem) 1 (strlen strval + 1)
        (cstr strval ++ [0])
      (if r.1 ≠ 0 then .ret r.1 else .next,
        t ++ [event.dsl_prop_set name (nvpair_name elem) 1 (strlen strval + 1)
          (cstr strval ++ [0]) r.1], r.2)
  | .uint64 intval =>
    let rejected : Bool :=
      match k.zfs_prop_get_type prop with
      | .prop_type_number => false
      | .prop_type_boolean => decide (intval > 1)
      | .prop_type_string => true
      | .prop_type_index => decide (k.zfs_prop_index_to_string prop intval ≠ 0)
    if rejected then (.ret EINVAL, t, s)
    else
      let r := k.dsl_prop_set s name (nvpair_name elem) 8 1 [intval]
      (if r.1 ≠ 0 then .ret r.1 else .next,
        t ++ [event.dsl_prop_set name (nvpair_name elem) 8 1 [intval] r.1], r.2)
  | .other _ => (.ret EINVAL, t, s)

/-- The second `switch (prop)`, after the calls `t` of the first. -/
def zfs_set_prop_apply (k : Kernel σ) (s : σ) (name : List Nat) (elem : nvpair_t)
    (prop : zfs_prop_t) (t : List event) : loop_ctl × List event × σ :=
  match prop with
  | .ZFS_PROP_QUOTA =>
    if (nvpair_value_uint64 elem).1 ≠ 0 then (.ret (nvpair_value_uint64 elem).1, t, s)
    else
      let r := k.dsl_dir_set_quota s name (nvpair_value_uint64 elem).2
      (if r.1 ≠ 0 then .ret r.1 else .next,
        t ++ [event.dsl_dir_set_quota name (nvpair_value_uint64 elem).2 r.1], r.2)
  | .ZFS_PROP_RESERVATION =>
    if (nvpair_value_uint64 elem).1 ≠ 0 then (.ret (nvpair_value_uint64 elem).1, t, s)
    else
      let r := k.dsl_dir_set_reservation s name (nvpair_value_uint64 elem).2
      (if r.1 ≠ 0 then .ret r.1 else .next,
        t ++ [event.dsl_dir_set_reservation name (nvpair_value_uint64 elem).2 r.1], r.2)
  | .ZFS_PROP_VOLSIZE => (.ret ENXIO, t, s)
  | .ZFS_PROP_VOLBLOCKSIZE => (.ret ENXIO, t, s)
  | _ => zfs_set_prop_default k s name elem prop t

/-- The body of the `while` loop of `zfs_set_prop_nvlist` on the entry `elem`: how the
iteration ends, the calls it made and the state it left. -/
def zfs_set_prop_elem (k : Kernel σ) (s : σ) (name : List Nat) (cr : cred_t)
    (elem : nvpair_t) : loop_ctl × List event × σ :=
  let propname := nvpair_name elem
  let prop := k.zfs_name_to_prop propname
  if prop = zfs_prop_t.ZFS_PROP_INVAL then
    match elem.value with
    | .string strval =>
      if k.zfs_prop_user propname = false then (.ret EINVAL, [], s)
      else
        let r := k.dsl_prop_set s name propname 1 (strlen strval + 1) (cstr strval ++ [0])
        (if r.1 = 0 then .next else .brk,
          [event.dsl_prop_set name propname 1 (strlen strval + 1) (cstr strval ++ [0]) r.1],
          r.2)
    | _ => (.ret EINVAL, [], s)
  else
    let c := zfs_set_prop_special k s name cr prop
    if c.1 ≠ 0 then (.ret c.1, c.2, s)
    else zfs_set_prop_apply k s name elem prop c.2

/-- The `while` loop of `zfs_set_prop_nvlist` from the entry of index `i` on: the value
returned, the calls made, each tagged with the index of the entry being processed when
it was made, and the state left. -/
def zfs_set_prop_loop (k : Kernel σ) (name : List Nat) (cr : cred_t) :
    σ → Nat → List nvpair_t → Int × List (Nat × event) × σ
  | s, _, [] => (0, [], s)
  | s, i, elem :: rest =>
    match zfs_set_prop_elem k s name cr elem with
    | (.next, t, s1) =>
      ((zfs_set_prop_loop k name cr s1 (i + 1) rest).1,
        t.map (fun ev => (i, ev)) ++ (zfs_set_prop_loop k name cr s1 (i + 1) rest).2.1,
        (zfs_set_prop_loop k name cr s1 (i + 1) rest).2.2)
    | (.brk, t, s1) => (0, t.map (fun ev => (i, ev)), s1)
    | (.ret error, t, s1) => (error, t.map (fun ev => (i, ev)), s1)

/-- `zfs_set_prop_nvlist(name, dev, cr, nvl)`. -/
def zfs_set_prop_nvlist (k : Kernel σ) (s : σ) (name : List Nat) (_dev : Nat) (cr : cred_t)
    (nvl : nvlist_t) : Int × List (Nat × event) × σ :=
  zfs_set_prop_loop k name cr s 0 nvl

/-- The run of the loop of `zfs_set_prop_nvlist` over the entries `pre`, from index `i`,
when the body reaches the next iteration on each of them: the calls made, tagged, and
the state left.  `none` when the body leaves the loop or the function on one of them. -/
def zfs_set_prop_passes (k : Kernel σ) (name : List Nat) (cr : cred_t) :
    σ → Nat → List nvpair_t → Option (List (Nat × event) × σ)
  | s, _, [] => some ([], s)
  | s, i, elem :: rest =>
    match zfs_set_prop_elem k s name cr elem with
    | (.next, t, s1) =>
      match zfs_set_prop_passes k name cr s1 (i + 1) rest with
      | some q => some (t.map (fun ev => (i, ev)) ++ q.1, q.2)
      | none => none
    | _ => none

/-- An event is one of the engine's set calls. -/
def event.is_set_call : event → Bool
  | .dsl_prop_set _ _ _ _ _ _ => true
  | .dsl_dir_set_quota _ _ _ => true
  | .dsl_dir_set_reservation _ _ _ => true
  | _ => false

/-- The value a set call returned (0 for the other events). -/
def event.set_ret : event → Int
  | .dsl_prop_set _ _ _ _ _ ret => ret
  | .dsl_dir_set_quota _ _ ret => ret
  | .dsl_dir_set_reservation _ _ ret => ret
  | _ => 0

/-- The event is a set call on dataset `name` for the entry `elem`: `dsl_prop_set` of the
property the entry names, or the quota or reservation call with the entry's value. -/
def event.is_set_call_for (name : List Nat) (elem : nvpair_t) : event → Bool
  | .dsl_prop_set n propname _ _ _ _ => decide (n = name ∧ propname = elem.name)
  | .dsl_dir_set_quota n v _ => decide (n = name ∧ elem.value = nvvalue.uint64 v)
  | .dsl_dir_set_reservation n v _ => decide (n = name ∧ elem.value = nvvalue.uint64 v)
  | _ => false

/-- The state a call leaves: the engine's next state for a set call, the same state for
every other event of `zfs_set_prop_nvlist` (they are queries). -/
def event.apply (k : Kernel σ) (s : σ) : event → σ
  | .dsl_prop_set name propname intsz numints buf _ =>
    (k.dsl_prop_set s name propname intsz numints buf).2
  | .dsl_dir_set_quota name quota _ => (k.dsl_dir_set_quota s name quota).2
  | .dsl_dir_set_reservation name reservation _ =>
    (k.dsl_dir_set_reservation s name reservation).2
  | _ => s

/-- The set calls of a tagged trace. -/
def set_calls (t : List (Nat × event)) : List (Nat × event) :=
  t.filter (fun c => c.2.is_set_call)

/-- The shape of one iteration of the loop that made the queries `t` first: either it
made no set call, did not reach the next iteration and left the state alone (the entry
was rejected), or it made one set call `c` for the entry after the queries, left the
state that call produced, and reached the next iteration exactly when `c` returned 0. -/
def one_set_call (k : Kernel σ) (s : σ) (name : List Nat) (elem : nvpair_t)
    (t : List event) (r : loop_ctl × List event × σ) : Prop :=
  (r.2.1 = t ∧ r.1 ≠ loop_ctl.next ∧ r.2.2 = s) ∨
    ∃ c : event, r.2.1 = t ++ [c] ∧ c.is_set_call = true ∧
      c.is_set_call_for name elem = true ∧ r.2.2 = event.apply k s c ∧
      (r.1 = loop_ctl.next ↔ c.set_ret = 0)

/-- Every entry of `nvl` was applied, in list order, by the tagged trace `t` of a run that
started at index `i`: the set calls of `t` are tagged `i`, `i + 1`, ... once each, each
returned 0 and is a call for the entry of its tag, and no event has a tag outside. -/
def applied_in_order (name : List Nat) (nvl : List nvpair_t) (i : Nat)
    (t : List (Nat × event)) : Prop :=
  (set_calls t).map Prod.fst = List.range' i nvl.length ∧
    (∀ c ∈ set_calls t, c.2.set_ret = 0 ∧
      ∃ j elem, c.1 = i + j ∧ nvl[j]? = some elem ∧ c.2.is_set_call_for name elem = true) ∧
    (∀ c ∈ t, i ≤ c.1 ∧ c.1 < i + nvl.length)

/-- The loop stops at entry `elem`, met in state `s`: the body does not reach the next
iteration, and it made either no set call (the entry is rejected) or one set call for
the entry, which returned a nonzero error. -/
def stops_at (k : Kernel σ) (s : σ) (name : List Nat) (cr : cred_t) (elem : nvpair_t) :
    Prop :=
  (zfs_set_prop_elem k s name cr elem).1 ≠ loop_ctl.next ∧
    ((zfs_set_prop_elem k s name cr elem).2.1.filter event.is_set_call = [] ∨
      ∃ c : event, (zfs_set_prop_elem k s name cr elem).2.1.filter event.is_set_call = [c] ∧
        c.set_ret ≠ 0 ∧ c.is_set_call_for name elem = true)

/-- The type rule for the value of a known property, as the specification words it: a
string is accepted when the declared type is string; a 64-bit integer is accepted when
the declared type is number, or boolean with value 0 or 1, or index with a value that
`zfs_prop_index_to_string` maps to an entry; a value of another type is not accepted. -/
def prop_value_accepted (k : Kernel σ) (prop : zfs_prop_t) : nvvalue → Bool
  | .string _ => decide (k.zfs_prop_get_type prop = zfs_proptype_t.prop_type_string)
  | .uint64 v =>
    decide (k.zfs_prop_get_type prop = zfs_proptype_t.prop_type_number ∨
      (k.zfs_prop_get_type prop = zfs_proptype_t.prop_type_boolean ∧ (v = 0 ∨ v = 1)) ∨
      (k.zfs_prop_get_type prop = zfs_proptype_t.prop_type_index ∧
        k.zfs_prop_index_to_string prop v = 0))
  | .other _ => false

/-- The `dsl_prop_set` call made for a value: one-byte integers, the string with its NUL,
for a string; one 8-byte integer for a 64-bit integer. -/
def prop_set_call (k : Kernel σ) (s : σ) (name propname : List Nat) :
    nvvalue → Option (event × Int × σ)
  | .string strval =>
    some (event.dsl_prop_set name propname 1 (strlen strval + 1) (cstr strval ++ [0])
        (k.dsl_prop_set s name propname 1 (strlen strval + 1) (cstr strval ++ [0])).1,
      k.dsl_prop_set s name propname 1 (strlen strval + 1) (cstr strval ++ [0]))
  | .uint64 v =>
    some (event.dsl_prop_set name propname 8 1 [v] (k.dsl_prop_set s name propname 8 1 [v]).1,
      k.dsl_prop_set s name propname 8 1 [v])
  | .other _ => none

/-- An event is a call of `dsl_dir_set_quota`. -/
def event.is_quota_call : event → Bool
  | .dsl_dir_set_quota _ _ _ => true
  | _ => false

/-! ## Handlers that open a live dataset -/

/-- C `strchr(p, c)` for a character `c` other than NUL: the offset of the first `c` in
the string at `p`, `none` for a NULL result. -/
def strchr (p : List Nat) (c : Nat) : Option Nat :=
  if c ∈ cstr p then some ((cstr p).indexOf c) else none

/-- The array `buf` after `bytes` were stored at offset `p`; bytes that would fall past
the end of the array are left out. -/
def store_at (buf : List Nat) (p : Nat) (bytes : List Nat) : List Nat :=
  (buf.take p ++ bytes ++ buf.drop (p + bytes.length)).take buf.length

/-- C `strlcat(dst, src, size)`: the array `dst` afterwards and the value returned,
`strlen(dst) + strlen(src)`.  At most `size - strlen(dst) - 1` bytes of `src` are
appended, followed by a NUL; nothing is stored when `dst` already fills `size - 1`. -/
def strlcat (dst src : List Nat) (size : Nat) : List Nat × Nat :=
  if strlen dst + 1 ≥ size then (dst, strlen dst + strlen src)
  else
    (store_at dst (strlen dst) ((cstr src).take (size - strlen dst - 1) ++ [0]),
      strlen dst + strlen src)

/-- The `retry:` loop that opens the dataset, written three times in the source
(`zfs_ioc_objset_stats`, `zfs_ioc_dataset_list_next`, `zfs_ioc_snapshot_list_next`): open;
on `EBUSY`, `delay(1)` and open again.  `fuel` bounds the number of attempts made here: the
result is the error of the first attempt that is not `EBUSY`, the objset handle, the calls
made and the state, and `none` when `fuel` attempts were all `EBUSY`. -/
def dmu_objset_open_retry (k : Kernel σ) (name : List Nat) (type mode : Nat) :
    Nat → σ → Option (Int × Nat × List event × σ)
  | 0, _ => none
  | fuel + 1, s =>
    if (k.dmu_objset_open s name type mode).1 = EBUSY then
      match dmu_objset_open_retry k name type mode fuel
          (k.delay (k.dmu_objset_open s name type mode).2.2 1) with
      | none => none
      | some q =>
        some (q.1, q.2.1,
          event.dmu_objset_open name type mode EBUSY :: event.delay 1 :: q.2.2.1, q.2.2.2)
    else
      some ((k.dmu_objset_open s name type mode).1, (k.dmu_objset_open s name type mode).2.1,
        [event.dmu_objset_open name type mode (k.dmu_objset_open s name type mode).1],
        (k.dmu_objset_open s name type mode).2.2)

/-- The state in which attempt number `j` (from 0) of the `retry:` loop is made, when all
the attempts before it were followed by `delay(1)`. -/
def retry_state (k : Kernel σ) (name : List Nat) (type mode : Nat) : Nat → σ → σ
  | 0, s => s
  | j + 1, s =>
    retry_state k name type mode j (k.delay (k.dmu_objset_open s name type mode).2.2 1)

/-- The calls of a `retry:` loop whose first `n` attempts were `EBUSY` and whose next
attempt returned `ret`: `n` times an open and a `delay(1)`, then the last open. -/
def retry_trace (name : List Nat) (type mode : Nat) (ret : Int) : Nat → List event
  | 0 => [event.dmu_objset_open name type mode ret]
  | n + 1 =>
    event.dmu_objset_open name type mode EBUSY :: event.delay 1 ::
      retry_trace name type mode ret n

/-- The outcome of a `retry:` loop started in state `s` whose attempt number `n` is the
first that is not `EBUSY`: the error and the handle of that attempt, the calls made and
the state that attempt left. -/
def retry_result (k : Kernel σ) (name : List Nat) (type mode : Nat) (n : Nat) (s : σ) :
    Int × Nat × List event × σ :=
  ((k.dmu_objset_open (retry_state k name type mode n s) name type mode).1,
    (k.dmu_objset_open (retry_state k name type mode n s) name type mode).2.1,
    retry_trace name type mode
      (k.dmu_objset_open (retry_state k name type mode n s) name type mode).1 n,
    (k.dmu_objset_open (retry_state k name type mode n s) name type mode).2.2)

/-- The mode `DS_MODE_STANDARD | DS_MODE_READONLY`. -/
def ds_mode_readonly (k : Kernel σ) : Nat := k.DS_MODE_STANDARD ||| k.DS_MODE_READONLY

/-- `zfs_ioc_objset_stats` after a successful open of `os`: fast statistics, the property
list when a destination buffer is given, the alternate root, and the close. -/
def zfs_ioc_objset_stats_opened (k : Kernel σ) (s : σ) (zc : zfs_cmd_t) (os : Nat) :
    Int × zfs_cmd_t × List event × σ :=
  let zc1 := { zc with zc_objset_stats := k.dmu_objset_fast_stat s os }
  let r : Int × zfs_cmd_t × List event × σ :=
    if zc1.zc_nvlist_dst ≠ 0 then
      if (k.dsl_prop_get_all s os).1 = 0 then
        let nv := k.dmu_objset_stats s os (k.dsl_prop_get_all s os).2
        if zc1.zc_objset_stats.dds_inconsistent = false ∧
            k.dmu_objset_type s os = k.DMU_OST_ZVOL then
          let p := put_nvlist k s zc1 (k.zvol_get_stats s os nv)
          (p.1, p.2.1,
            [event.dmu_objset_fast_stat os, event.dsl_prop_get_all os,
              event.dmu_objset_stats os, event.zvol_get_stats os] ++ p.2.2.1, p.2.2.2)
        else
          let p := put_nvlist k s zc1 nv
          (p.1, p.2.1,
            [event.dmu_objset_fast_stat os, event.dsl_prop_get_all os,
              event.dmu_objset_stats os] ++ p.2.2.1, p.2.2.2)
      else
        ((k.dsl_prop_get_all s os).1, zc1,
          [event.dmu_objset_fast_stat os, event.dsl_prop_get_all os], s)
    else (0, zc1, [event.dmu_objset_fast_stat os], s)
  (r.1,
    { r.2.1 with
      zc_value := store_at r.2.1.zc_value 0 (k.spa_altroot r.2.2.2 os r.2.1.zc_value.length) },
    r.2.2.1 ++ [event.spa_altroot os, event.dmu_objset_close os],
    k.dmu_objset_close r.2.2.2 os)

/-- `zfs_ioc_objset_stats` from the end of its `retry:` loop on, the loop having ended
with the error `o.1`, the handle `o.2.1`, the calls `o.2.2.1` and the state `o.2.2.2`. -/
def zfs_ioc_objset_stats_after_open (k : Kernel σ) (zc : zfs_cmd_t)
    (o : Int × Nat × List event × σ) : Int × zfs_cmd_t × List event × σ :=
  if o.1 ≠ 0 then (o.1, zc, o.2.2.1, o.2.2.2)
  else
    ((zfs_ioc_objset_stats_opened k o.2.2.2 zc o.2.1).1,
      (zfs_ioc_objset_stats_opened k o.2.2.2 zc o.2.1).2.1,
      o.2.2.1 ++ (zfs_ioc_objset_stats_opened k o.2.2.2 zc o.2.1).2.2.1,
      (zfs_ioc_objset_stats_opened k o.2.2.2 zc o.2.1).2.2.2)

/-- `zfs_ioc_objset_stats`, with `fuel` for its `retry:` loop: the error, the request, the
calls made and the state. -/
def zfs_ioc_objset_stats (k : Kernel σ) (fuel : Nat) (s : σ) (zc : zfs_cmd_t) :
    Option (Int × zfs_cmd_t × List event × σ) :=
  match dmu_objset_open_retry k (cstr zc.zc_name) k.DMU_OST_ANY (ds_mode_readonly k) fuel s with
  | none => none
  | some o => some (zfs_ioc_objset_stats_after_open k zc o)

/-- The name array after `zfs_ioc_dataset_list_next` made sure it ends with '/'. -/
def dataset_list_prefix (zc_name : List Nat) : List Nat :=
  match strrchr zc_name 47 with
  | none => (strlcat zc_name [47] zc_name.length).1
  | some j =>
    if zc_name.getD (j + 1) 0 ≠ 0 then (strlcat zc_name [47] zc_name.length).1
    else zc_name

/-- The request after one call of `dmu_dir_list_next` in `zfs_ioc_dataset_list_next`: the
name of the child is stored at offset `p` of the name array and the cookie is advanced. -/
def dataset_list_stored (k : Kernel σ) (s : σ) (os p : Nat) (zc : zfs_cmd_t) : zfs_cmd_t :=
  { zc with
    zc_name := store_at zc.zc_name p
      (k.dmu_dir_list_next s os (zc.zc_name.length - p) zc.zc_cookie).2.1,
    zc_cookie := (k.dmu_dir_list_next s os (zc.zc_name.length - p) zc.zc_cookie).2.2 }

/-- The `do ... while` loop of `zfs_ioc_dataset_list_next`: ask the engine for the next
child, whose name is stored at offset `p` of the name array, until the engine fails or
the caller is in the global zone or the name is visible in the zone.  `fuel` bounds the
number of children asked for; `none` when they were all skipped. -/
def dataset_list_loop (k : Kernel σ) (s : σ) (os p : Nat) :
    Nat → zfs_cmd_t → Option (Int × zfs_cmd_t × List event)
  | 0, _ => none
  | fuel + 1, zc =>
    let r := k.dmu_dir_list_next s os (zc.zc_name.length - p) zc.zc_cookie
    let zc1 := dataset_list_stored k s os p zc
    let error : Int := if r.1 = ENOENT then ESRCH else r.1
    let ev := event.dmu_dir_list_next os (zc.zc_name.length - p) zc.zc_cookie r.1
    if error = 0 ∧ k.INGLOBALZONE = false then
      if (k.zone_dataset_visible s (cstr zc1.zc_name)).1 = 0 then
        match dataset_list_loop k s os p fuel zc1 with
        | none => none
        | some q =>
          some (q.1, q.2.1, ev :: event.zone_dataset_visible (cstr zc1.zc_name) :: q.2.2)
      else some (error, zc1, [ev, event.zone_dataset_visible (cstr zc1.zc_name)])
    else some (error, zc1, [ev])

/-- The request with which `zfs_ioc_dataset_list_next` enters its `do ... while` loop: the
name array ends with '/'. -/
def dataset_list_start (zc : zfs_cmd_t) : zfs_cmd_t :=
  { zc with zc_name := dataset_list_prefix zc.zc_name }

/-- `zfs_ioc_dataset_list_next` from the end of its `retry:` loop on. -/
def zfs_ioc_dataset_list_next_after_open (k : Kernel σ) (fuel : Nat) (zc : zfs_cmd_t)
    (o : Int × Nat × List event × σ) : Option (Int × zfs_cmd_t × List event × σ) :=
  if o.1 ≠ 0 then some (if o.1 = ENOENT then ESRCH else o.1, zc, o.2.2.1, o.2.2.2)
  else
    match dataset_list_loop k o.2.2.2 o.2.1 (strlen (dataset_list_start zc).zc_name) fuel
        (dataset_list_start zc) with
    | none => none
    | some l =>
      if l.1 = 0 ∧ strchr l.2.1.zc_name 36 = none then
        match zfs_ioc_objset_stats k fuel o.2.2.2 l.2.1 with
        | none => none
        | some r =>
          some (r.1, r.2.1, o.2.2.1 ++ l.2.2 ++ r.2.2.1 ++ [event.dmu_objset_close o.2.1],
            k.dmu_objset_close r.2.2.2 o.2.1)
      else
        some (l.1, l.2.1, o.2.2.1 ++ l.2.2 ++ [event.dmu_objset_close o.2.1],
          k.dmu_objset_close o.2.2.2 o.2.1)

/-- `zfs_ioc_dataset_list_next`, with `fuel` for each of its loops. -/
def zfs_ioc_dataset_list_next (k : Kernel σ) (fuel : Nat) (s : σ) (zc : zfs_cmd_t) :
    Option (Int × zfs_cmd_t × List event × σ) :=
  match dmu_objset_open_retry k (cstr zc.zc_name) k.DMU_OST_ANY (ds_mode_readonly k) fuel s with
  | none => none
  | some o => zfs_ioc_dataset_list_next_after_open k fuel zc o

/-- `zfs_ioc_snapshot_list_next` from the end of its `retry:` loop on. -/
def zfs_ioc_snapshot_list_next_after_open (k : Kernel σ) (fuel : Nat) (zc : zfs_cmd_t)
    (o : Int × Nat × List event × σ) : Option (Int × zfs_cmd_t × List event × σ) :=
  if o.1 ≠ 0 then some (if o.1 = ENOENT then ESRCH else o.1, zc, o.2.2.1, o.2.2.2)
  else
    let zc1 := { zc with zc_name := (strlcat zc.zc_name [64] zc.zc_name.length).1 }
    if (strlcat zc.zc_name [64] zc.zc_name.length).2 ≥ k.MAXNAMELEN then
      some (ESRCH, zc1, o.2.2.1 ++ [event.dmu_objset_close o.2.1],
        k.dmu_objset_close o.2.2.2 o.2.1)
    else
      let r := k.dmu_snapshot_list_next o.2.2.2 o.2.1
        (zc1.zc_name.length - strlen zc1.zc_name) zc1.zc_cookie
      let zc2 := { zc1 with
        zc_name := store_at zc1.zc_name (strlen zc1.zc_name) r.2.1, zc_cookie := r.2.2 }
      let ev := event.dmu_snapshot_list_next o.2.1 (zc1.zc_name.length - strlen zc1.zc_name)
        zc1.zc_cookie r.1
      if r.1 = 0 then
        match zfs_ioc_objset_stats k fuel o.2.2.2 zc2 with
        | none => none
        | some q =>
          some (q.1, q.2.1, o.2.2.1 ++ ev :: q.2.2.1 ++ [event.dmu_objset_close o.2.1],
            k.dmu_objset_close q.2.2.2 o.2.1)
      else
        some (if r.1 = ENOENT then ESRCH else r.1, zc2,
          o.2.2.1 ++ [ev, event.dmu_objset_close o.2.1], k.dmu_objset_close o.2.2.2 o.2.1)

/-- `zfs_ioc_snapshot_list_next`, with `fuel` for its `retry:` loop and for the one of
`zfs_ioc_objset_stats`. -/
def zfs_ioc_snapshot_list_next (k : Kernel σ) (fuel : Nat) (s : σ) (zc : zfs_cmd_t) :
    Option (Int × zfs_cmd_t × List event × σ) :=
  match dmu_objset_open_retry k (cstr zc.zc_name) k.DMU_OST_ANY (ds_mode_readonly k) fuel s with
  | none => none
  | some o => zfs_ioc_snapshot_list_next_after_open k fuel zc o

/-! ## Creating a dataset -/

/-- The local variables of `zfs_ioc_create` after `dmu_objset_create` returned: its
result, the request, the decoded properties (`cbdata.zc_props`, `none` for NULL), the
calls made so far and the state. -/
structure create_frame (σ : Type) where
  error : Int
  zc : zfs_cmd_t
  zc_props : Option nvlist_t
  trace : List event
  state : σ

/-- `zfs_ioc_create` up to and including `dmu_objset_create`: either the function
returned before creating anything (left: error, request, calls, state), or the creation
was attempted (right).  The local `type` is a `dmu_objset_type_t`, an enum 32 bits wide,
initialised from the 64-bit field `zc_objset_type`: it holds the low 32 bits of the
field, and it is `type` that the `switch`, the test of `cbfunc`, `dmu_objset_open` and
`dmu_objset_create` receive. -/
def zfs_ioc_create_objset (k : Kernel σ) (s : σ) (zc : zfs_cmd_t) :
    (Int × zfs_cmd_t × List event × σ) ⊕ create_frame σ :=
  let type := zc.zc_objset_type % 4294967296
  if type ≠ k.DMU_OST_ZFS ∧ type = k.DMU_OST_ZVOL then
    .inl (ENOSYS, zc, [], s)
  else if strchr zc.zc_name 64 ≠ none then .inl (EINVAL, zc, [], s)
  else
    let g : Int × Option nvlist_t × List event :=
      if zc.zc_nvlist_src ≠ 0 then get_nvlist k s zc else (0, none, [])
    if g.1 ≠ 0 then .inl (g.1, zc, g.2.2, s)
    else if zc.zc_value.headD 0 ≠ 0 then
      let zc1 := { zc with zc_value := zc.zc_value.set (zc.zc_value.length - 1) 0 }
      if k.dataset_namecheck (cstr zc1.zc_value) ≠ 0 then
        .inl (EINVAL, zc1, g.2.2 ++ [event.dataset_namecheck zc1.zc_value], s)
      else
        let o := k.dmu_objset_open s (cstr zc1.zc_value) type (ds_mode_readonly k)
        let t := g.2.2 ++ [event.dataset_namecheck zc1.zc_value,
          event.dmu_objset_open (cstr zc1.zc_value) type (ds_mode_readonly k) o.1]
        if o.1 ≠ 0 then .inl (o.1, zc1, t, o.2.2)
        else
          let c := k.dmu_objset_create o.2.2 (cstr zc1.zc_name) type (some o.2.1)
          .inr ⟨c.1, zc1, g.2.1,
            t ++ [event.dmu_objset_create (cstr zc1.zc_name) type (some o.2.1) c.1,
              event.dmu_objset_close o.2.1],
            k.dmu_objset_close c.2 o.2.1⟩
    else if type ≠ k.DMU_OST_ZFS then .inl (EINVAL, zc, g.2.2, s)
    else
      let c := k.dmu_objset_create s (cstr zc.zc_name) type none
      .inr ⟨c.1, zc, g.2.1,
        g.2.2 ++ [event.dmu_objset_create (cstr zc.zc_name) type none c.1], c.2⟩

/-- `zfs_ioc_create` after `dmu_objset_create`: when the creation succeeded, apply the
properties (a NULL list has no entry) and destroy the new dataset if that fails. -/
def zfs_ioc_create_props (k : Kernel σ) (f : create_frame σ) :
    Int × zfs_cmd_t × List event × σ :=
  if f.error = 0 then
    let sp := zfs_set_prop_nvlist k f.state (cstr f.zc.zc_name) f.zc.zc_dev f.zc.zc_cred
      (f.zc_props.getD [])
    if sp.1 ≠ 0 then
      let d := k.dmu_objset_destroy sp.2.2 (cstr f.zc.zc_name)
      (sp.1, f.zc,
        f.trace ++ sp.2.1.map Prod.snd ++ [event.dmu_objset_destroy (cstr f.zc.zc_name) d.1],
        d.2)
    else (sp.1, f.zc, f.trace ++ sp.2.1.map Prod.snd, sp.2.2)
  else (f.error, f.zc, f.trace, f.state)

/-- `zfs_ioc_create`: the error, the request, the calls made and the state. -/
def zfs_ioc_create (k : Kernel σ) (s : σ) (zc : zfs_cmd_t) :
    Int × zfs_cmd_t × List event × σ :=
  match zfs_ioc_create_objset k s zc with
  | .inl r => r
  | .inr f => zfs_ioc_create_props k f

/-- An event is a call of `dmu_objset_destroy`. -/
def event.is_destroy : event → Bool
  | .dmu_objset_destroy _ _ => true
  | _ => false

/-- An event is a call of `dmu_objset_create`. -/
def event.is_create : event → Bool
  | .dmu_objset_create _ _ _ _ => true
  | _ => false

/-- An event is a call of `dmu_objset_open`. -/
def event.is_open : event → Bool
  | .dmu_objset_open _ _ _ _ => true
  | _ => false

/-- An event is a call of `delay`. -/
def event.is_delay : event → Bool
  | .delay _ => true
  | _ => false

/-! ## A concrete kernel

A small executable instance of the collaborators, on which the definitions above can be
evaluated.  Its state counts the engine's successful set calls.  Datasets whose name
starts with 't' are visible and writable in the zone, datasets with a '/' in their name
are zoned, and credential 0 holds every privilege.  Datasets whose name starts with 'b'
are held exclusively until the state reaches 2, and every `delay` tick adds one to the
state; other datasets exist when their name starts with 't'.  A directory has the
children "x" and "a", in that order, and a dataset has the one snapshot "s". -/

/-- A request as user memory holds it: target "tank/a" in an 8-byte name array. -/
def sample_zc : zfs_cmd_t where
  zc_name := [116, 97, 110, 107, 47, 97, 0, 0]
  zc_value := [0, 0, 0, 0]
  zc_guid := 0
  zc_cookie := 0
  zc_nvlist_src := 4096
  zc_nvlist_src_size := 12
  zc_nvlist_dst := 8192
  zc_nvlist_dst_size := 0
  zc_cred := 0
  zc_dev := 0
  zc_objset_type := 2
  zc_objset_stats := ⟨false, 0⟩

/-- The concrete kernel, for a caller in a local zone. -/
def sample_kernel : Kernel Nat where
  ZFS_IOC := 23040
  MAXNAMELEN := 256
  INGLOBALZONE := false
  zone_dataset_visible := fun _ ds => if ds.head? = some 116 then (1, some 1) else (0, none)
  dsl_prop_get_integer := fun _ ds _ => (0, if 47 ∈ ds then 1 else 0, [116, 97, 110, 107])
  secpolicy_zfs := fun cr => if cr = 0 then 0 else EPERM
  secpolicy_sys_config := fun cr => if cr = 0 then 0 else EPERM
  secpolicy_zinject := fun cr => if cr = 0 then 0 else EPERM
  pool_namecheck := fun n => if n = [] ∨ 47 ∈ n ∨ 64 ∈ n then -1 else 0
  dataset_namecheck := fun n => if n = [] ∨ 36 ∈ n then -1 else 0
  xcopyin := fun _ uaddr size => (if uaddr = 0 then 14 else 0, List.replicate size 1)
  xcopyout := fun s _ uaddr _ => (if uaddr = 0 then 14 else 0, s)
  nvlist_size := fun nvl => 4 + 8 * nvl.length
  nvlist_pack := fun nvl => (List.replicate (4 + 8 * nvl.length) 7, 4 + 8 * nvl.length)
  nvlist_unpack := fun packed size => if packed.length = size then (0, []) else (EINVAL, [])
  zfs_name_to_prop := fun n =>
    if n.head? = some 113 then zfs_prop_t.ZFS_PROP_QUOTA
    else if n.head? = some 114 then zfs_prop_t.ZFS_PROP_RESERVATION
    else if n.head? = some 122 then zfs_prop_t.ZFS_PROP_ZONED
    else if n.head? = some 118 then zfs_prop_t.ZFS_PROP_VOLSIZE
    else if n.head? = some 99 then zfs_prop_t.other 0
    else if n.head? = some 109 then zfs_prop_t.other 1
    else zfs_prop_t.ZFS_PROP_INVAL
  zfs_prop_user := fun n => decide (58 ∈ n)
  zfs_prop_get_type := fun p =>
    if p = zfs_prop_t.ZFS_PROP_ZONED then zfs_proptype_t.prop_type_boolean
    else if p = zfs_prop_t.other 0 then zfs_proptype_t.prop_type_index
    else if p = zfs_prop_t.other 1 then zfs_proptype_t.prop_type_string
    else zfs_proptype_t.prop_type_number
  zfs_prop_index_to_string := fun _ v => if v < 3 then 0 else -1
  dsl_prop_set := fun s name _ _ _ buf =>
    if name = [] ∨ buf.head? = some 9 then (ENOENT, s) else (0, s + 1)
  dsl_dir_set_quota := fun s _ q => if q = 1 then (28, s) else (0, s + 1)
  dsl_dir_set_reservation := fun s _ q => if q = 1 then (28, s) else (0, s + 1)
  xcopyin_zc := fun _ arg => (if arg = 0 then 14 else 0, sample_zc)
  xcopyout_zc := fun s _ arg => (if arg = 1 then 14 else 0, s)
  zvec_func := fun _ s zc => (0, zc, s + 1)
  DMU_OST_ZFS := 2
  DMU_OST_ZVOL := 3
  DMU_OST_ANY := 5
  DS_MODE_STANDARD := 1
  DS_MODE_READONLY := 8
  dmu_objset_open := fun s name _ _ =>
    if name.head? = some 98 ∧ s < 2 then (EBUSY, 0, s)
    else if name.head? = some 116 ∨ name.head? = some 98 then (0, 7, s)
    else (ENOENT, 0, s)
  delay := fun s ticks => s + ticks
  dmu_objset_close := fun s _ => s
  dmu_objset_fast_stat := fun _ os => ⟨false, os⟩
  dsl_prop_get_all := fun _ _ => (0, [])
  dmu_objset_stats := fun _ _ nv => nv
  dmu_objset_type := fun _ _ => 2
  zvol_get_stats := fun _ _ nv => nv
  spa_altroot := fun _ _ _ => [0]
  dmu_dir_list_next := fun _ _ _ cookie =>
    if cookie = 0 then (0, [120, 0], 1)
    else if cookie = 1 then (0, [97, 0], 2)
    else (ENOENT, [], cookie)
  dmu_snapshot_list_next := fun _ _ _ cookie =>
    if cookie = 0 then (0, [115, 0], 1) else (ENOENT, [], cookie)
  dmu_objset_create := fun s name _ _ => if 120 ∈ name then (17, s) else (0, s + 10)
  dmu_objset_destroy := fun s _ => (0, s + 100)

/-- The concrete kernel, for a caller in the global zone. -/
def sample_kernel_global : Kernel Nat :=
  { sample_kernel with INGLOBALZONE := true }

/-- The concrete kernel when user memory holds a request whose 8-byte name array,
"tanktank", has no NUL byte. -/
def sample_kernel_unterminated : Kernel Nat :=
  { sample_kernel with
    xcopyin_zc := fun _ _ =>
      (0, { sample_zc with zc_name := [116, 97, 110, 107, 116, 97, 110, 107] }) }

/-- The concrete kernel with an engine that cannot read the property 'zoned'. -/
def sample_kernel_unreadable : Kernel Nat :=
  { sample_kernel with dsl_prop_get_integer := fun _ _ _ => (5, 0, []) }

/-- A request on the dataset "bank", held exclusively at first, with no destination
buffer. -/
def sample_zc_bank : zfs_cmd_t :=
  { sample_zc with zc_name := [98, 97, 110, 107, 0, 0, 0, 0], zc_nvlist_dst := 0 }

/-- A request on the dataset "none", which does not exist. -/
def sample_zc_none : zfs_cmd_t :=
  { sample_zc with zc_name := [110, 111, 110, 101, 0, 0, 0, 0], zc_nvlist_dst := 0 }

/-- The concrete kernel with a state that also records what was copied out to user
memory: a copy-out of `size` bytes adds `1000 * size` to the state, and the copy-out of a
request structure adds 500 and the cookie of the structure.  Its handlers advance the
cookie of the request by 3. -/
def sample_kernel_copying : Kernel Nat :=
  { sample_kernel with
    xcopyout := fun s _ uaddr size => (if uaddr = 0 then 14 else 0, s + 1000 * size)
    xcopyout_zc := fun s zc arg => (if arg = 1 then 14 else 0, s + 500 + zc.zc_cookie)
    zvec_func := fun _ s zc => (0, { zc with zc_cookie := zc.zc_cookie + 3 }, s + 1) }

/-! ## Theorems -/

/-! ### C strings -/

theorem cstr_append_nul (l r : List Nat) (h0 : 0 ∉ l) : cstr (l ++ 0 :: r) = l := by
  induction l with
  | nil => simp [cstr]
  | cons x xs ih =>
    have hx : x ≠ 0 := fun h => h0 (by simp [h])
    have hxs : 0 ∉ xs := fun h => h0 (by simp [h])
    simp [cstr, hx, ih hxs]

theorem cstr_of_no_nul (l : List Nat) (h0 : 0 ∉ l) : cstr l = l := by
  induction l with
  | nil => simp [cstr]
  | cons x xs ih =>
    have hx : x ≠ 0 := fun h => h0 (by simp [h])
    have hxs : 0 ∉ xs := fun h => h0 (by simp [h])
    simp [cstr, hx, ih hxs]

theorem strncpy_short (name : List Nat) (n : Nat) (h0 : 0 ∉ name) (hlen : name.length < n) :
    strncpy name n = name ++ 0 :: List.replicate (n - name.length - 1) 0 := by
  unfold strncpy
  rw [cstr_of_no_nul name h0, List.take_of_length_le (Nat.le_of_lt hlen)]
  obtain ⟨m, hm⟩ : ∃ m, n - name.length = m + 1 := ⟨n - name.length - 1, by omega⟩
  rw [hm]
  simp [List.replicate_succ]

theorem strrchr_from_none (c : Nat) (l r : List Nat) (i : Nat) (hc : c ∉ l) :
    strrchr_from c (l ++ 0 :: r) i = none := by
  induction l generalizing i with
  | nil => simp [strrchr_from]
  | cons x xs ih =>
    have hx : x ≠ c := fun h => hc (by simp [h])
    have hxs : c ∉ xs := fun h => hc (by simp [h])
    simp [strrchr_from, ih (i + 1) hxs, hx]

theorem strrchr_from_last (c : Nat) (pre post r : List Nat) (i : Nat) (hc0 : c ≠ 0)
    (h0 : 0 ∉ pre) (hc : c ∉ post) :
    strrchr_from c (pre ++ c :: (post ++ 0 :: r)) i = some (i + pre.length) := by
  induction pre generalizing i with
  | nil => simp [strrchr_from, hc0, strrchr_from_none c post r (i + 1) hc]
  | cons x xs ih =>
    have hx : x ≠ 0 := fun h => h0 (by simp [h])
    have hxs : 0 ∉ xs := fun h => h0 (by simp [h])
    simp [strrchr_from, hx, ih (i + 1) hxs]
    omega

theorem set_at_length (pre rest : List Nat) (c b : Nat) :
    (pre ++ c :: rest).set pre.length b = pre ++ b :: rest := by
  induction pre with
  | nil => simp
  | cons x xs ih => simp [ih]

/-! ### Security policies -/

/-- C4. `zfs_secpolicy_read` returns 0 when the caller is in the global zone or
`zone_dataset_visible` holds for the dataset, and `ENOENT` otherwise; its result is
always 0 or `ENOENT` and never `EPERM`.  In the global zone it does not call
`zone_dataset_visible` at all. -/
theorem zfs_secpolicy_read_spec (k : Kernel σ) (s : σ) (dataset : List Nat) (cr : cred_t) :
    (zfs_secpolicy_read k s dataset cr).1 =
        (if k.INGLOBALZONE = true ∨ (k.zone_dataset_visible s dataset).1 ≠ 0 then 0
         else ENOENT) ∧
      ((zfs_secpolicy_read k s dataset cr).1 = 0 ∨
        (zfs_secpolicy_read k s dataset cr).1 = ENOENT) ∧
      (zfs_secpolicy_read k s dataset cr).1 ≠ EPERM := by
  unfold zfs_secpolicy_read
  cases hg : k.INGLOBALZONE
  · by_cases hv : (k.zone_dataset_visible s dataset).1 = 0
    · simp [hv, ENOENT, EPERM]
    · simp [hv, ENOENT, EPERM]
  · simp [EPERM]

/-- C5. The result of `zfs_secpolicy_write` is the one the decision table gives; and for
a caller outside the global zone, a dataset that is visible and whose 'zoned' property
reads as 0 gets `EPERM` from the write policy and 0 from the read policy. -/
theorem zfs_secpolicy_write_spec (k : Kernel σ) (s : σ) (dataset : List Nat) (cr : cred_t) :
    (zfs_secpolicy_write k s dataset cr).1 = zfs_secpolicy_write_table k s dataset cr ∧
      (k.INGLOBALZONE = false → (k.zone_dataset_visible s dataset).1 ≠ 0 →
        (k.dsl_prop_get_integer s dataset str_zoned).1 = 0 →
        (k.dsl_prop_get_integer s dataset str_zoned).2.1 = 0 →
        (zfs_secpolicy_write k s dataset cr).1 = EPERM ∧
          (zfs_secpolicy_read k s dataset cr).1 = 0) := by
  constructor
  · unfold zfs_secpolicy_write zfs_dozonecheck zfs_secpolicy_write_table
    cases hg : k.INGLOBALZONE <;>
      by_cases hv : (k.zone_dataset_visible s dataset).1 = 0 <;>
      by_cases hr : (k.dsl_prop_get_integer s dataset str_zoned).1 = 0 <;>
      by_cases hz : (k.dsl_prop_get_integer s dataset str_zoned).2.1 = 0 <;>
      by_cases hw : (k.zone_dataset_visible s dataset).2.getD 1 = 0 <;>
      by_cases hp : k.secpolicy_zfs cr = 0 <;>
      simp [hv, hr, hz, hw, hp, ENOENT, EPERM]
  · intro hg hv hr hz
    unfold zfs_secpolicy_write zfs_dozonecheck zfs_secpolicy_read
    simp [hg, hv, hr, hz, EPERM]

/-- C5, on the concrete kernel: in a local zone the pool "tank" is visible and not zoned,
so writing is refused with `EPERM` while reading is allowed. -/
theorem zfs_secpolicy_write_spec_witness :
    (zfs_secpolicy_write sample_kernel 0 [116, 97, 110, 107] 0).1 =
        zfs_secpolicy_write_table sample_kernel 0 [116, 97, 110, 107] 0 ∧
      (zfs_secpolicy_write sample_kernel 0 [116, 97, 110, 107] 0).1 = EPERM ∧
      (zfs_secpolicy_read sample_kernel 0 [116, 97, 110, 107] 0).1 = 0 :=
  ⟨(zfs_secpolicy_write_spec sample_kernel 0 [116, 97, 110, 107] 0).1,
    (zfs_secpolicy_write_spec sample_kernel 0 [116, 97, 110, 107] 0).2 rfl (by decide) rfl rfl⟩

/-- C6. For a name shorter than `MAXNAMELEN`: if it holds an '@', `zfs_secpolicy_parent`
is `zfs_secpolicy_write` on the part before the last '@' (same result, same calls);
otherwise, if it holds a '/', it is `zfs_secpolicy_write` on the part before the last '/';
otherwise it returns `ENOENT` and makes no call at all. -/
theorem zfs_secpolicy_parent_spec (k : Kernel σ) (s : σ) (name : List Nat) (cr : cred_t)
    (h0 : 0 ∉ name) (hlen : name.length < k.MAXNAMELEN) :
    (∀ pre post, name = pre ++ 64 :: post → 64 ∉ post →
        zfs_secpolicy_parent k s name cr = zfs_secpolicy_write k s pre cr) ∧
      (64 ∉ name → ∀ pre post, name = pre ++ 47 :: post → 47 ∉ post →
        zfs_secpolicy_parent k s name cr = zfs_secpolicy_write k s pre cr) ∧
      (64 ∉ name → 47 ∉ name → zfs_secpolicy_parent k s name cr = (ENOENT, [])) := by
  have hcopy := strncpy_short name k.MAXNAMELEN h0 hlen
  refine ⟨?_, ?_, ?_⟩
  · intro pre post hname hpost
    have hpre : 0 ∉ pre := fun h => h0 (by simp [hname, h])
    unfold zfs_secpolicy_parent
    simp only [hcopy, strrchr]
    rw [hname, List.append_assoc, List.cons_append,
      strrchr_from_last 64 pre post _ 0 (by decide) hpre hpost]
    simp only [Nat.zero_add, set_at_length, cstr_append_nul pre _ hpre]
  · intro hat pre post hname hpost
    have hpre : 0 ∉ pre := fun h => h0 (by simp [hname, h])
    unfold zfs_secpolicy_parent
    simp only [hcopy, strrchr]
    rw [strrchr_from_none 64 name _ 0 hat]
    simp only
    rw [hname, List.append_assoc, List.cons_append,
      strrchr_from_last 47 pre post _ 0 (by decide) hpre hpost]
    simp only [Nat.zero_add, set_at_length, cstr_append_nul pre _ hpre]
  · intro hat hslash
    unfold zfs_secpolicy_parent
    simp only [hcopy, strrchr]
    rw [strrchr_from_none 64 name _ 0 hat, strrchr_from_none 47 name _ 0 hslash]

/-- C6, on the concrete kernel: the parent of "tank/a@s" is "tank/a", the parent of
"tank/a" is "tank", and "tank" has no parent. -/
theorem zfs_secpolicy_parent_spec_witness :
    zfs_secpolicy_parent sample_kernel 0 [116, 97, 110, 107, 47, 97, 64, 115] 0 =
        zfs_secpolicy_write sample_kernel 0 [116, 97, 110, 107, 47, 97] 0 ∧
      zfs_secpolicy_parent sample_kernel 0 [116, 97, 110, 107, 47, 97] 0 =
        zfs_secpolicy_write sample_kernel 0 [116, 97, 110, 107] 0 ∧
      zfs_secpolicy_parent sample_kernel 0 [116, 97, 110, 107] 0 = (ENOENT, []) :=
  ⟨(zfs_secpolicy_parent_spec sample_kernel 0 [116, 97, 110, 107, 47, 97, 64, 115] 0
      (by decide) (by decide)).1 [116, 97, 110, 107, 47, 97] [115] rfl (by decide),
    (zfs_secpolicy_parent_spec sample_kernel 0 [116, 97, 110, 107, 47, 97] 0
      (by decide) (by decide)).2.1 (by decide) [116, 97, 110, 107] [97] rfl (by decide),
    (zfs_secpolicy_parent_spec sample_kernel 0 [116, 97, 110, 107] 0
      (by decide) (by decide)).2.2 (by decide) (by decide)⟩

/-! ### The nvlist codec -/

/-- C7. When the serialized size of the list exceeds `zc_nvlist_dst_size`, `put_nvlist`
returns `ENOMEM`, makes no copy-out, leaves the state alone and stores the size in
`zc_nvlist_dst_size`.  A second `put_nvlist` of the same list on a request whose
`zc_nvlist_dst_size` is that size (the request the first call left, for one) takes the
copy-out branch: its only call is the copy-out of the packed bytes with that size to
`zc_nvlist_dst`, the state it leaves is the one that copy-out produced, it leaves
`zc_nvlist_dst_size` at that size, and its result is the status of the copy-out: 0 when
the copy-out succeeds, and `ENOMEM` only if the copy-out itself reported it.
`nvlist_pack` is taken to report the size `nvlist_size` announced. -/
theorem put_nvlist_spec (k : Kernel σ) (s s2 : σ) (zc zc2 : zfs_cmd_t) (nvl : nvlist_t)
    (hpack : (k.nvlist_pack nvl).2 = k.nvlist_size nvl)
    (hsmall : k.nvlist_size nvl > zc.zc_nvlist_dst_size)
    (hretry : zc2.zc_nvlist_dst_size = k.nvlist_size nvl) :
    put_nvlist k s zc nvl =
        (ENOMEM, { zc with zc_nvlist_dst_size := k.nvlist_size nvl }, [], s) ∧
      (put_nvlist k s zc nvl).2.1.zc_nvlist_dst_size = k.nvlist_size nvl ∧
      put_nvlist k s2 zc2 nvl =
        ((k.xcopyout s2 (k.nvlist_pack nvl).1 zc2.zc_nvlist_dst (k.nvlist_size nvl)).1, zc2,
          [event.xcopyout (k.nvlist_pack nvl).1 zc2.zc_nvlist_dst (k.nvlist_size nvl)],
          (k.xcopyout s2 (k.nvlist_pack nvl).1 zc2.zc_nvlist_dst (k.nvlist_size nvl)).2) ∧
      (put_nvlist k s2 zc2 nvl).2.2.1 =
        [event.xcopyout (k.nvlist_pack nvl).1 zc2.zc_nvlist_dst (k.nvlist_size nvl)] ∧
      (put_nvlist k s2 zc2 nvl).2.2.2 =
        (k.xcopyout s2 (k.nvlist_pack nvl).1 zc2.zc_nvlist_dst (k.nvlist_size nvl)).2 ∧
      (put_nvlist k s2 zc2 nvl).2.1 = zc2 ∧
      (put_nvlist k s2 zc2 nvl).1 =
        (k.xcopyout s2 (k.nvlist_pack nvl).1 zc2.zc_nvlist_dst (k.nvlist_size nvl)).1 ∧
      ((k.xcopyout s2 (k.nvlist_pack nvl).1 zc2.zc_nvlist_dst (k.nvlist_size nvl)).1 = 0 →
        (put_nvlist k s2 zc2 nvl).1 = 0) ∧
      ((k.xcopyout s2 (k.nvlist_pack nvl).1 zc2.zc_nvlist_dst (k.nvlist_size nvl)).1 ≠ ENOMEM →
        (put_nvlist k s2 zc2 nvl).1 ≠ ENOMEM) := by
  have h2 : ¬ k.nvlist_size nvl > zc2.zc_nvlist_dst_size := by omega
  have hzc : ({ zc2 with zc_nvlist_dst_size := k.nvlist_size nvl } : zfs_cmd_t) = zc2 := by
    cases zc2
    simp only at hretry
    rw [hretry]
  have hfull : put_nvlist k s2 zc2 nvl =
      ((k.xcopyout s2 (k.nvlist_pack nvl).1 zc2.zc_nvlist_dst (k.nvlist_size nvl)).1, zc2,
        [event.xcopyout (k.nvlist_pack nvl).1 zc2.zc_nvlist_dst (k.nvlist_size nvl)],
        (k.xcopyout s2 (k.nvlist_pack nvl).1 zc2.zc_nvlist_dst (k.nvlist_size nvl)).2) := by
    simp only [put_nvlist, h2, if_false, hpack, hzc]
  refine ⟨?_, ?_, hfull, ?_, ?_, ?_, ?_, ?_, ?_⟩
  · simp [put_nvlist, hsmall]
  · simp [put_nvlist, hsmall]
  · rw [hfull]
  · rw [hfull]
  · rw [hfull]
  · rw [hfull]
  · intro h
    rw [hfull]
    exact h
  · intro h
    rw [hfull]
    exact h

/-- C7, on the concrete kernel whose state records the bytes copied out: the empty list
packs to 4 bytes; with a 0-byte destination the first call reports `ENOMEM` and the size
4 and leaves the state at 0, and the retry on the request it left copies the 4 bytes out
to address 8192, leaves the state 4000 that this copy-out produced, and returns 0. -/
theorem put_nvlist_spec_witness :
    put_nvlist sample_kernel_copying 0 sample_zc [] =
        (ENOMEM, { sample_zc with zc_nvlist_dst_size := 4 }, [], 0) ∧
      put_nvlist sample_kernel_copying 0
          (put_nvlist sample_kernel_copying 0 sample_zc []).2.1 [] =
        (0, { sample_zc with zc_nvlist_dst_size := 4 },
          [event.xcopyout [7, 7, 7, 7] 8192 4], 4000) :=
  ⟨(put_nvlist_spec sample_kernel_copying 0 0 sample_zc
      (put_nvlist sample_kernel_copying 0 sample_zc []).2.1 [] rfl (by decide) rfl).1,
    (put_nvlist_spec sample_kernel_copying 0 0 sample_zc
      (put_nvlist sample_kernel_copying 0 sample_zc []).2.1 [] rfl (by decide) rfl).2.2.1⟩

/-- C8. `get_nvlist` returns `EINVAL` with no call at all when `zc_nvlist_src_size` is 0.
Otherwise it copies in `zc_nvlist_src_size` bytes from `zc_nvlist_src`; if that fails it
returns the copy-in error without unpacking; if the unpack fails it returns the unpack
error; in both cases no list is stored.  It returns 0 exactly when the size is nonzero
and both steps succeed, and exactly then it stores the unpacked list. -/
theorem get_nvlist_spec (k : Kernel σ) (s : σ) (zc : zfs_cmd_t) :
    (zc.zc_nvlist_src_size = 0 → get_nvlist k s zc = (EINVAL, none, [])) ∧
      (zc.zc_nvlist_src_size ≠ 0 →
        (k.xcopyin s zc.zc_nvlist_src zc.zc_nvlist_src_size).1 ≠ 0 →
        get_nvlist k s zc =
          ((k.xcopyin s zc.zc_nvlist_src zc.zc_nvlist_src_size).1, none,
            [event.xcopyin zc.zc_nvlist_src zc.zc_nvlist_src_size])) ∧
      (zc.zc_nvlist_src_size ≠ 0 →
        (k.xcopyin s zc.zc_nvlist_src zc.zc_nvlist_src_size).1 = 0 →
        (k.nvlist_unpack (k.xcopyin s zc.zc_nvlist_src zc.zc_nvlist_src_size).2
          zc.zc_nvlist_src_size).1 ≠ 0 →
        get_nvlist k s zc =
          ((k.nvlist_unpack (k.xcopyin s zc.zc_nvlist_src zc.zc_nvlist_src_size).2
              zc.zc_nvlist_src_size).1, none,
            [event.xcopyin zc.zc_nvlist_src zc.zc_nvlist_src_size,
              event.nvlist_unpack (k.xcopyin s zc.zc_nvlist_src zc.zc_nvlist_src_size).2
                zc.zc_nvlist_src_size])) ∧
      (zc.zc_nvlist_src_size ≠ 0 →
        (k.xcopyin s zc.zc_nvlist_src zc.zc_nvlist_src_size).1 = 0 →
        (k.nvlist_unpack (k.xcopyin s zc.zc_nvlist_src zc.zc_nvlist_src_size).2
          zc.zc_nvlist_src_size).1 = 0 →
        get_nvlist k s zc =
          (0, some (k.nvlist_unpack (k.xcopyin s zc.zc_nvlist_src zc.zc_nvlist_src_size).2
              zc.zc_nvlist_src_size).2,
            [event.xcopyin zc.zc_nvlist_src zc.zc_nvlist_src_size,
              event.nvlist_unpack (k.xcopyin s zc.zc_nvlist_src zc.zc_nvlist_src_size).2
                zc.zc_nvlist_src_size])) ∧
      ((get_nvlist k s zc).1 = 0 ↔
        (zc.zc_nvlist_src_size ≠ 0 ∧
          (k.xcopyin s zc.zc_nvlist_src zc.zc_nvlist_src_size).1 = 0 ∧
          (k.nvlist_unpack (k.xcopyin s zc.zc_nvlist_src zc.zc_nvlist_src_size).2
            zc.zc_nvlist_src_size).1 = 0)) ∧
      ((get_nvlist k s zc).2.1.isSome = true ↔ (get_nvlist k s zc).1 = 0) := by
  unfold get_nvlist
  by_cases hs : zc.zc_nvlist_src_size = 0
  · simp [hs, EINVAL]
  · by_cases hc : (k.xcopyin s zc.zc_nvlist_src zc.zc_nvlist_src_size).1 = 0
    · by_cases hu : (k.nvlist_unpack (k.xcopyin s zc.zc_nvlist_src zc.zc_nvlist_src_size).2
          zc.zc_nvlist_src_size).1 = 0
      · simp [hs, hc, hu]
      · simp [hs, hc, hu]
    · simp [hs, hc]

/-- C8, on the concrete kernel: a size of 0 gives `EINVAL` and no call; a copy-in from
address 0 fails with error 14 before any unpack; a good copy-in of 12 bytes is unpacked
and the list is stored. -/
theorem get_nvlist_spec_witness :
    get_nvlist sample_kernel 0 { sample_zc with zc_nvlist_src_size := 0 } =
        (EINVAL, none, []) ∧
      get_nvlist sample_kernel 0 { sample_zc with zc_nvlist_src := 0 } =
        (14, none, [event.xcopyin 0 12]) ∧
      get_nvlist sample_kernel 0 sample_zc =
        (0, some [], [event.xcopyin 4096 12,
          event.nvlist_unpack [1, 1, 1, 1, 1, 1, 1, 1, 1, 1, 1, 1] 12]) :=
  ⟨(get_nvlist_spec sample_kernel 0 { sample_zc with zc_nvlist_src_size := 0 }).1 rfl,
    (get_nvlist_spec sample_kernel 0 { sample_zc with zc_nvlist_src := 0 }).2.1
      (by decide) (by decide),
    (get_nvlist_spec sample_kernel 0 sample_zc).2.2.2.1 (by decide) (by decide) (by decide)⟩

/-! ### The entry point -/

theorem zfs_ioc_vec_length : zfs_ioc_vec.length = 40 := rfl

theorem zfs_dozonecheck_trace (k : Kernel σ) (s : σ) (dataset : List Nat) (cr : cred_t) :
    ∀ ev ∈ (zfs_dozonecheck k s dataset cr).2, ev.is_policy_query = true := by
  unfold zfs_dozonecheck
  intro ev hev
  simp only at hev
  split_ifs at hev <;>
    simp only [List.mem_append, List.mem_cons, List.mem_singleton, List.not_mem_nil,
      or_false, false_or, List.nil_append] at hev <;>
    (rcases hev with (rfl | rfl) | rfl <;> rfl)

theorem zfs_secpolicy_write_trace (k : Kernel σ) (s : σ) (dataset : List Nat) (cr : cred_t) :
    ∀ ev ∈ (zfs_secpolicy_write k s dataset cr).2, ev.is_policy_query = true := by
  unfold zfs_secpolicy_write
  intro ev hev
  simp only at hev
  split_ifs at hev
  · exact zfs_dozonecheck_trace k s dataset cr ev hev
  · simp only [List.mem_append, List.mem_singleton] at hev
    rcases hev with h | h
    · exact zfs_dozonecheck_trace k s dataset cr ev h
    · simp [h, event.is_policy_query]

theorem zvec_secpolicy_call_trace (k : Kernel σ) (s : σ) (p : zfs_secpolicy_func_t)
    (zc_name : List Nat) (cr : cred_t) :
    ∀ ev ∈ (zvec_secpolicy_call k s p zc_name cr).2, ev.is_policy_query = true := by
  intro ev hev
  cases p
  · simp [zvec_secpolicy_call, zfs_secpolicy_none] at hev
  · simp only [zvec_secpolicy_call, zfs_secpolicy_read] at hev
    split_ifs at hev <;> simp at hev <;> simp [hev, event.is_policy_query]
  · exact zfs_secpolicy_write_trace k s _ cr ev hev
  · simp only [zvec_secpolicy_call, zfs_secpolicy_parent] at hev
    split at hev
    · exact zfs_secpolicy_write_trace k s _ cr ev hev
    · split at hev
      · simp at hev
      · exact zfs_secpolicy_write_trace k s _ cr ev hev
  · simp only [zvec_secpolicy_call, zfs_secpolicy_config] at hev
    split_ifs at hev <;> simp at hev <;> simp [hev, event.is_policy_query]
  · simp only [zvec_secpolicy_call, zfs_secpolicy_inject, List.mem_singleton] at hev
    simp [hev, event.is_policy_query]

theorem policy_query_kind (ev : event) (h : ev.is_policy_query = true) :
    ev.is_namecheck = false ∧ ev.is_zvec_func = false ∧ ev.is_xcopyout_zc = false ∧
      ev.is_zvec_secpolicy = false := by
  cases ev <;> simp_all [event.is_policy_query, event.is_namecheck, event.is_zvec_func,
    event.is_xcopyout_zc, event.is_zvec_secpolicy]

theorem zfsdev_ioctl_in_range (k : Kernel σ) (s : σ) (dev : Nat) (cmd : Int) (arg : Nat)
    (cr : cred_t) (row : zfs_ioc_vec_t) (hrow : zfs_ioc_vec[ioctl_vec k cmd]? = some row) :
    zfsdev_ioctl k s dev cmd arg cr =
      ((zfsdev_ioctl_row k s dev (ioctl_vec k cmd) row arg cr).error,
        (zfsdev_ioctl_row k s dev (ioctl_vec k cmd) row arg cr).trace,
        (zfsdev_ioctl_row k s dev (ioctl_vec k cmd) row arg cr).state) := by
  obtain ⟨hlt, hget⟩ := List.getElem?_eq_some_iff.mp hrow
  unfold zfsdev_ioctl
  have hn : ¬ ioctl_vec k cmd ≥ zfs_ioc_vec.length := by omega
  simp only [hn, dite_false, List.get_eq_getElem, hget]

/-- C1. For an in-range command whose copy-in succeeds, when the policy of its row
returns a nonzero error `e`, `zfsdev_ioctl` returns `e`; the calls it makes are the
copy-in, the policy (with the queries the policy makes) and the copy-out of the request,
so neither `pool_namecheck`, `dataset_namecheck` nor the handler is called, and the state
is touched by the copy-out only. -/
theorem zfsdev_ioctl_secpolicy_error (k : Kernel σ) (s : σ) (dev : Nat) (cmd : Int)
    (arg : Nat) (cr : cred_t) (row : zfs_ioc_vec_t) (e : Int)
    (hrow : zfs_ioc_vec[ioctl_vec k cmd]? = some row)
    (hcopy : (k.xcopyin_zc s arg).1 = 0)
    (hpol : (zvec_secpolicy_call k s row.zvec_secpolicy
      (k.xcopyin_zc s arg).2.zc_name cr).1 = e)
    (he : e ≠ 0) :
    (zfsdev_ioctl k s dev cmd arg cr).1 = e ∧
      (zfsdev_ioctl k s dev cmd arg cr).2.1 =
        event.xcopyin_zc arg ::
          event.zvec_secpolicy (ioctl_vec k cmd) (k.xcopyin_zc s arg).2.zc_name ::
            ((zvec_secpolicy_call k s row.zvec_secpolicy
                (k.xcopyin_zc s arg).2.zc_name cr).2 ++
              [event.xcopyout_zc (ioctl_request k s dev arg cr) arg]) ∧
      (∀ ev ∈ (zfsdev_ioctl k s dev cmd arg cr).2.1,
        ev.is_namecheck = false ∧ ev.is_zvec_func = false) ∧
      (zfsdev_ioctl k s dev cmd arg cr).2.2 =
        (k.xcopyout_zc s (ioctl_request k s dev arg cr) arg).2 := by
  have htrace : (zfsdev_ioctl k s dev cmd arg cr).2.1 =
      event.xcopyin_zc arg ::
        event.zvec_secpolicy (ioctl_vec k cmd) (k.xcopyin_zc s arg).2.zc_name ::
          ((zvec_secpolicy_call k s row.zvec_secpolicy
              (k.xcopyin_zc s arg).2.zc_name cr).2 ++
            [event.xcopyout_zc (ioctl_request k s dev arg cr) arg]) := by
    rw [zfsdev_ioctl_in_range k s dev cmd arg cr row hrow]
    subst hpol
    simp [zfsdev_ioctl_row, ioctl_copyin, ioctl_secpolicy, ioctl_namecheck, ioctl_func,
      ioctl_copyout, hcopy, he, ioctl_request]
  refine ⟨?_, htrace, ?_, ?_⟩
  · rw [zfsdev_ioctl_in_range k s dev cmd arg cr row hrow]
    subst hpol
    simp [zfsdev_ioctl_row, ioctl_copyin, ioctl_secpolicy, ioctl_namecheck, ioctl_func,
      ioctl_copyout, hcopy, he]
  · intro ev hev
    rw [htrace] at hev
    simp only [List.mem_cons, List.mem_append, List.mem_singleton, List.not_mem_nil,
      or_false] at hev
    rcases hev with rfl | rfl | h | rfl
    · exact ⟨rfl, rfl⟩
    · exact ⟨rfl, rfl⟩
    · have := policy_query_kind ev (zvec_secpolicy_call_trace k s _ _ cr ev h)
      exact ⟨this.1, this.2.1⟩
    · exact ⟨rfl, rfl⟩
  · rw [zfsdev_ioctl_in_range k s dev cmd arg cr row hrow]
    subst hpol
    simp [zfsdev_ioctl_row, ioctl_copyin, ioctl_secpolicy, ioctl_namecheck, ioctl_func,
      ioctl_copyout, hcopy, he, ioctl_request]

/-- C1, on the concrete kernel: command 22 (`zfs_ioc_set_prop`, write policy) on
"tank/a" by a caller without the ZFS privilege is refused with `EPERM`; the trace holds
the copy-in, the policy with its three queries, and the copy-out. -/
theorem zfsdev_ioctl_secpolicy_error_witness :
    (zfsdev_ioctl sample_kernel 0 0 23062 7 5).1 = EPERM ∧
      (zfsdev_ioctl sample_kernel 0 0 23062 7 5).2.1 =
        [event.xcopyin_zc 7,
          event.zvec_secpolicy 22 [116, 97, 110, 107, 47, 97, 0, 0],
          event.zone_dataset_visible [116, 97, 110, 107, 47, 97],
          event.dsl_prop_get_integer [116, 97, 110, 107, 47, 97] str_zoned,
          event.secpolicy_zfs 5,
          event.xcopyout_zc { sample_zc with zc_cred := 5 } 7] :=
  ⟨(zfsdev_ioctl_secpolicy_error sample_kernel 0 0 23062 7 5
      ⟨.zfs_ioc_set_prop, .zfs_secpolicy_write, .dataset_name⟩ EPERM
      (by decide) (by decide) (by decide) (by decide)).1, by decide⟩

/-- C2. The table has 40 rows.  When `cmd - ZFS_IOC`, as an unsigned 32-bit integer, is 40
or more, `zfsdev_ioctl` returns `EINVAL`, makes no call at all (no copy-in, policy, name
check, handler or copy-out) and leaves the state alone.  That covers every `int` value
of `cmd` below `ZFS_IOC`, for a `ZFS_IOC` of at most 2^31 - 40. -/
theorem zfsdev_ioctl_invalid_command (k : Kernel σ) (s : σ) (dev : Nat) (cmd : Int)
    (arg : Nat) (cr : cred_t) :
    zfs_ioc_vec.length = 40 ∧
      (ioctl_vec k cmd ≥ 40 → zfsdev_ioctl k s dev cmd arg cr = (EINVAL, [], s)) ∧
      (-2147483648 ≤ cmd → cmd < k.ZFS_IOC → k.ZFS_IOC ≤ 2147483608 →
        ioctl_vec k cmd ≥ 40 ∧ zfsdev_ioctl k s dev cmd arg cr = (EINVAL, [], s)) := by
  have hmain : ioctl_vec k cmd ≥ 40 → zfsdev_ioctl k s dev cmd arg cr = (EINVAL, [], s) := by
    intro h
    have h40 : ioctl_vec k cmd ≥ zfs_ioc_vec.length := by rw [zfs_ioc_vec_length]; exact h
    simp [zfsdev_ioctl, h40]
  refine ⟨rfl, hmain, ?_⟩
  intro hlo hlt hioc
  have hvec : ioctl_vec k cmd ≥ 40 := by
    unfold ioctl_vec
    omega
  exact ⟨hvec, hmain hvec⟩

/-- C2, on the concrete kernel (`ZFS_IOC` = 23040): command number 23080, one past the
table, and command number 5, below `ZFS_IOC`, are refused with `EINVAL` and no call. -/
theorem zfsdev_ioctl_invalid_command_witness :
    zfsdev_ioctl sample_kernel 0 0 23080 7 0 = (EINVAL, [], 0) ∧
      zfsdev_ioctl sample_kernel 0 0 5 7 0 = (EINVAL, [], 0) :=
  ⟨(zfsdev_ioctl_invalid_command sample_kernel 0 0 23080 7 0).2.1 (by decide),
    ((zfsdev_ioctl_invalid_command sample_kernel 0 0 5 7 0).2.2
      (by decide) (by decide) (by decide)).2⟩

theorem ioctl_namecheck_trace (k : Kernel σ) (s : σ) (dev vec : Nat) (row : zfs_ioc_vec_t)
    (arg : Nat) (cr : cred_t) :
    ∀ ev ∈ (ioctl_namecheck k row
        (ioctl_secpolicy k dev vec row cr (ioctl_copyin k s arg))).trace,
      ev.is_xcopyout_zc = false ∧ ev.is_zvec_func = false := by
  have h1 : ∀ ev ∈ (ioctl_copyin k s arg).trace,
      ev.is_xcopyout_zc = false ∧ ev.is_zvec_func = false := by
    intro ev hev
    simp only [ioctl_copyin, List.mem_singleton] at hev
    subst hev; exact ⟨rfl, rfl⟩
  have h2 : ∀ ev ∈ (ioctl_secpolicy k dev vec row cr (ioctl_copyin k s arg)).trace,
      ev.is_xcopyout_zc = false ∧ ev.is_zvec_func = false := by
    intro ev hev
    unfold ioctl_secpolicy at hev
    split_ifs at hev
    · simp only [List.mem_append, List.mem_cons] at hev
      rcases hev with h | rfl | h
      · exact h1 ev h
      · exact ⟨rfl, rfl⟩
      · have := policy_query_kind ev (zvec_secpolicy_call_trace k _ _ _ cr ev h)
        exact ⟨this.2.2.1, this.2.1⟩
    · exact h1 ev hev
  intro ev hev
  unfold ioctl_namecheck at hev
  split_ifs at hev
  · cases hn : row.zvec_namecheck <;> simp only [hn] at hev
    · exact h2 ev hev
    · simp only [List.mem_append, List.mem_singleton] at hev
      rcases hev with h | rfl
      · exact h2 ev h
      · exact ⟨rfl, rfl⟩
    · simp only [List.mem_append, List.mem_singleton] at hev
      rcases hev with h | rfl
      · exact h2 ev h
      · exact ⟨rfl, rfl⟩
  · exact h2 ev hev

theorem ioctl_namecheck_frame (k : Kernel σ) (s : σ) (dev vec : Nat) (row : zfs_ioc_vec_t)
    (arg : Nat) (cr : cred_t) :
    ((ioctl_namecheck k row
        (ioctl_secpolicy k dev vec row cr (ioctl_copyin k s arg))).error = 0 →
      ioctl_namecheck_error k s row arg = 0 ∧
        (ioctl_namecheck k row
          (ioctl_secpolicy k dev vec row cr (ioctl_copyin k s arg))).zc =
          ioctl_checked_request k s dev arg cr ∧
        (ioctl_namecheck k row
          (ioctl_secpolicy k dev vec row cr (ioctl_copyin k s arg))).state = s) ∧
      ((k.xcopyin_zc s arg).1 = 0 →
        (zvec_secpolicy_call k s row.zvec_secpolicy (k.xcopyin_zc s arg).2.zc_name cr).1 = 0 →
        (ioctl_namecheck k row
          (ioctl_secpolicy k dev vec row cr (ioctl_copyin k s arg))).error =
          ioctl_namecheck_error k s row arg) := by
  by_cases hc : (k.xcopyin_zc s arg).1 = 0
  · by_cases hp : (zvec_secpolicy_call k s row.zvec_secpolicy
        (k.xcopyin_zc s arg).2.zc_name cr).1 = 0
    · cases hrow : row.zvec_namecheck
      · simp [ioctl_copyin, ioctl_secpolicy, ioctl_namecheck, ioctl_namecheck_error,
          ioctl_checked_request, ioctl_checked_name, ioctl_request, hc, hp, hrow]
      · by_cases hn : k.pool_namecheck (cstr (ioctl_checked_name k s arg)) = 0 <;>
          simp_all [ioctl_copyin, ioctl_secpolicy, ioctl_namecheck, ioctl_namecheck_error,
            ioctl_checked_request, ioctl_checked_name, ioctl_request, EINVAL]
      · by_cases hn : k.dataset_namecheck (cstr (ioctl_checked_name k s arg)) = 0 <;>
          simp_all [ioctl_copyin, ioctl_secpolicy, ioctl_namecheck, ioctl_namecheck_error,
            ioctl_checked_request, ioctl_checked_name, ioctl_request, EINVAL]
    · simp [ioctl_copyin, ioctl_secpolicy, ioctl_namecheck, hc, hp]
  · simp [ioctl_copyin, ioctl_secpolicy, ioctl_namecheck, hc]

theorem ioctl_func_trace (k : Kernel σ) (s : σ) (dev vec : Nat) (row : zfs_ioc_vec_t)
    (arg : Nat) (cr : cred_t) :
    ∀ ev ∈ (ioctl_func k vec row (ioctl_namecheck k row
        (ioctl_secpolicy k dev vec row cr (ioctl_copyin k s arg)))).trace,
      ev.is_xcopyout_zc = false := by
  intro ev hev
  unfold ioctl_func at hev
  split_ifs at hev
  · simp only [List.mem_append, List.mem_singleton] at hev
    rcases hev with h | rfl
    · exact (ioctl_namecheck_trace k s dev vec row arg cr ev h).1
    · rfl
  · exact (ioctl_namecheck_trace k s dev vec row arg cr ev hev).1

theorem first_nonzero_single (e : Int) : first_nonzero [e] = e := by
  by_cases h : e = 0 <;> simp [first_nonzero, h]

theorem first_nonzero_zero (es : List Int) : first_nonzero (0 :: es) = first_nonzero es := by
  simp [first_nonzero]

theorem first_nonzero_ne (e : Int) (es : List Int) (h : e ≠ 0) :
    first_nonzero (e :: es) = e := by
  simp [first_nonzero, h]

theorem zfsdev_ioctl_row_error (k : Kernel σ) (s : σ) (dev vec : Nat) (row : zfs_ioc_vec_t)
    (arg : Nat) (cr : cred_t) :
    (zfsdev_ioctl_row k s dev vec row arg cr).error =
      first_nonzero
        [(k.xcopyin_zc s arg).1,
          (zvec_secpolicy_call k s row.zvec_secpolicy (k.xcopyin_zc s arg).2.zc_name cr).1,
          ioctl_namecheck_error k s row arg,
          (k.zvec_func row.zvec_func s (ioctl_checked_request k s dev arg cr)).1,
          (k.xcopyout_zc (k.zvec_func row.zvec_func s (ioctl_checked_request k s dev arg cr)).2.2
            (k.zvec_func row.zvec_func s (ioctl_checked_request k s dev arg cr)).2.1 arg).1] := by
  by_cases hc : (k.xcopyin_zc s arg).1 = 0
  · by_cases hp : (zvec_secpolicy_call k s row.zvec_secpolicy
        (k.xcopyin_zc s arg).2.zc_name cr).1 = 0
    · rw [hc, hp, first_nonzero_zero, first_nonzero_zero]
      by_cases hn : ioctl_namecheck_error k s row arg = 0
      · rw [hn, first_nonzero_zero]
        by_cases hf : (k.zvec_func row.zvec_func s (ioctl_checked_request k s dev arg cr)).1 = 0
        · rw [hf, first_nonzero_zero, first_nonzero_single]
          cases hrow : row.zvec_namecheck <;>
            simp_all [zfsdev_ioctl_row, ioctl_copyin, ioctl_secpolicy, ioctl_namecheck,
              ioctl_func, ioctl_copyout, ioctl_namecheck_error, ioctl_checked_request,
              ioctl_checked_name, ioctl_request, EINVAL]
        · rw [first_nonzero_ne _ _ hf]
          cases hrow : row.zvec_namecheck <;>
            simp_all [zfsdev_ioctl_row, ioctl_copyin, ioctl_secpolicy, ioctl_namecheck,
              ioctl_func, ioctl_copyout, ioctl_namecheck_error, ioctl_checked_request,
              ioctl_checked_name, ioctl_request, EINVAL]
      · rw [first_nonzero_ne _ _ hn]
        cases hrow : row.zvec_namecheck <;>
          simp_all [zfsdev_ioctl_row, ioctl_copyin, ioctl_secpolicy, ioctl_namecheck,
            ioctl_func, ioctl_copyout, ioctl_namecheck_error, ioctl_checked_request,
            ioctl_checked_name, ioctl_request, EINVAL]
    · rw [hc, first_nonzero_zero, first_nonzero_ne _ _ hp]
      simp [zfsdev_ioctl_row, ioctl_copyin, ioctl_secpolicy, ioctl_namecheck, ioctl_func,
        ioctl_copyout, hc, hp]
  · rw [first_nonzero_ne _ _ hc]
    simp [zfsdev_ioctl_row, ioctl_copyin, ioctl_secpolicy, ioctl_namecheck, ioctl_func,
      ioctl_copyout, hc]

theorem zfsdev_ioctl_row_frame (k : Kernel σ) (s : σ) (dev vec : Nat) (row : zfs_ioc_vec_t)
    (arg : Nat) (cr : cred_t) :
    (ioctl_func k vec row (ioctl_namecheck k row
        (ioctl_secpolicy k dev vec row cr (ioctl_copyin k s arg)))).zc =
        ioctl_copied_request k s dev row arg cr ∧
      (ioctl_func k vec row (ioctl_namecheck k row
        (ioctl_secpolicy k dev vec row cr (ioctl_copyin k s arg)))).state =
        ioctl_copyout_state k s dev row arg cr := by
  by_cases hc : (k.xcopyin_zc s arg).1 = 0
  · by_cases hp : (zvec_secpolicy_call k s row.zvec_secpolicy
        (k.xcopyin_zc s arg).2.zc_name cr).1 = 0
    · by_cases hn : ioctl_namecheck_error k s row arg = 0
      · cases hrow : row.zvec_namecheck <;>
          simp_all [ioctl_copied_request, ioctl_copyout_state, ioctl_copyin,
            ioctl_secpolicy, ioctl_namecheck, ioctl_func, ioctl_namecheck_error,
            ioctl_checked_request, ioctl_checked_name, ioctl_request, EINVAL]
      · cases hrow : row.zvec_namecheck <;>
          simp_all [ioctl_copied_request, ioctl_copyout_state, ioctl_copyin,
            ioctl_secpolicy, ioctl_namecheck, ioctl_func, ioctl_namecheck_error,
            ioctl_checked_request, ioctl_checked_name, ioctl_request, EINVAL]
    · simp [ioctl_copied_request, ioctl_copyout_state, ioctl_copyin, ioctl_secpolicy,
        ioctl_namecheck, ioctl_func, ioctl_request, hc, hp]
  · simp [ioctl_copied_request, ioctl_copyout_state, ioctl_copyin, ioctl_secpolicy,
      ioctl_namecheck, ioctl_func, hc]

/-- C9. For an in-range command, the trace of `zfsdev_ioctl` ends with the copy-out of
the request structure to `arg` and holds no other such copy-out, so there is exactly one
and every other step (the handler included) comes before it, whatever the steps
returned.  The structure copied out is the request as the last step that ran left it
(what the copy-in left, or that with credentials and device recorded, or that with the
name terminated, or what the handler left), the copy-out is made in the state the handler
left (the state of the call when the handler did not run), and the state `zfsdev_ioctl`
leaves is the one this copy-out produced.  The status is the first nonzero result among
copy-in, policy, name check and handler, and the result of the copy-out when all four
are 0. -/
theorem zfsdev_ioctl_copyout_spec (k : Kernel σ) (s : σ) (dev : Nat) (cmd : Int)
    (arg : Nat) (cr : cred_t) (row : zfs_ioc_vec_t)
    (hrow : zfs_ioc_vec[ioctl_vec k cmd]? = some row) :
    (∃ pre, (zfsdev_ioctl k s dev cmd arg cr).2.1 =
          pre ++ [event.xcopyout_zc (ioctl_copied_request k s dev row arg cr) arg] ∧
        ∀ ev ∈ pre, ev.is_xcopyout_zc = false) ∧
      ((zfsdev_ioctl k s dev cmd arg cr).2.1.filter event.is_xcopyout_zc).length = 1 ∧
      (zfsdev_ioctl k s dev cmd arg cr).2.2 =
        (k.xcopyout_zc (ioctl_copyout_state k s dev row arg cr)
          (ioctl_copied_request k s dev row arg cr) arg).2 ∧
      (zfsdev_ioctl k s dev cmd arg cr).1 =
        first_nonzero
          [(k.xcopyin_zc s arg).1,
            (zvec_secpolicy_call k s row.zvec_secpolicy (k.xcopyin_zc s arg).2.zc_name cr).1,
            ioctl_namecheck_error k s row arg,
            (k.zvec_func row.zvec_func s (ioctl_checked_request k s dev arg cr)).1,
            (k.xcopyout_zc
              (k.zvec_func row.zvec_func s (ioctl_checked_request k s dev arg cr)).2.2
              (k.zvec_func row.zvec_func s (ioctl_checked_request k s dev arg cr)).2.1
              arg).1] ∧
      (zfsdev_ioctl k s dev cmd arg cr).1 =
        first_nonzero
          [(k.xcopyin_zc s arg).1,
            (zvec_secpolicy_call k s row.zvec_secpolicy (k.xcopyin_zc s arg).2.zc_name cr).1,
            ioctl_namecheck_error k s row arg,
            (k.zvec_func row.zvec_func s (ioctl_checked_request k s dev arg cr)).1,
            (k.xcopyout_zc (ioctl_copyout_state k s dev row arg cr)
              (ioctl_copied_request k s dev row arg cr) arg).1] := by
  rw [zfsdev_ioctl_in_range k s dev cmd arg cr row hrow]
  have hpre := ioctl_func_trace k s dev (ioctl_vec k cmd) row arg cr
  obtain ⟨hzc, hstate⟩ := zfsdev_ioctl_row_frame k s dev (ioctl_vec k cmd) row arg cr
  have htrace : (zfsdev_ioctl_row k s dev (ioctl_vec k cmd) row arg cr).trace =
      (ioctl_func k (ioctl_vec k cmd) row (ioctl_namecheck k row
        (ioctl_secpolicy k dev (ioctl_vec k cmd) row cr (ioctl_copyin k s arg)))).trace ++
        [event.xcopyout_zc
          (ioctl_func k (ioctl_vec k cmd) row (ioctl_namecheck k row
            (ioctl_secpolicy k dev (ioctl_vec k cmd) row cr (ioctl_copyin k s arg)))).zc
          arg] := rfl
  have hfinal : (zfsdev_ioctl_row k s dev (ioctl_vec k cmd) row arg cr).state =
      (k.xcopyout_zc
        (ioctl_func k (ioctl_vec k cmd) row (ioctl_namecheck k row
          (ioctl_secpolicy k dev (ioctl_vec k cmd) row cr (ioctl_copyin k s arg)))).state
        (ioctl_func k (ioctl_vec k cmd) row (ioctl_namecheck k row
          (ioctl_secpolicy k dev (ioctl_vec k cmd) row cr (ioctl_copyin k s arg)))).zc
        arg).2 := rfl
  have herr := zfsdev_ioctl_row_error k s dev (ioctl_vec k cmd) row arg cr
  rw [hzc] at htrace
  rw [hzc, hstate] at hfinal
  refine ⟨⟨_, htrace, hpre⟩, ?_, hfinal, herr, ?_⟩
  · simp only [htrace, List.filter_append]
    have hnil : List.filter event.is_xcopyout_zc
        (ioctl_func k (ioctl_vec k cmd) row (ioctl_namecheck k row
          (ioctl_secpolicy k dev (ioctl_vec k cmd) row cr (ioctl_copyin k s arg)))).trace =
        [] := by
      rw [List.filter_eq_nil_iff]
      intro ev hev
      simp [hpre ev hev]
    simp [hnil, event.is_xcopyout_zc]
  · simp only
    rw [herr]
    by_cases hc : (k.xcopyin_zc s arg).1 = 0
    · by_cases hp : (zvec_secpolicy_call k s row.zvec_secpolicy
          (k.xcopyin_zc s arg).2.zc_name cr).1 = 0
      · by_cases hn : ioctl_namecheck_error k s row arg = 0
        · simp [ioctl_copied_request, ioctl_copyout_state, hc, hp, hn]
        · simp [first_nonzero, hc, hp, hn]
      · simp [first_nonzero, hc, hp]
    · simp [first_nonzero, hc]

/-- C9, on the concrete kernel whose state records the copy-outs (500 plus the cookie
for a request structure) and whose handlers advance the cookie by 3: command 22 by a
privileged caller runs every step and ends with the one copy-out, of the request the
handler left (cookie 3), made in the state 1 the handler left, so that the final state
is 504; a failed copy-in (user address 0) is still followed by the copy-out, of the
request as the copy-in left it, its error 14 is the status and the final state is 500. -/
theorem zfsdev_ioctl_copyout_spec_witness :
    zfsdev_ioctl sample_kernel_copying 0 0 23062 7 0 =
        (0,
          [event.xcopyin_zc 7,
            event.zvec_secpolicy 22 [116, 97, 110, 107, 47, 97, 0, 0],
            event.zone_dataset_visible [116, 97, 110, 107, 47, 97],
            event.dsl_prop_get_integer [116, 97, 110, 107, 47, 97] str_zoned,
            event.secpolicy_zfs 0,
            event.dataset_namecheck [116, 97, 110, 107, 47, 97, 0, 0],
            event.zvec_func 22 sample_zc,
            event.xcopyout_zc { sample_zc with zc_cookie := 3 } 7], 504) ∧
      zfsdev_ioctl sample_kernel_copying 0 0 23062 0 0 =
        (14, [event.xcopyin_zc 0, event.xcopyout_zc sample_zc 0], 500) ∧
      ((zfsdev_ioctl sample_kernel_copying 0 0 23062 0 0).2.1.filter
        event.is_xcopyout_zc).length = 1 ∧
      (zfsdev_ioctl sample_kernel_copying 0 0 23062 7 0).2.2 =
        (sample_kernel_copying.xcopyout_zc 1 { sample_zc with zc_cookie := 3 } 7).2 :=
  ⟨by decide, by decide,
    (zfsdev_ioctl_copyout_spec sample_kernel_copying 0 0 23062 0 0
      ⟨.zfs_ioc_set_prop, .zfs_secpolicy_write, .dataset_name⟩ (by decide)).2.1,
    (zfsdev_ioctl_copyout_spec sample_kernel_copying 0 0 23062 7 0
      ⟨.zfs_ioc_set_prop, .zfs_secpolicy_write, .dataset_name⟩ (by decide)).2.2.1⟩

theorem zfsdev_ioctl_func_event (k : Kernel σ) (s : σ) (dev : Nat) (cmd : Int)
    (arg : Nat) (cr : cred_t) (row : zfs_ioc_vec_t)
    (hrow : zfs_ioc_vec[ioctl_vec k cmd]? = some row) :
    ∀ ev ∈ (zfsdev_ioctl k s dev cmd arg cr).2.1, ev.is_zvec_func = true →
      ioctl_namecheck_error k s row arg = 0 ∧
        ev = event.zvec_func (ioctl_vec k cmd) (ioctl_checked_request k s dev arg cr) := by
  rw [zfsdev_ioctl_in_range k s dev cmd arg cr row hrow]
  intro ev hev hfun
  have hG := ioctl_namecheck_trace k s dev (ioctl_vec k cmd) row arg cr
  have hF := ioctl_namecheck_frame k s dev (ioctl_vec k cmd) row arg cr
  simp only [zfsdev_ioctl_row, ioctl_copyout, List.mem_append, List.mem_singleton] at hev
  rcases hev with hev | rfl
  · unfold ioctl_func at hev
    split_ifs at hev with he
    · simp only [List.mem_append, List.mem_singleton] at hev
      rcases hev with h | rfl
      · rw [(hG ev h).2] at hfun
        exact absurd hfun (by simp)
      · exact ⟨(hF.1 he).1, by rw [(hF.1 he).2.1]⟩
    · rw [(hG ev hev).2] at hfun
      exact absurd hfun (by simp)
  · exact absurd hfun (by simp [event.is_zvec_func])

theorem zfsdev_ioctl_namecheck_error (k : Kernel σ) (s : σ) (dev : Nat) (cmd : Int)
    (arg : Nat) (cr : cred_t) (row : zfs_ioc_vec_t)
    (hrow : zfs_ioc_vec[ioctl_vec k cmd]? = some row)
    (hcopy : (k.xcopyin_zc s arg).1 = 0)
    (hpol : (zvec_secpolicy_call k s row.zvec_secpolicy
      (k.xcopyin_zc s arg).2.zc_name cr).1 = 0)
    (hname : ioctl_namecheck_error k s row arg ≠ 0) :
    (zfsdev_ioctl k s dev cmd arg cr).1 = EINVAL ∧
      ∀ ev ∈ (zfsdev_ioctl k s dev cmd arg cr).2.1, ev.is_zvec_func = false := by
  constructor
  · rw [zfsdev_ioctl_in_range k s dev cmd arg cr row hrow]
    simp only [zfsdev_ioctl_row_error, hcopy, hpol, first_nonzero_zero,
      first_nonzero_ne _ _ hname]
    unfold ioctl_namecheck_error at hname ⊢
    cases hn : row.zvec_namecheck <;> simp only [hn] at hname ⊢
    · exact absurd rfl hname
    · split_ifs at hname ⊢
      · rfl
      · exact absurd rfl hname
    · split_ifs at hname ⊢
      · rfl
      · exact absurd rfl hname
  · intro ev hev
    cases hf : ev.is_zvec_func
    · rfl
    · exact absurd (zfsdev_ioctl_func_event k s dev cmd arg cr row hrow ev hev hf).1 hname

/-- C3. For an in-range command whose row has class `pool_name` (respectively
`dataset_name`): every call of a handler in the trace is the call of the row's handler on
the request whose name has its last byte forced to NUL, and it is there only if
`pool_namecheck` (respectively `dataset_namecheck`) returns 0 on that name; and when the
copy-in and the policy succeed but that check fails, `zfsdev_ioctl` returns `EINVAL` and
no handler is called. -/
theorem zfsdev_ioctl_namecheck_spec (k : Kernel σ) (s : σ) (dev : Nat) (cmd : Int)
    (arg : Nat) (cr : cred_t) (row : zfs_ioc_vec_t)
    (hrow : zfs_ioc_vec[ioctl_vec k cmd]? = some row) :
    (row.zvec_namecheck = zvec_namecheck_t.pool_name →
        (∀ ev ∈ (zfsdev_ioctl k s dev cmd arg cr).2.1, ev.is_zvec_func = true →
          k.pool_namecheck (cstr (ioctl_checked_name k s arg)) = 0 ∧
            ev = event.zvec_func (ioctl_vec k cmd) (ioctl_checked_request k s dev arg cr)) ∧
        ((k.xcopyin_zc s arg).1 = 0 →
          (zvec_secpolicy_call k s row.zvec_secpolicy
            (k.xcopyin_zc s arg).2.zc_name cr).1 = 0 →
          k.pool_namecheck (cstr (ioctl_checked_name k s arg)) ≠ 0 →
          (zfsdev_ioctl k s dev cmd arg cr).1 = EINVAL ∧
            ∀ ev ∈ (zfsdev_ioctl k s dev cmd arg cr).2.1, ev.is_zvec_func = false)) ∧
      (row.zvec_namecheck = zvec_namecheck_t.dataset_name →
        (∀ ev ∈ (zfsdev_ioctl k s dev cmd arg cr).2.1, ev.is_zvec_func = true →
          k.dataset_namecheck (cstr (ioctl_checked_name k s arg)) = 0 ∧
            ev = event.zvec_func (ioctl_vec k cmd) (ioctl_checked_request k s dev arg cr)) ∧
        ((k.xcopyin_zc s arg).1 = 0 →
          (zvec_secpolicy_call k s row.zvec_secpolicy
            (k.xcopyin_zc s arg).2.zc_name cr).1 = 0 →
          k.dataset_namecheck (cstr (ioctl_checked_name k s arg)) ≠ 0 →
          (zfsdev_ioctl k s dev cmd arg cr).1 = EINVAL ∧
            ∀ ev ∈ (zfsdev_ioctl k s dev cmd arg cr).2.1, ev.is_zvec_func = false)) := by
  constructor
  · intro hclass
    constructor
    · intro ev hev hfun
      have h := zfsdev_ioctl_func_event k s dev cmd arg cr row hrow ev hev hfun
      refine ⟨?_, h.2⟩
      have h1 := h.1
      simp only [ioctl_namecheck_error, hclass] at h1
      by_contra hne
      simp [hne, EINVAL] at h1
    · intro hcopy hpol hname
      apply zfsdev_ioctl_namecheck_error k s dev cmd arg cr row hrow hcopy hpol
      simp [ioctl_namecheck_error, hclass, hname, EINVAL]
  · intro hclass
    constructor
    · intro ev hev hfun
      have h := zfsdev_ioctl_func_event k s dev cmd arg cr row hrow ev hev hfun
      refine ⟨?_, h.2⟩
      have h1 := h.1
      simp only [ioctl_namecheck_error, hclass] at h1
      by_contra hne
      simp [hne, EINVAL] at h1
    · intro hcopy hpol hname
      apply zfsdev_ioctl_namecheck_error k s dev cmd arg cr row hrow hcopy hpol
      simp [ioctl_namecheck_error, hclass, hname, EINVAL]

/-- C3, on the concrete kernel: command 5 (`zfs_ioc_pool_stats`, class `pool_name`) on
"tank/a" passes the read policy, fails `pool_namecheck` and returns `EINVAL` without a
handler call; command 22 (class `dataset_name`) on the same name calls its handler. -/
theorem zfsdev_ioctl_namecheck_spec_witness :
    zfsdev_ioctl sample_kernel 0 0 23045 7 0 =
        (EINVAL,
          [event.xcopyin_zc 7,
            event.zvec_secpolicy 5 [116, 97, 110, 107, 47, 97, 0, 0],
            event.zone_dataset_visible [116, 97, 110, 107, 47, 97],
            event.pool_namecheck [116, 97, 110, 107, 47, 97, 0, 0],
            event.xcopyout_zc sample_zc 7], 0) ∧
      (∀ ev ∈ (zfsdev_ioctl sample_kernel 0 0 23045 7 0).2.1, ev.is_zvec_func = false) ∧
      sample_kernel.dataset_namecheck (cstr (ioctl_checked_name sample_kernel 0 7)) = 0 :=
  ⟨by decide,
    (((zfsdev_ioctl_namecheck_spec sample_kernel 0 0 23045 7 0
      ⟨.zfs_ioc_pool_stats, .zfs_secpolicy_read, .pool_name⟩ (by decide)).1 rfl).2
        (by decide) (by decide) (by decide)).2,
    (((zfsdev_ioctl_namecheck_spec sample_kernel 0 0 23062 7 0
      ⟨.zfs_ioc_set_prop, .zfs_secpolicy_write, .dataset_name⟩ (by decide)).2 rfl).1
        (event.zvec_func 22 sample_zc) (by decide) rfl).1⟩

/-! ### Setting properties -/

theorem policy_query_not_set (k : Kernel σ) (s : σ) (ev : event)
    (h : ev.is_policy_query = true) :
    ev.is_set_call = false ∧ event.apply k s ev = s := by
  cases ev <;> simp_all [event.is_policy_query, event.is_set_call, event.apply]

theorem zfs_set_prop_special_trace (k : Kernel σ) (s : σ) (name : List Nat) (cr : cred_t)
    (prop : zfs_prop_t) :
    ∀ ev ∈ (zfs_set_prop_special k s name cr prop).2, ev.is_policy_query = true := by
  intro ev hev
  have hd := zfs_dozonecheck_trace k s name cr
  cases prop <;> simp only [zfs_set_prop_special] at hev
  · simp at hev
  · split_ifs at hev <;> simp at hev
  · unfold zfs_set_prop_quota_check at hev
    simp only at hev
    split_ifs at hev
    · exact hd ev hev
    · exact hd ev hev
    all_goals
      simp only [List.mem_append, List.mem_singleton] at hev
      rcases hev with h | rfl
      · exact hd ev h
      · rfl
  all_goals simp at hev

theorem zfs_set_prop_default_shape (k : Kernel σ) (s : σ) (name : List Nat)
    (elem : nvpair_t) (prop : zfs_prop_t) (t : List event) :
    one_set_call k s name elem t (zfs_set_prop_default k s name elem prop t) := by
  unfold zfs_set_prop_default one_set_call
  cases hv : elem.value with
  | string strval =>
    simp only
    by_cases h1 : k.zfs_prop_get_type prop ≠ zfs_proptype_t.prop_type_string
    · left; simp [h1]
    · right
      simp only [h1, if_false]
      refine ⟨_, rfl, rfl, ?_, rfl, ?_⟩
      · simp [event.is_set_call_for, nvpair_name]
      · by_cases h2 : (k.dsl_prop_set s name (nvpair_name elem) 1 (strlen strval + 1)
            (cstr strval ++ [0])).1 = 0 <;> simp [h2, event.set_ret]
  | uint64 intval =>
    simp only
    generalize hrej : (match k.zfs_prop_get_type prop with
      | .prop_type_number => false
      | .prop_type_boolean => decide (intval > 1)
      | .prop_type_string => true
      | .prop_type_index => decide (k.zfs_prop_index_to_string prop intval ≠ 0)) = rejected
    cases rejected
    · right
      simp only [Bool.false_eq_true, if_false]
      refine ⟨_, rfl, rfl, ?_, rfl, ?_⟩
      · simp [event.is_set_call_for, nvpair_name]
      · by_cases h2 : (k.dsl_prop_set s name (nvpair_name elem) 8 1 [intval]).1 = 0 <;>
          simp [h2, event.set_ret]
    · left; simp
  | other d =>
    left; simp

theorem zfs_set_prop_apply_shape (k : Kernel σ) (s : σ) (name : List Nat)
    (elem : nvpair_t) (prop : zfs_prop_t) (t : List event) :
    one_set_call k s name elem t (zfs_set_prop_apply k s name elem prop t) := by
  cases prop
  case ZFS_PROP_QUOTA =>
    unfold zfs_set_prop_apply one_set_call
    simp only
    by_cases h1 : (nvpair_value_uint64 elem).1 ≠ 0
    · left; simp [h1]
    · right
      simp only [h1, if_false]
      refine ⟨_, rfl, rfl, ?_, rfl, ?_⟩
      · cases hv : elem.value <;> simp_all [event.is_set_call_for, nvpair_value_uint64, EINVAL]
      · by_cases h2 : (k.dsl_dir_set_quota s name (nvpair_value_uint64 elem).2).1 = 0 <;>
          simp [h2, event.set_ret]
  case ZFS_PROP_RESERVATION =>
    unfold zfs_set_prop_apply one_set_call
    simp only
    by_cases h1 : (nvpair_value_uint64 elem).1 ≠ 0
    · left; simp [h1]
    · right
      simp only [h1, if_false]
      refine ⟨_, rfl, rfl, ?_, rfl, ?_⟩
      · cases hv : elem.value <;> simp_all [event.is_set_call_for, nvpair_value_uint64, EINVAL]
      · by_cases h2 : (k.dsl_dir_set_reservation s name (nvpair_value_uint64 elem).2).1 = 0 <;>
          simp [h2, event.set_ret]
  case ZFS_PROP_VOLSIZE => left; simp [zfs_set_prop_apply]
  case ZFS_PROP_VOLBLOCKSIZE => left; simp [zfs_set_prop_apply]
  all_goals exact zfs_set_prop_default_shape k s name elem _ t

theorem zfs_set_prop_elem_shape (k : Kernel σ) (s : σ) (name : List Nat) (cr : cred_t)
    (elem : nvpair_t) :
    ∃ t : List event, (∀ ev ∈ t, ev.is_policy_query = true) ∧
      one_set_call k s name elem t (zfs_set_prop_elem k s name cr elem) := by
  unfold zfs_set_prop_elem
  simp only
  by_cases h1 : k.zfs_name_to_prop (nvpair_name elem) = zfs_prop_t.ZFS_PROP_INVAL
  · refine ⟨[], by simp, ?_⟩
    simp only [h1, if_true]
    unfold one_set_call
    cases hv : elem.value with
    | string strval =>
      simp only
      by_cases h3 : k.zfs_prop_user (nvpair_name elem) = false
      · left; simp [h3]
      · right
        simp only [h3, if_false]
        refine ⟨_, rfl, rfl, ?_, rfl, ?_⟩
        · simp [event.is_set_call_for, nvpair_name]
        · by_cases h4 : (k.dsl_prop_set s name (nvpair_name elem) 1 (strlen strval + 1)
              (cstr strval ++ [0])).1 = 0 <;> simp [h4, event.set_ret]
    | uint64 intval => left; simp
    | other d => left; simp
  · simp only [h1, if_false]
    by_cases h2 : (zfs_set_prop_special k s name cr
        (k.zfs_name_to_prop (nvpair_name elem))).1 ≠ 0
    · rw [if_pos h2]
      exact ⟨_, zfs_set_prop_special_trace k s name cr _, Or.inl ⟨rfl, by simp, rfl⟩⟩
    · rw [if_neg h2]
      exact ⟨_, zfs_set_prop_special_trace k s name cr _,
        zfs_set_prop_apply_shape k s name elem _ _⟩

theorem zfs_set_prop_loop_next (k : Kernel σ) (name : List Nat) (cr : cred_t) (s : σ)
    (i : Nat) (elem : nvpair_t) (rest : List nvpair_t)
    (h : (zfs_set_prop_elem k s name cr elem).1 = loop_ctl.next) :
    zfs_set_prop_loop k name cr s i (elem :: rest) =
      ((zfs_set_prop_loop k name cr (zfs_set_prop_elem k s name cr elem).2.2 (i + 1) rest).1,
        (zfs_set_prop_elem k s name cr elem).2.1.map (fun ev => (i, ev)) ++
          (zfs_set_prop_loop k name cr (zfs_set_prop_elem k s name cr elem).2.2 (i + 1) rest).2.1,
        (zfs_set_prop_loop k name cr (zfs_set_prop_elem k s name cr elem).2.2 (i + 1) rest).2.2) := by
  rw [zfs_set_prop_loop]
  rcases hb : zfs_set_prop_elem k s name cr elem with ⟨ctl, t, s1⟩
  rw [hb] at h
  simp only at h
  subst h
  rfl

theorem zfs_set_prop_loop_stop (k : Kernel σ) (name : List Nat) (cr : cred_t) (s : σ)
    (i : Nat) (elem : nvpair_t) (rest : List nvpair_t)
    (h : (zfs_set_prop_elem k s name cr elem).1 ≠ loop_ctl.next) :
    (zfs_set_prop_loop k name cr s i (elem :: rest)).2.1 =
        (zfs_set_prop_elem k s name cr elem).2.1.map (fun ev => (i, ev)) ∧
      (zfs_set_prop_loop k name cr s i (elem :: rest)).2.2 =
        (zfs_set_prop_elem k s name cr elem).2.2 := by
  rw [zfs_set_prop_loop]
  rcases hb : zfs_set_prop_elem k s name cr elem with ⟨ctl, t, s1⟩
  rw [hb] at h
  cases ctl
  · exact absurd rfl h
  · exact ⟨rfl, rfl⟩
  · exact ⟨rfl, rfl⟩

theorem policy_queries_filter (t : List event) (h : ∀ ev ∈ t, ev.is_policy_query = true) :
    t.filter event.is_set_call = [] := by
  rw [List.filter_eq_nil_iff]
  intro ev hev
  have : ev.is_set_call = false := by
    have := h ev hev
    cases ev <;> simp_all [event.is_policy_query, event.is_set_call]
  simp [this]

theorem policy_queries_foldl (k : Kernel σ) (s : σ) (t : List event)
    (h : ∀ ev ∈ t, ev.is_policy_query = true) :
    t.foldl (event.apply k) s = s := by
  induction t with
  | nil => rfl
  | cons ev t ih =>
    have h1 := (policy_query_not_set k s ev (h ev (by simp))).2
    simp only [List.foldl_cons, h1]
    exact ih (fun e he => h e (by simp [he]))

theorem zfs_set_prop_elem_state (k : Kernel σ) (s : σ) (name : List Nat) (cr : cred_t)
    (elem : nvpair_t) :
    (zfs_set_prop_elem k s name cr elem).2.2 =
      (zfs_set_prop_elem k s name cr elem).2.1.foldl (event.apply k) s := by
  obtain ⟨t, ht, hshape⟩ := zfs_set_prop_elem_shape k s name cr elem
  rcases hshape with ⟨h1, _, h3⟩ | ⟨c, h1, _, _, h4, _⟩
  · rw [h1, h3, policy_queries_foldl k s t ht]
  · rw [h1, h4, List.foldl_append, policy_queries_foldl k s t ht]
    rfl

theorem zfs_set_prop_elem_next (k : Kernel σ) (s : σ) (name : List Nat) (cr : cred_t)
    (elem : nvpair_t) (h : (zfs_set_prop_elem k s name cr elem).1 = loop_ctl.next) :
    ∃ c : event, (zfs_set_prop_elem k s name cr elem).2.1.filter event.is_set_call = [c] ∧
      c.set_ret = 0 ∧ c.is_set_call_for name elem = true := by
  obtain ⟨t, ht, hshape⟩ := zfs_set_prop_elem_shape k s name cr elem
  rcases hshape with ⟨_, h2, _⟩ | ⟨c, h1, h2, h3, _, h5⟩
  · exact absurd h h2
  · refine ⟨c, ?_, h5.mp h, h3⟩
    rw [h1, List.filter_append, policy_queries_filter t ht]
    simp [h2]

theorem zfs_set_prop_elem_stop (k : Kernel σ) (s : σ) (name : List Nat) (cr : cred_t)
    (elem : nvpair_t) (h : (zfs_set_prop_elem k s name cr elem).1 ≠ loop_ctl.next) :
    stops_at k s name cr elem := by
  refine ⟨h, ?_⟩
  obtain ⟨t, ht, hshape⟩ := zfs_set_prop_elem_shape k s name cr elem
  rcases hshape with ⟨h1, _, _⟩ | ⟨c, h1, h2, h3, _, h5⟩
  · left
    rw [h1]
    exact policy_queries_filter t ht
  · right
    refine ⟨c, ?_, fun h0 => h (h5.mpr h0), h3⟩
    rw [h1, List.filter_append, policy_queries_filter t ht]
    simp [h2]

theorem set_calls_tag (t : List event) (i : Nat) (rest : List (Nat × event)) :
    set_calls (t.map (fun ev => (i, ev)) ++ rest) =
      (t.filter event.is_set_call).map (fun ev => (i, ev)) ++ set_calls rest := by
  unfold set_calls
  rw [List.filter_append, List.filter_map]
  rfl

theorem zfs_set_prop_loop_decomp (k : Kernel σ) (name : List Nat) (cr : cred_t) :
    ∀ (nvl : List nvpair_t) (s : σ) (i : Nat), ∃ n, n ≤ nvl.length ∧
      applied_in_order name (nvl.take n) i
        (zfs_set_prop_loop k name cr s i (nvl.take n)).2.1 ∧
      (zfs_set_prop_loop k name cr s i (nvl.take n)).1 = 0 ∧
      (zfs_set_prop_loop k name cr s i (nvl.take n)).2.2 =
        ((zfs_set_prop_loop k name cr s i (nvl.take n)).2.1.map Prod.snd).foldl
          (event.apply k) s ∧
      (n = nvl.length ∨
        ∃ elem, nvl[n]? = some elem ∧
          stops_at k (zfs_set_prop_loop k name cr s i (nvl.take n)).2.2 name cr elem ∧
          (zfs_set_prop_loop k name cr s i nvl).2.1 =
            (zfs_set_prop_loop k name cr s i (nvl.take n)).2.1 ++
              (zfs_set_prop_elem k (zfs_set_prop_loop k name cr s i (nvl.take n)).2.2
                name cr elem).2.1.map (fun ev => (i + n, ev)) ∧
          (zfs_set_prop_loop k name cr s i nvl).2.2 =
            (zfs_set_prop_elem k (zfs_set_prop_loop k name cr s i (nvl.take n)).2.2
              name cr elem).2.2) := by
  intro nvl
  induction nvl with
  | nil =>
    intro s i
    refine ⟨0, le_refl _, ?_, rfl, rfl, Or.inl rfl⟩
    simp [applied_in_order, set_calls, zfs_set_prop_loop]
  | cons elem rest ih =>
    intro s i
    by_cases h : (zfs_set_prop_elem k s name cr elem).1 = loop_ctl.next
    · obtain ⟨n, hn, happ, hret, hst, hlast⟩ :=
        ih (zfs_set_prop_elem k s name cr elem).2.2 (i + 1)
      obtain ⟨c, hc, hc0, hcfor⟩ := zfs_set_prop_elem_next k s name cr elem h
      refine ⟨n + 1, by simpa using hn, ?_, ?_, ?_, ?_⟩
      · rw [List.take_succ_cons, zfs_set_prop_loop_next k name cr s i elem _ h]
        obtain ⟨ha1, ha2, ha3⟩ := happ
        refine ⟨?_, ?_, ?_⟩
        · simp only [set_calls_tag, hc, List.map_append, ha1, List.map_cons, List.map_nil,
            List.length_cons]
          rw [List.range'_succ]
          rfl
        · intro c1 hc1
          simp only [set_calls_tag, hc, List.map_cons, List.map_nil, List.mem_append,
            List.mem_singleton] at hc1
          rcases hc1 with rfl | hc1
          · exact ⟨hc0, 0, elem, rfl, by simp, hcfor⟩
          · obtain ⟨h0, j, e, hj, he, hfor⟩ := ha2 c1 hc1
            refine ⟨h0, j + 1, e, by omega, ?_, hfor⟩
            simpa using he
        · intro c1 hc1
          simp only [List.mem_append, List.mem_map] at hc1
          rcases hc1 with ⟨ev, _, rfl⟩ | hc1
          · simp
          · have := ha3 c1 hc1
            simp only [List.length_cons]
            omega
      · rw [List.take_succ_cons, zfs_set_prop_loop_next k name cr s i elem _ h]
        exact hret
      · rw [List.take_succ_cons, zfs_set_prop_loop_next k name cr s i elem _ h]
        simp only [List.map_append, List.map_map, List.foldl_append]
        rw [hst]
        congr 1
        rw [zfs_set_prop_elem_state k s name cr elem]
        congr 1
        simp [Function.comp_def]
      · rcases hlast with hfull | ⟨e, he, hstop, htrace, hstate⟩
        · left
          simp [hfull]
        · right
          refine ⟨e, by simpa using he, ?_, ?_, ?_⟩
          · rw [List.take_succ_cons, zfs_set_prop_loop_next k name cr s i elem _ h]
            exact hstop
          · rw [List.take_succ_cons, zfs_set_prop_loop_next k name cr s i elem _ h,
              zfs_set_prop_loop_next k name cr s i elem _ h]
            simp only [htrace, List.append_assoc]
            have : i + 1 + n = i + (n + 1) := by omega
            rw [this]
          · rw [List.take_succ_cons, zfs_set_prop_loop_next k name cr s i elem _ h,
              zfs_set_prop_loop_next k name cr s i elem _ h]
            exact hstate
    · refine ⟨0, Nat.zero_le _, ?_, rfl, rfl, Or.inr ⟨elem, by simp, ?_, ?_, ?_⟩⟩
      · simp [applied_in_order, set_calls, zfs_set_prop_loop]
      · exact zfs_set_prop_elem_stop k s name cr elem h
      · simpa [zfs_set_prop_loop] using (zfs_set_prop_loop_stop k name cr s i elem rest h).1
      · simpa [zfs_set_prop_loop] using (zfs_set_prop_loop_stop k name cr s i elem rest h).2

theorem set_calls_append_tag (pre : List (Nat × event)) (t : List event) (i : Nat) :
    set_calls (pre ++ t.map (fun ev => (i, ev))) =
      set_calls pre ++ (t.filter event.is_set_call).map (fun ev => (i, ev)) := by
  unfold set_calls
  rw [List.filter_append, List.filter_map]
  rfl

/-- C10. `zfs_set_prop_nvlist` walks the list in order and stops at the first entry that
is rejected or whose set call fails.  There is an index `n` such that: the run on the
first `n` entries applies each of them, in list order, through exactly one engine set call
that returns 0; either `n` is the length of the list, or the body of the loop on entry
`n`, in the state those calls left, does not reach the next iteration, having made no set
call (the entry is rejected) or one set call that returned an error; the trace of the whole
run is the trace of the first `n` entries followed by the calls of that body, so the set
calls are tagged `0, ..., n - 1` once each, then possibly `n`, and none is tagged with a
later entry; and the final state is the one obtained by replaying the calls of the trace in
order, so that no call is undone. -/
theorem zfs_set_prop_nvlist_stops_at_first_failure (k : Kernel σ) (s : σ)
    (name : List Nat) (dev : Nat) (cr : cred_t) (nvl : nvlist_t) :
    ∃ n, n ≤ nvl.length ∧
      applied_in_order name (nvl.take n) 0
        (zfs_set_prop_nvlist k s name dev cr (nvl.take n)).2.1 ∧
      ((n = nvl.length ∧ nvl.take n = nvl) ∨
        ∃ elem, nvl[n]? = some elem ∧
          stops_at k (zfs_set_prop_nvlist k s name dev cr (nvl.take n)).2.2 name cr elem ∧
          (zfs_set_prop_nvlist k s name dev cr nvl).2.1 =
            (zfs_set_prop_nvlist k s name dev cr (nvl.take n)).2.1 ++
              (zfs_set_prop_elem k (zfs_set_prop_nvlist k s name dev cr (nvl.take n)).2.2
                name cr elem).2.1.map (fun ev => (n, ev))) ∧
      (∃ tail, (set_calls (zfs_set_prop_nvlist k s name dev cr nvl).2.1).map Prod.fst =
          List.range n ++ tail ∧ (tail = [] ∨ (tail = [n] ∧ n < nvl.length))) ∧
      (∀ c ∈ set_calls (zfs_set_prop_nvlist k s name dev cr nvl).2.1,
        c.1 ≤ n ∧ (c.1 < n → c.2.set_ret = 0) ∧ (c.1 = n → c.2.set_ret ≠ 0)) ∧
      (zfs_set_prop_nvlist k s name dev cr nvl).2.2 =
        ((zfs_set_prop_nvlist k s name dev cr nvl).2.1.map Prod.snd).foldl
          (event.apply k) s := by
  obtain ⟨n, hn, happ, _, hst, hlast⟩ := zfs_set_prop_loop_decomp k name cr nvl s 0
  have hrange : (set_calls (zfs_set_prop_loop k name cr s 0 (nvl.take n)).2.1).map Prod.fst =
      List.range n := by
    rw [happ.1, List.length_take, Nat.min_eq_left hn, List.range_eq_range']
  have hpre : ∀ c ∈ set_calls (zfs_set_prop_loop k name cr s 0 (nvl.take n)).2.1,
      c.1 < n ∧ c.2.set_ret = 0 := by
    intro c hc
    refine ⟨?_, (happ.2.1 c hc).1⟩
    have hmem : c ∈ (zfs_set_prop_loop k name cr s 0 (nvl.take n)).2.1 :=
      (List.mem_filter.mp hc).1
    have := (happ.2.2 c hmem).2
    rw [List.length_take, Nat.min_eq_left hn] at this
    omega
  refine ⟨n, hn, happ, ?_, ?_, ?_, ?_⟩
  · rcases hlast with hfull | ⟨elem, he, hstop, htrace, _⟩
    · exact Or.inl ⟨hfull, by rw [hfull, List.take_length]⟩
    · refine Or.inr ⟨elem, he, hstop, ?_⟩
      simpa using htrace
  · rcases hlast with hfull | ⟨elem, he, hstop, htrace, _⟩
    · refine ⟨[], ?_, Or.inl rfl⟩
      have hall : nvl.take n = nvl := by rw [hfull, List.take_length]
      rw [hall] at hrange
      simpa [zfs_set_prop_nvlist] using hrange
    · have hlt : n < nvl.length := (List.getElem?_eq_some_iff.mp he).1
      simp only [zfs_set_prop_nvlist, htrace, Nat.zero_add, set_calls_append_tag,
        List.map_append, hrange, List.map_map]
      rcases hstop.2 with h0 | ⟨c, hc, _, _⟩
      · exact ⟨[], by simp [h0], Or.inl rfl⟩
      · exact ⟨[n], by simp [hc], Or.inr ⟨rfl, hlt⟩⟩
  · intro c hc
    rcases hlast with hfull | ⟨elem, he, hstop, htrace, _⟩
    · have hall : nvl.take n = nvl := by rw [hfull, List.take_length]
      rw [hall] at hpre
      have := hpre c hc
      exact ⟨by omega, fun _ => this.2, fun h => by omega⟩
    · simp only [zfs_set_prop_nvlist, htrace, Nat.zero_add, set_calls_append_tag,
        List.mem_append, List.mem_map] at hc
      rcases hc with hc | ⟨ev, hev, rfl⟩
      · have := hpre c hc
        exact ⟨by omega, fun _ => this.2, fun h => by omega⟩
      · refine ⟨le_refl _, fun h => absurd h (lt_irrefl _), fun _ => ?_⟩
        rcases hstop.2 with h0 | ⟨c, hc, hne, _⟩
        · rw [h0] at hev
          exact absurd hev (by simp)
        · rw [hc, List.mem_singleton] at hev
          rw [hev]
          exact hne
  · rcases hlast with hfull | ⟨elem, he, hstop, htrace, hstate⟩
    · have hall : nvl.take n = nvl := by rw [hfull, List.take_length]
      rw [hall] at hst
      exact hst
    · simp only [zfs_set_prop_nvlist, htrace, hstate, List.map_append, List.map_map,
        List.foldl_append]
      rw [← hst, zfs_set_prop_elem_state]
      congr 1
      simp [Function.comp_def]

/-- C10, on the concrete kernel: of the four entries compression=1, mountpoint="x",
compression=7, compression=2 on "tank/a", the third is rejected (7 is no index value); the
run returns `EINVAL` after the set calls of the first two entries, makes no call for the
last two, and leaves the state the two calls produced. -/
theorem zfs_set_prop_nvlist_stops_at_first_failure_witness :
    zfs_set_prop_nvlist sample_kernel 0 [116, 97, 110, 107, 47, 97] 0 0
        [⟨[99], .uint64 1⟩, ⟨[109], .string [120]⟩, ⟨[99], .uint64 7⟩, ⟨[99], .uint64 2⟩] =
        (EINVAL,
          [(0, event.dsl_prop_set [116, 97, 110, 107, 47, 97] [99] 8 1 [1] 0),
            (1, event.dsl_prop_set [116, 97, 110, 107, 47, 97] [109] 1 2 [120, 0] 0)], 2) ∧
      ∃ n, n ≤ 4 ∧
        applied_in_order [116, 97, 110, 107, 47, 97]
          (([⟨[99], .uint64 1⟩, ⟨[109], .string [120]⟩, ⟨[99], .uint64 7⟩,
            ⟨[99], .uint64 2⟩] : nvlist_t).take n) 0
          (zfs_set_prop_nvlist sample_kernel 0 [116, 97, 110, 107, 47, 97] 0 0
            (([⟨[99], .uint64 1⟩, ⟨[109], .string [120]⟩, ⟨[99], .uint64 7⟩,
              ⟨[99], .uint64 2⟩] : nvlist_t).take n)).2.1 := by
  refine ⟨by decide, ?_⟩
  obtain ⟨n, hn, happ, _⟩ := zfs_set_prop_nvlist_stops_at_first_failure sample_kernel 0
    [116, 97, 110, 107, 47, 97] 0 0
    [⟨[99], .uint64 1⟩, ⟨[109], .string [120]⟩, ⟨[99], .uint64 7⟩, ⟨[99], .uint64 2⟩]
  exact ⟨n, hn, happ⟩

theorem zfs_set_prop_elem_user_break (k : Kernel σ) (s : σ) (name : List Nat) (cr : cred_t)
    (elem : nvpair_t) (strval : List Nat)
    (hinval : k.zfs_name_to_prop (nvpair_name elem) = zfs_prop_t.ZFS_PROP_INVAL)
    (huser : k.zfs_prop_user (nvpair_name elem) = true)
    (hv : elem.value = nvvalue.string strval)
    (hfail : (k.dsl_prop_set s name (nvpair_name elem) 1 (strlen strval + 1)
      (cstr strval ++ [0])).1 ≠ 0) :
    (zfs_set_prop_elem k s name cr elem).1 = loop_ctl.brk := by
  unfold zfs_set_prop_elem
  simp [hinval, huser, hv, hfail]

theorem zfs_set_prop_nvlist_user_break (k : Kernel σ) (s : σ) (name : List Nat) (dev : Nat)
    (cr : cred_t) (elem : nvpair_t) (rest : List nvpair_t) (strval : List Nat)
    (hinval : k.zfs_name_to_prop (nvpair_name elem) = zfs_prop_t.ZFS_PROP_INVAL)
    (huser : k.zfs_prop_user (nvpair_name elem) = true)
    (hv : elem.value = nvvalue.string strval)
    (hfail : (k.dsl_prop_set s name (nvpair_name elem) 1 (strlen strval + 1)
      (cstr strval ++ [0])).1 ≠ 0) :
    (zfs_set_prop_nvlist k s name dev cr (elem :: rest)).1 = 0 := by
  have hb := zfs_set_prop_elem_user_break k s name cr elem strval hinval huser hv hfail
  unfold zfs_set_prop_nvlist
  rw [zfs_set_prop_loop]
  rcases he : zfs_set_prop_elem k s name cr elem with ⟨ctl, t, s1⟩
  rw [he] at hb
  simp only at hb
  subst hb
  rfl

/-- C11. On the concrete kernel, the one-entry list that sets the user-defined property
"u:x" (no known property, a user property name, a string value) on "tank/a" meets a
`dsl_prop_set` that fails with `ENOENT`, and `zfs_set_prop_nvlist` returns 0: the loop is
left by `break` and the function ends on `return (0)`.  The same failure on a known
property is returned: the string property "m" with the same value gives `ENOENT`. -/
theorem zfs_set_prop_nvlist_user_error_lost :
    sample_kernel.zfs_name_to_prop [117, 58, 120] = zfs_prop_t.ZFS_PROP_INVAL ∧
      sample_kernel.zfs_prop_user [117, 58, 120] = true ∧
      (sample_kernel.dsl_prop_set 0 [116, 97, 110, 107, 47, 97] [117, 58, 120] 1 2 [9, 0]).1 =
        ENOENT ∧
      zfs_set_prop_nvlist sample_kernel 0 [116, 97, 110, 107, 47, 97] 0 0
          [⟨[117, 58, 120], .string [9]⟩] =
        (0, [(0, event.dsl_prop_set [116, 97, 110, 107, 47, 97] [117, 58, 120] 1 2 [9, 0]
          ENOENT)], 0) ∧
      zfs_set_prop_nvlist sample_kernel 0 [116, 97, 110, 107, 47, 97] 0 0
          [⟨[109], .string [9]⟩] =
        (ENOENT, [(0, event.dsl_prop_set [116, 97, 110, 107, 47, 97] [109] 1 2 [9, 0]
          ENOENT)], 0) := by
  decide

/-! ### The command table -/

/-- C15, as stated, fails: the row of `zfs_ioc_snapshot` and the row of `zfs_ioc_rollback`
are in the table with a policy other than `zfs_secpolicy_parent`. -/
theorem zfs_ioc_vec_snapshot_rollback_not_parent :
    (∃ row ∈ zfs_ioc_vec, row.zvec_func = zfs_ioc_func_t.zfs_ioc_snapshot ∧
        row.zvec_secpolicy ≠ zfs_secpolicy_func_t.zfs_secpolicy_parent) ∧
      (∃ row ∈ zfs_ioc_vec, row.zvec_func = zfs_ioc_func_t.zfs_ioc_rollback ∧
        row.zvec_secpolicy ≠ zfs_secpolicy_func_t.zfs_secpolicy_parent) := by
  decide

/-- C15, amended: each of the four handlers has one row in `zfs_ioc_vec`; the rows of
`zfs_ioc_create` (which also serves clone) and `zfs_ioc_destroy` carry
`zfs_secpolicy_parent`, the rows of `zfs_ioc_rollback` and `zfs_ioc_snapshot` carry
`zfs_secpolicy_write`; and no other row carries `zfs_secpolicy_parent`. -/
theorem zfs_ioc_vec_parent_rows :
    zfs_ioc_vec.filter (fun row => decide (row.zvec_func = zfs_ioc_func_t.zfs_ioc_create)) =
        [⟨.zfs_ioc_create, .zfs_secpolicy_parent, .dataset_name⟩] ∧
      zfs_ioc_vec.filter (fun row => decide (row.zvec_func = zfs_ioc_func_t.zfs_ioc_destroy)) =
        [⟨.zfs_ioc_destroy, .zfs_secpolicy_parent, .dataset_name⟩] ∧
      zfs_ioc_vec.filter (fun row => decide (row.zvec_func = zfs_ioc_func_t.zfs_ioc_rollback)) =
        [⟨.zfs_ioc_rollback, .zfs_secpolicy_write, .dataset_name⟩] ∧
      zfs_ioc_vec.filter (fun row => decide (row.zvec_func = zfs_ioc_func_t.zfs_ioc_snapshot)) =
        [⟨.zfs_ioc_snapshot, .zfs_secpolicy_write, .dataset_name⟩] ∧
      (zfs_ioc_vec.filter (fun row =>
          decide (row.zvec_secpolicy = zfs_secpolicy_func_t.zfs_secpolicy_parent))).map
          (fun row => row.zvec_func) =
        [zfs_ioc_func_t.zfs_ioc_create, zfs_ioc_func_t.zfs_ioc_destroy] := by
  decide

/-! ### Termination of the target name -/

theorem zfsdev_ioctl_secpolicy_raw_name (k : Kernel σ) (s : σ) (dev : Nat) (cmd : Int)
    (arg : Nat) (cr : cred_t) (row : zfs_ioc_vec_t)
    (hrow : zfs_ioc_vec[ioctl_vec k cmd]? = some row)
    (hcopy : (k.xcopyin_zc s arg).1 = 0) :
    ∃ rest, (zfsdev_ioctl k s dev cmd arg cr).2.1 =
      event.xcopyin_zc arg ::
        event.zvec_secpolicy (ioctl_vec k cmd) (k.xcopyin_zc s arg).2.zc_name :: rest := by
  rw [zfsdev_ioctl_in_range k s dev cmd arg cr row hrow]
  have h2 : (ioctl_secpolicy k dev (ioctl_vec k cmd) row cr (ioctl_copyin k s arg)).trace =
      event.xcopyin_zc arg ::
        event.zvec_secpolicy (ioctl_vec k cmd) (k.xcopyin_zc s arg).2.zc_name ::
          (zvec_secpolicy_call k s row.zvec_secpolicy (k.xcopyin_zc s arg).2.zc_name cr).2 := by
    simp [ioctl_secpolicy, ioctl_copyin, hcopy]
  have h3 : ∃ r3, (ioctl_namecheck k row
      (ioctl_secpolicy k dev (ioctl_vec k cmd) row cr (ioctl_copyin k s arg))).trace =
      (ioctl_secpolicy k dev (ioctl_vec k cmd) row cr (ioctl_copyin k s arg)).trace ++ r3 := by
    unfold ioctl_namecheck
    split_ifs
    · cases row.zvec_namecheck
      · exact ⟨[], by simp⟩
      · exact ⟨_, rfl⟩
      · exact ⟨_, rfl⟩
    · exact ⟨[], by simp⟩
  have h4 : ∃ r4, (ioctl_func k (ioctl_vec k cmd) row (ioctl_namecheck k row
      (ioctl_secpolicy k dev (ioctl_vec k cmd) row cr (ioctl_copyin k s arg)))).trace =
      (ioctl_namecheck k row
        (ioctl_secpolicy k dev (ioctl_vec k cmd) row cr (ioctl_copyin k s arg))).trace ++ r4 := by
    unfold ioctl_func
    split_ifs
    · exact ⟨_, rfl⟩
    · exact ⟨[], by simp⟩
  obtain ⟨r3, h3⟩ := h3
  obtain ⟨r4, h4⟩ := h4
  have h5 : (zfsdev_ioctl_row k s dev (ioctl_vec k cmd) row arg cr).trace =
      (ioctl_func k (ioctl_vec k cmd) row (ioctl_namecheck k row
        (ioctl_secpolicy k dev (ioctl_vec k cmd) row cr (ioctl_copyin k s arg)))).trace ++
        [event.xcopyout_zc
          (ioctl_func k (ioctl_vec k cmd) row (ioctl_namecheck k row
            (ioctl_secpolicy k dev (ioctl_vec k cmd) row cr (ioctl_copyin k s arg)))).zc
          arg] := rfl
  rw [h5, h4, h3, h2]
  simp only [List.cons_append, List.append_assoc]
  exact ⟨_, rfl⟩

/-- C16. On the concrete kernel, a request for command 19 (`zfs_ioc_objset_stats`) whose
name array "tanktank" holds no NUL: the policy is called on the array as it was copied
in, without a NUL, and reads all 8 bytes as the name; the last byte is forced to NUL only
afterwards, so that the name check and the handler see "tanktan". -/
theorem zfsdev_ioctl_secpolicy_unterminated :
    0 ∉ (sample_kernel_unterminated.xcopyin_zc 0 7).2.zc_name ∧
      zfsdev_ioctl sample_kernel_unterminated 0 0 23059 7 0 =
        (0,
          [event.xcopyin_zc 7,
            event.zvec_secpolicy 19 [116, 97, 110, 107, 116, 97, 110, 107],
            event.zone_dataset_visible [116, 97, 110, 107, 116, 97, 110, 107],
            event.dataset_namecheck [116, 97, 110, 107, 116, 97, 110, 0],
            event.zvec_func 19
              { sample_zc with zc_name := [116, 97, 110, 107, 116, 97, 110, 0] },
            event.xcopyout_zc
              { sample_zc with zc_name := [116, 97, 110, 107, 116, 97, 110, 0] } 7], 1) := by
  decide

/-! ### Type checks and the quota rule -/

theorem zfs_set_prop_loop_ret (k : Kernel σ) (name : List Nat) (cr : cred_t) (s : σ)
    (i : Nat) (elem : nvpair_t) (rest : List nvpair_t) (e : Int)
    (h : (zfs_set_prop_elem k s name cr elem).1 = loop_ctl.ret e) :
    zfs_set_prop_loop k name cr s i (elem :: rest) =
      (e, (zfs_set_prop_elem k s name cr elem).2.1.map (fun ev => (i, ev)),
        (zfs_set_prop_elem k s name cr elem).2.2) := by
  rw [zfs_set_prop_loop]
  rcases hb : zfs_set_prop_elem k s name cr elem with ⟨ctl, t, s1⟩
  rw [hb] at h
  simp only at h
  subst h
  rfl

theorem zfs_set_prop_loop_brk (k : Kernel σ) (name : List Nat) (cr : cred_t) (s : σ)
    (i : Nat) (elem : nvpair_t) (rest : List nvpair_t)
    (h : (zfs_set_prop_elem k s name cr elem).1 = loop_ctl.brk) :
    zfs_set_prop_loop k name cr s i (elem :: rest) =
      (0, (zfs_set_prop_elem k s name cr elem).2.1.map (fun ev => (i, ev)),
        (zfs_set_prop_elem k s name cr elem).2.2) := by
  rw [zfs_set_prop_loop]
  rcases hb : zfs_set_prop_elem k s name cr elem with ⟨ctl, t, s1⟩
  rw [hb] at h
  simp only at h
  subst h
  rfl

theorem zfs_set_prop_loop_tags (k : Kernel σ) (name : List Nat) (cr : cred_t) :
    ∀ (l : List nvpair_t) (s : σ) (i : Nat),
      ∀ c ∈ (zfs_set_prop_loop k name cr s i l).2.1, i ≤ c.1 := by
  intro l
  induction l with
  | nil =>
    intro s i c hc
    simp [zfs_set_prop_loop] at hc
  | cons elem rest ih =>
    intro s i c hc
    rw [zfs_set_prop_loop] at hc
    rcases hb : zfs_set_prop_elem k s name cr elem with ⟨ctl, t, s1⟩
    rw [hb] at hc
    cases ctl with
    | next =>
      simp only [List.mem_append, List.mem_map] at hc
      rcases hc with ⟨ev, _, rfl⟩ | hc
      · exact le_refl _
      · have := ih s1 (i + 1) c hc
        omega
    | brk =>
      simp only [List.mem_map] at hc
      obtain ⟨ev, _, rfl⟩ := hc
      exact le_refl _
    | ret e =>
      simp only [List.mem_map] at hc
      obtain ⟨ev, _, rfl⟩ := hc
      exact le_refl _

theorem zfs_set_prop_passes_spec (k : Kernel σ) (name : List Nat) (cr : cred_t) :
    ∀ (pre : List nvpair_t) (s : σ) (i : Nat) (t0 : List (Nat × event)) (s0 : σ),
      zfs_set_prop_passes k name cr s i pre = some (t0, s0) →
      (∀ c ∈ t0, c.1 < i + pre.length) ∧
        ∀ l : List nvpair_t, zfs_set_prop_loop k name cr s i (pre ++ l) =
          ((zfs_set_prop_loop k name cr s0 (i + pre.length) l).1,
            t0 ++ (zfs_set_prop_loop k name cr s0 (i + pre.length) l).2.1,
            (zfs_set_prop_loop k name cr s0 (i + pre.length) l).2.2) := by
  intro pre
  induction pre with
  | nil =>
    intro s i t0 s0 h
    simp only [zfs_set_prop_passes, Option.some.injEq, Prod.mk.injEq] at h
    obtain ⟨rfl, rfl⟩ := h
    simp
  | cons elem pre ih =>
    intro s i t0 s0 h
    rw [zfs_set_prop_passes] at h
    rcases hb : zfs_set_prop_elem k s name cr elem with ⟨ctl, t, s1⟩
    rw [hb] at h
    cases ctl with
    | next =>
      simp only at h
      rcases hq : zfs_set_prop_passes k name cr s1 (i + 1) pre with _ | ⟨t1, s2⟩
      · rw [hq] at h
        exact absurd h (by simp)
      · rw [hq] at h
        simp only [Option.some.injEq, Prod.mk.injEq] at h
        obtain ⟨rfl, rfl⟩ := h
        obtain ⟨htag, hrun⟩ := ih s1 (i + 1) t1 s2 hq
        constructor
        · intro c hc
          simp only [List.mem_append, List.mem_map] at hc
          rcases hc with ⟨ev, _, rfl⟩ | hc
          · simp
          · have := htag c hc
            simp only [List.length_cons]
            omega
        · intro l
          have hnext : (zfs_set_prop_elem k s name cr elem).1 = loop_ctl.next := by rw [hb]
          rw [List.cons_append, zfs_set_prop_loop_next k name cr s i elem (pre ++ l) hnext, hb]
          simp only [hrun l, List.length_cons, List.append_assoc]
          have hidx : i + 1 + pre.length = i + (pre.length + 1) := by omega
          rw [hidx]
    | brk => exact absurd h (by simp)
    | ret e => exact absurd h (by simp)

theorem zfs_set_prop_nvlist_at (k : Kernel σ) (s : σ) (name : List Nat) (dev : Nat)
    (cr : cred_t) (pre rest : List nvpair_t) (elem : nvpair_t) (t0 : List (Nat × event))
    (s0 : σ) (hpre : zfs_set_prop_passes k name cr s 0 pre = some (t0, s0)) :
    (∀ e, (zfs_set_prop_elem k s0 name cr elem).1 = loop_ctl.ret e →
        zfs_set_prop_nvlist k s name dev cr (pre ++ elem :: rest) =
          (e, t0 ++ (zfs_set_prop_elem k s0 name cr elem).2.1.map (fun ev => (pre.length, ev)),
            (zfs_set_prop_elem k s0 name cr elem).2.2)) ∧
      ((zfs_set_prop_elem k s0 name cr elem).1 = loop_ctl.brk →
        zfs_set_prop_nvlist k s name dev cr (pre ++ elem :: rest) =
          (0, t0 ++ (zfs_set_prop_elem k s0 name cr elem).2.1.map (fun ev => (pre.length, ev)),
            (zfs_set_prop_elem k s0 name cr elem).2.2)) ∧
      ((zfs_set_prop_elem k s0 name cr elem).1 = loop_ctl.next →
        zfs_set_prop_nvlist k s name dev cr (pre ++ elem :: rest) =
          ((zfs_set_prop_loop k name cr (zfs_set_prop_elem k s0 name cr elem).2.2
              (pre.length + 1) rest).1,
            t0 ++ ((zfs_set_prop_elem k s0 name cr elem).2.1.map (fun ev => (pre.length, ev)) ++
              (zfs_set_prop_loop k name cr (zfs_set_prop_elem k s0 name cr elem).2.2
                (pre.length + 1) rest).2.1),
            (zfs_set_prop_loop k name cr (zfs_set_prop_elem k s0 name cr elem).2.2
              (pre.length + 1) rest).2.2)) ∧
      (∀ ev, (pre.length, ev) ∈
          (zfs_set_prop_nvlist k s name dev cr (pre ++ elem :: rest)).2.1 ↔
        ev ∈ (zfs_set_prop_elem k s0 name cr elem).2.1) := by
  obtain ⟨htag, hrun⟩ := zfs_set_prop_passes_spec k name cr pre s 0 t0 s0 hpre
  have hrun1 := hrun (elem :: rest)
  simp only [Nat.zero_add] at hrun1 htag
  have hnot : ∀ ev, (pre.length, ev) ∉ t0 := fun ev hev =>
    absurd (htag _ hev) (lt_irrefl _)
  refine ⟨?_, ?_, ?_, ?_⟩
  · intro e he
    simp only [zfs_set_prop_nvlist, hrun1,
      zfs_set_prop_loop_ret k name cr s0 pre.length elem rest e he]
  · intro hb
    simp only [zfs_set_prop_nvlist, hrun1,
      zfs_set_prop_loop_brk k name cr s0 pre.length elem rest hb]
  · intro hn
    simp only [zfs_set_prop_nvlist, hrun1,
      zfs_set_prop_loop_next k name cr s0 pre.length elem rest hn]
  · intro ev
    have hmap : ∀ t : List event,
        (pre.length, ev) ∈ t.map (fun x => (pre.length, x)) ↔ ev ∈ t := by
      intro t
      simp
    cases hc : (zfs_set_prop_elem k s0 name cr elem).1 with
    | next =>
      simp only [zfs_set_prop_nvlist, hrun1,
        zfs_set_prop_loop_next k name cr s0 pre.length elem rest hc, List.mem_append, hmap]
      constructor
      · rintro (h | h | h)
        · exact absurd h (hnot ev)
        · exact h
        · have := zfs_set_prop_loop_tags k name cr rest _ _ _ h
          simp only at this
          omega
      · intro h
        exact Or.inr (Or.inl h)
    | brk =>
      simp only [zfs_set_prop_nvlist, hrun1,
        zfs_set_prop_loop_brk k name cr s0 pre.length elem rest hc, List.mem_append, hmap]
      constructor
      · rintro (h | h)
        · exact absurd h (hnot ev)
        · exact h
      · intro h
        exact Or.inr h
    | ret e =>
      simp only [zfs_set_prop_nvlist, hrun1,
        zfs_set_prop_loop_ret k name cr s0 pre.length elem rest e hc, List.mem_append, hmap]
      constructor
      · rintro (h | h)
        · exact absurd h (hnot ev)
        · exact h
      · intro h
        exact Or.inr h

theorem zfs_set_prop_default_accepts (k : Kernel σ) (s : σ) (name : List Nat)
    (elem : nvpair_t) (prop : zfs_prop_t) :
    (prop_value_accepted k prop elem.value = true →
        ∃ c, prop_set_call k s name (nvpair_name elem) elem.value = some c ∧
          zfs_set_prop_default k s name elem prop [] =
            (if c.2.1 ≠ 0 then loop_ctl.ret c.2.1 else loop_ctl.next, [c.1], c.2.2)) ∧
      (prop_value_accepted k prop elem.value = false →
        zfs_set_prop_default k s name elem prop [] = (loop_ctl.ret EINVAL, [], s)) := by
  unfold zfs_set_prop_default
  cases hv : elem.value with
  | string strval =>
    by_cases ht : k.zfs_prop_get_type prop = zfs_proptype_t.prop_type_string
    · simp [prop_value_accepted, prop_set_call, ht]
    · simp [prop_value_accepted, prop_set_call, ht]
  | uint64 v =>
    cases ht : k.zfs_prop_get_type prop
    · simp [prop_value_accepted, prop_set_call, ht]
    · by_cases hvv : v > 1
      · have h0 : ¬ (v = 0 ∨ v = 1) := by omega
        simp [prop_value_accepted, prop_set_call, ht, hvv, h0]
      · have h0 : v = 0 ∨ v = 1 := by omega
        simp [prop_value_accepted, prop_set_call, ht, hvv, h0]
    · simp [prop_value_accepted, prop_set_call, ht]
    · by_cases hi : k.zfs_prop_index_to_string prop v = 0
      · simp [prop_value_accepted, prop_set_call, ht, hi]
      · simp [prop_value_accepted, prop_set_call, ht, hi]
  | other d =>
    simp [prop_value_accepted, prop_set_call]

/-- The body of the loop on one entry: the type rule for a known property without a
special case, the refusal of zoned outside the global zone, and the rule for a name that
is no known property. -/
theorem zfs_set_prop_elem_type_check (k : Kernel σ) (s : σ) (name : List Nat) (cr : cred_t)
    (elem : nvpair_t) :
    (k.zfs_name_to_prop (nvpair_name elem) ≠ zfs_prop_t.ZFS_PROP_INVAL →
        k.zfs_name_to_prop (nvpair_name elem) ≠ zfs_prop_t.ZFS_PROP_QUOTA →
        k.zfs_name_to_prop (nvpair_name elem) ≠ zfs_prop_t.ZFS_PROP_RESERVATION →
        k.zfs_name_to_prop (nvpair_name elem) ≠ zfs_prop_t.ZFS_PROP_VOLSIZE →
        k.zfs_name_to_prop (nvpair_name elem) ≠ zfs_prop_t.ZFS_PROP_VOLBLOCKSIZE →
        (k.zfs_name_to_prop (nvpair_name elem) = zfs_prop_t.ZFS_PROP_ZONED →
          k.INGLOBALZONE = true) →
        (prop_value_accepted k (k.zfs_name_to_prop (nvpair_name elem)) elem.value = true →
            ∃ c, prop_set_call k s name (nvpair_name elem) elem.value = some c ∧
              zfs_set_prop_elem k s name cr elem =
                (if c.2.1 ≠ 0 then loop_ctl.ret c.2.1 else loop_ctl.next, [c.1], c.2.2)) ∧
          (prop_value_accepted k (k.zfs_name_to_prop (nvpair_name elem)) elem.value = false →
            zfs_set_prop_elem k s name cr elem = (loop_ctl.ret EINVAL, [], s))) ∧
      (k.zfs_name_to_prop (nvpair_name elem) = zfs_prop_t.ZFS_PROP_ZONED →
        k.INGLOBALZONE = false →
        zfs_set_prop_elem k s name cr elem = (loop_ctl.ret EPERM, [], s)) ∧
      (k.zfs_name_to_prop (nvpair_name elem) = zfs_prop_t.ZFS_PROP_INVAL →
        (∀ strval, k.zfs_prop_user (nvpair_name elem) = true →
            elem.value = nvvalue.string strval →
            ∃ c, prop_set_call k s name (nvpair_name elem) elem.value = some c ∧
              zfs_set_prop_elem k s name cr elem =
                (if c.2.1 = 0 then loop_ctl.next else loop_ctl.brk, [c.1], c.2.2)) ∧
          (¬ (k.zfs_prop_user (nvpair_name elem) = true ∧
              ∃ strval, elem.value = nvvalue.string strval) →
            zfs_set_prop_elem k s name cr elem = (loop_ctl.ret EINVAL, [], s))) := by
  refine ⟨?_, ?_, ?_⟩
  · intro h1 h2 h3 h4 h5 hz
    have hbody : zfs_set_prop_elem k s name cr elem =
        zfs_set_prop_default k s name elem (k.zfs_name_to_prop (nvpair_name elem)) [] := by
      unfold zfs_set_prop_elem
      simp only [h1, if_false]
      cases hp : k.zfs_name_to_prop (nvpair_name elem) with
      | ZFS_PROP_INVAL => exact absurd hp h1
      | ZFS_PROP_ZONED =>
        simp [zfs_set_prop_special, zfs_set_prop_apply, hz hp]
      | ZFS_PROP_QUOTA => exact absurd hp h2
      | ZFS_PROP_RESERVATION => exact absurd hp h3
      | ZFS_PROP_VOLSIZE => exact absurd hp h4
      | ZFS_PROP_VOLBLOCKSIZE => exact absurd hp h5
      | other n => simp [zfs_set_prop_special, zfs_set_prop_apply]
    rw [hbody]
    exact zfs_set_prop_default_accepts k s name elem _
  · intro hp hl
    unfold zfs_set_prop_elem
    simp [hp, zfs_set_prop_special, hl, EPERM]
  · intro hp
    constructor
    · intro strval hu hv
      unfold zfs_set_prop_elem
      simp [hp, hv, hu, prop_set_call]
    · intro hn
      unfold zfs_set_prop_elem
      cases hv : elem.value with
      | string strval =>
        have hu : k.zfs_prop_user (nvpair_name elem) = false := by
          cases hb : k.zfs_prop_user (nvpair_name elem)
          · rfl
          · exact absurd ⟨hb, strval, hv⟩ hn
        simp [hp, hu]
      | uint64 v => simp [hp]
      | other d => simp [hp]

theorem zfs_dozonecheck_local (k : Kernel σ) (s : σ) (name : List Nat) (cr : cred_t)
    (hlocal : k.INGLOBALZONE = false) :
    ((zfs_dozonecheck k s name cr).1 = 0 →
        (k.dsl_prop_get_integer s name str_zoned).1 = 0 ∧
          (k.dsl_prop_get_integer s name str_zoned).2.1 ≠ 0) ∧
      ((k.zone_dataset_visible s name).1 = 0 → (zfs_dozonecheck k s name cr).1 = ENOENT) ∧
      ((k.dsl_prop_get_integer s name str_zoned).1 ≠ 0 →
        (zfs_dozonecheck k s name cr).1 = ENOENT) ∧
      ((k.zone_dataset_visible s name).1 ≠ 0 →
        (k.dsl_prop_get_integer s name str_zoned).1 = 0 →
        (k.dsl_prop_get_integer s name str_zoned).2.1 = 0 →
        (zfs_dozonecheck k s name cr).1 = EPERM) := by
  unfold zfs_dozonecheck
  by_cases hv : (k.zone_dataset_visible s name).1 = 0 <;>
    by_cases hr : (k.dsl_prop_get_integer s name str_zoned).1 = 0 <;>
    by_cases hz : (k.dsl_prop_get_integer s name str_zoned).2.1 = 0 <;>
    by_cases hw : (k.zone_dataset_visible s name).2.getD 1 = 0 <;>
    simp [hlocal, hv, hr, hz, hw, ENOENT, EPERM]

theorem zfs_set_prop_elem_quota_local (k : Kernel σ) (s : σ) (name : List Nat) (cr : cred_t)
    (elem : nvpair_t)
    (hq : k.zfs_name_to_prop (nvpair_name elem) = zfs_prop_t.ZFS_PROP_QUOTA)
    (hlocal : k.INGLOBALZONE = false) :
    zfs_set_prop_elem k s name cr elem =
      if (zfs_dozonecheck k s name cr).1 ≠ 0 then
        (loop_ctl.ret (zfs_dozonecheck k s name cr).1, (zfs_dozonecheck k s name cr).2, s)
      else if strlen name ≤ strlen (k.dsl_prop_get_integer s name str_zoned).2.2 then
        (loop_ctl.ret EPERM,
          (zfs_dozonecheck k s name cr).2 ++ [event.dsl_prop_get_integer name str_zoned], s)
      else
        zfs_set_prop_apply k s name elem zfs_prop_t.ZFS_PROP_QUOTA
          ((zfs_dozonecheck k s name cr).2 ++ [event.dsl_prop_get_integer name str_zoned]) := by
  unfold zfs_set_prop_elem
  simp only [hq]
  by_cases hd : (zfs_dozonecheck k s name cr).1 = 0
  · obtain ⟨hr, hz⟩ := (zfs_dozonecheck_local k s name cr hlocal).1 hd
    by_cases hlen : strlen name ≤ strlen (k.dsl_prop_get_integer s name str_zoned).2.2
    · simp [zfs_set_prop_special, zfs_set_prop_quota_check, hd, hlocal, hr, hz, hlen, EPERM]
    · simp [zfs_set_prop_special, zfs_set_prop_quota_check, hd, hlocal, hr, hz, hlen]
  · simp [zfs_set_prop_special, zfs_set_prop_quota_check, hd]

theorem zfs_dozonecheck_no_quota_call (k : Kernel σ) (s : σ) (name : List Nat) (cr : cred_t) :
    ∀ ev ∈ (zfs_dozonecheck k s name cr).2 ++ [event.dsl_prop_get_integer name str_zoned],
      ev.is_quota_call = false := by
  intro ev hev
  simp only [List.mem_append, List.mem_singleton] at hev
  rcases hev with h | rfl
  · have := zfs_dozonecheck_trace k s name cr ev h
    cases ev <;> simp_all [event.is_policy_query, event.is_quota_call]
  · rfl

/-- The body of the loop on an entry that sets quota, for a caller outside the global
zone: when `dsl_dir_set_quota` is called, and with what the body ends otherwise. -/
theorem zfs_set_prop_elem_quota_rule (k : Kernel σ) (s : σ) (name : List Nat) (cr : cred_t)
    (elem : nvpair_t)
    (hq : k.zfs_name_to_prop (nvpair_name elem) = zfs_prop_t.ZFS_PROP_QUOTA)
    (hlocal : k.INGLOBALZONE = false) :
    ((∃ ev ∈ (zfs_set_prop_elem k s name cr elem).2.1, ev.is_quota_call = true) →
        (zfs_dozonecheck k s name cr).1 = 0 ∧
          strlen (k.dsl_prop_get_integer s name str_zoned).2.2 < strlen name) ∧
      ((zfs_dozonecheck k s name cr).1 = 0 →
        strlen (k.dsl_prop_get_integer s name str_zoned).2.2 < strlen name →
        ∀ v, elem.value = nvvalue.uint64 v →
          zfs_set_prop_elem k s name cr elem =
            (if (k.dsl_dir_set_quota s name v).1 ≠ 0 then
                loop_ctl.ret (k.dsl_dir_set_quota s name v).1
              else loop_ctl.next,
              (zfs_dozonecheck k s name cr).2 ++
                [event.dsl_prop_get_integer name str_zoned,
                  event.dsl_dir_set_quota name v (k.dsl_dir_set_quota s name v).1],
              (k.dsl_dir_set_quota s name v).2)) ∧
      ((zfs_dozonecheck k s name cr).1 = 0 →
        strlen name ≤ strlen (k.dsl_prop_get_integer s name str_zoned).2.2 →
        zfs_set_prop_elem k s name cr elem =
          (loop_ctl.ret EPERM,
            (zfs_dozonecheck k s name cr).2 ++ [event.dsl_prop_get_integer name str_zoned],
            s)) ∧
      ((zfs_dozonecheck k s name cr).1 ≠ 0 →
        zfs_set_prop_elem k s name cr elem =
          (loop_ctl.ret (zfs_dozonecheck k s name cr).1, (zfs_dozonecheck k s name cr).2, s)) ∧
      ((k.zone_dataset_visible s name).1 ≠ 0 →
        (k.dsl_prop_get_integer s name str_zoned).1 = 0 →
        (k.dsl_prop_get_integer s name str_zoned).2.1 = 0 →
        (zfs_dozonecheck k s name cr).1 = EPERM) ∧
      ((k.dsl_prop_get_integer s name str_zoned).1 ≠ 0 →
        (zfs_dozonecheck k s name cr).1 = ENOENT) ∧
      ((k.zone_dataset_visible s name).1 = 0 → (zfs_dozonecheck k s name cr).1 = ENOENT) ∧
      (0 ∉ name →
        (name = (k.dsl_prop_get_integer s name str_zoned).2.2 ∨
          ∃ rest, name = (k.dsl_prop_get_integer s name str_zoned).2.2 ++ 47 :: rest) →
        ((∃ ev ∈ (zfs_set_prop_elem k s name cr elem).2.1, ev.is_quota_call = true) →
            ∃ rest, name = (k.dsl_prop_get_integer s name str_zoned).2.2 ++ 47 :: rest) ∧
          (name = (k.dsl_prop_get_integer s name str_zoned).2.2 →
            (∀ ev ∈ (zfs_set_prop_elem k s name cr elem).2.1, ev.is_quota_call = false) ∧
              (zfs_set_prop_elem k s name cr elem).2.2 = s ∧
              ∃ e, e ≠ 0 ∧ (zfs_set_prop_elem k s name cr elem).1 = loop_ctl.ret e)) := by
  have hbody := zfs_set_prop_elem_quota_local k s name cr elem hq hlocal
  have hzc := zfs_dozonecheck_local k s name cr hlocal
  have hnq := zfs_dozonecheck_no_quota_call k s name cr
  have hcalled : (∃ ev ∈ (zfs_set_prop_elem k s name cr elem).2.1, ev.is_quota_call = true) →
      (zfs_dozonecheck k s name cr).1 = 0 ∧
        strlen (k.dsl_prop_get_integer s name str_zoned).2.2 < strlen name := by
    rintro ⟨ev, hev, hquota⟩
    by_cases hd : (zfs_dozonecheck k s name cr).1 = 0
    · by_cases hlen : strlen name ≤ strlen (k.dsl_prop_get_integer s name str_zoned).2.2
      · rw [hbody] at hev
        simp only [hd, ne_eq, not_true_eq_false, if_false, hlen, if_true] at hev
        rw [hnq ev hev] at hquota
        exact absurd hquota (by simp)
      · exact ⟨hd, by omega⟩
    · rw [hbody] at hev
      simp only [hd, ne_eq, not_false_eq_true, if_true] at hev
      rw [hnq ev (List.mem_append_left _ hev)] at hquota
      exact absurd hquota (by simp)
  have hfail1 : (zfs_dozonecheck k s name cr).1 = 0 →
      strlen name ≤ strlen (k.dsl_prop_get_integer s name str_zoned).2.2 →
      zfs_set_prop_elem k s name cr elem =
        (loop_ctl.ret EPERM,
          (zfs_dozonecheck k s name cr).2 ++ [event.dsl_prop_get_integer name str_zoned],
          s) := by
    intro hd hlen
    rw [hbody]
    simp [hd, hlen]
  have hfail2 : (zfs_dozonecheck k s name cr).1 ≠ 0 →
      zfs_set_prop_elem k s name cr elem =
        (loop_ctl.ret (zfs_dozonecheck k s name cr).1, (zfs_dozonecheck k s name cr).2, s) := by
    intro hd
    rw [hbody]
    simp [hd]
  refine ⟨hcalled, ?_, hfail1, hfail2, hzc.2.2.2, hzc.2.2.1, hzc.2.1, ?_⟩
  · intro hd hlen v hv
    have hlen2 : ¬ strlen name ≤ strlen (k.dsl_prop_get_integer s name str_zoned).2.2 := by
      omega
    rw [hbody]
    simp [hd, hlen2, zfs_set_prop_apply, nvpair_value_uint64, hv]
  · intro h0 hanc
    constructor
    · intro hcall
      have hlt := (hcalled hcall).2
      rcases hanc with heq | ⟨rest, hrest⟩
      · rw [← heq] at hlt
        exact absurd hlt (lt_irrefl _)
      · exact ⟨rest, hrest⟩
    · intro heq
      have hlen : strlen name ≤ strlen (k.dsl_prop_get_integer s name str_zoned).2.2 := by
        rw [← heq]
      by_cases hd : (zfs_dozonecheck k s name cr).1 = 0
      · rw [hfail1 hd hlen]
        exact ⟨hnq, rfl, EPERM, by decide, rfl⟩
      · rw [hfail2 hd]
        exact ⟨fun ev hev => hnq ev (List.mem_append_left _ hev), rfl, _, hd, rfl⟩

/-- C18, as stated, fails: on the concrete kernel, for a caller in a local zone, the entry
zoned=1 names a known property other than quota, reservation, volsize and volblocksize,
of declared type boolean, with a 64-bit integer value 1 that the type rule accepts; all
the same `zfs_set_prop_nvlist` refuses it, after having set the entry before it, and it
returns `EPERM`, not `EINVAL`. -/
theorem zfs_set_prop_nvlist_zoned_refused :
    sample_kernel.zfs_name_to_prop [122] = zfs_prop_t.ZFS_PROP_ZONED ∧
      sample_kernel.zfs_prop_get_type zfs_prop_t.ZFS_PROP_ZONED =
        zfs_proptype_t.prop_type_boolean ∧
      prop_value_accepted sample_kernel zfs_prop_t.ZFS_PROP_ZONED (nvvalue.uint64 1) = true ∧
      zfs_set_prop_nvlist sample_kernel 0 [116, 97, 110, 107, 47, 97] 0 0
          [⟨[99], .uint64 1⟩, ⟨[122], .uint64 1⟩] =
        (EPERM, [(0, event.dsl_prop_set [116, 97, 110, 107, 47, 97] [99] 8 1 [1] 0)], 1) ∧
      EPERM ≠ EINVAL := by
  decide

/-- C18, amended.  `zfs_set_prop_nvlist` on a list in which the entries `pre` before the
entry `elem` are all passed (calls `t0`, state `s0`), `elem` being entry number
`pre.length`.  When `elem` names a known property other than quota, reservation, volsize
and volblocksize, and other than zoned for a caller outside the global zone: if the type
rule accepts the value, the one `dsl_prop_set` call for it is made in state `s0`, and the
function returns the error of that call if it is nonzero and goes on with the entries
after `elem` otherwise; if the rule does not accept the value, the function returns
`EINVAL` with the calls `t0` only and the state `s0`.  When `elem` names zoned and the
caller is outside the global zone, the function returns `EPERM` with the calls `t0` only
and the state `s0`.  When the name of `elem` is no known property: if it is a user
property name and the value is a string, the `dsl_prop_set` call for it is made, and the
function goes on with the entries after `elem` when the call returns 0 (it stops and
returns 0 when the call fails); otherwise the function returns `EINVAL` with the calls
`t0` only and the state `s0`. -/
theorem zfs_set_prop_nvlist_type_check (k : Kernel σ) (s : σ) (name : List Nat) (dev : Nat)
    (cr : cred_t) (pre rest : List nvpair_t) (elem : nvpair_t) (t0 : List (Nat × event))
    (s0 : σ) (hpre : zfs_set_prop_passes k name cr s 0 pre = some (t0, s0)) :
    (k.zfs_name_to_prop (nvpair_name elem) ≠ zfs_prop_t.ZFS_PROP_INVAL →
        k.zfs_name_to_prop (nvpair_name elem) ≠ zfs_prop_t.ZFS_PROP_QUOTA →
        k.zfs_name_to_prop (nvpair_name elem) ≠ zfs_prop_t.ZFS_PROP_RESERVATION →
        k.zfs_name_to_prop (nvpair_name elem) ≠ zfs_prop_t.ZFS_PROP_VOLSIZE →
        k.zfs_name_to_prop (nvpair_name elem) ≠ zfs_prop_t.ZFS_PROP_VOLBLOCKSIZE →
        (k.zfs_name_to_prop (nvpair_name elem) = zfs_prop_t.ZFS_PROP_ZONED →
          k.INGLOBALZONE = true) →
        (prop_value_accepted k (k.zfs_name_to_prop (nvpair_name elem)) elem.value = true →
            ∃ c, prop_set_call k s0 name (nvpair_name elem) elem.value = some c ∧
              (c.2.1 ≠ 0 →
                zfs_set_prop_nvlist k s name dev cr (pre ++ elem :: rest) =
                  (c.2.1, t0 ++ [(pre.length, c.1)], c.2.2)) ∧
              (c.2.1 = 0 →
                zfs_set_prop_nvlist k s name dev cr (pre ++ elem :: rest) =
                  ((zfs_set_prop_loop k name cr c.2.2 (pre.length + 1) rest).1,
                    t0 ++ ([(pre.length, c.1)] ++
                      (zfs_set_prop_loop k name cr c.2.2 (pre.length + 1) rest).2.1),
                    (zfs_set_prop_loop k name cr c.2.2 (pre.length + 1) rest).2.2))) ∧
          (prop_value_accepted k (k.zfs_name_to_prop (nvpair_name elem)) elem.value = false →
            zfs_set_prop_nvlist k s name dev cr (pre ++ elem :: rest) = (EINVAL, t0, s0))) ∧
      (k.zfs_name_to_prop (nvpair_name elem) = zfs_prop_t.ZFS_PROP_ZONED →
        k.INGLOBALZONE = false →
        zfs_set_prop_nvlist k s name dev cr (pre ++ elem :: rest) = (EPERM, t0, s0)) ∧
      (k.zfs_name_to_prop (nvpair_name elem) = zfs_prop_t.ZFS_PROP_INVAL →
        (∀ strval, k.zfs_prop_user (nvpair_name elem) = true →
            elem.value = nvvalue.string strval →
            ∃ c, prop_set_call k s0 name (nvpair_name elem) elem.value = some c ∧
              (c.2.1 = 0 →
                zfs_set_prop_nvlist k s name dev cr (pre ++ elem :: rest) =
                  ((zfs_set_prop_loop k name cr c.2.2 (pre.length + 1) rest).1,
                    t0 ++ ([(pre.length, c.1)] ++
                      (zfs_set_prop_loop k name cr c.2.2 (pre.length + 1) rest).2.1),
                    (zfs_set_prop_loop k name cr c.2.2 (pre.length + 1) rest).2.2)) ∧
              (c.2.1 ≠ 0 →
                zfs_set_prop_nvlist k s name dev cr (pre ++ elem :: rest) =
                  (0, t0 ++ [(pre.length, c.1)], c.2.2))) ∧
          (¬ (k.zfs_prop_user (nvpair_name elem) = true ∧
              ∃ strval, elem.value = nvvalue.string strval) →
            zfs_set_prop_nvlist k s name dev cr (pre ++ elem :: rest) = (EINVAL, t0, s0))) := by
  obtain ⟨hret, hbrk, hnext, _⟩ :=
    zfs_set_prop_nvlist_at k s name dev cr pre rest elem t0 s0 hpre
  obtain ⟨hknown, hzoned, huser⟩ := zfs_set_prop_elem_type_check k s0 name cr elem
  refine ⟨?_, ?_, ?_⟩
  · intro h1 h2 h3 h4 h5 hz
    obtain ⟨hacc, hrej⟩ := hknown h1 h2 h3 h4 h5 hz
    constructor
    · intro ha
      obtain ⟨c, hc, hb⟩ := hacc ha
      refine ⟨c, hc, ?_, ?_⟩
      · intro hne
        have h := hret c.2.1 (by rw [hb]; simp [hne])
        rw [hb] at h
        simpa using h
      · intro he
        have h := hnext (by rw [hb]; simp [he])
        rw [hb] at h
        simpa using h
    · intro hr
      have hb := hrej hr
      have h := hret EINVAL (by rw [hb])
      rw [hb] at h
      simpa using h
  · intro hp hl
    have hb := hzoned hp hl
    have h := hret EPERM (by rw [hb])
    rw [hb] at h
    simpa using h
  · intro hp
    obtain ⟨hset, hrej⟩ := huser hp
    constructor
    · intro strval hu hv
      obtain ⟨c, hc, hb⟩ := hset strval hu hv
      refine ⟨c, hc, ?_, ?_⟩
      · intro he
        have h := hnext (by rw [hb]; simp [he])
        rw [hb] at h
        simpa using h
      · intro hne
        have h := hbrk (by rw [hb]; simp [hne])
        rw [hb] at h
        simpa using h
    · intro hn
      have hb := hrej hn
      have h := hret EINVAL (by rw [hb])
      rw [hb] at h
      simpa using h

/-- C18, amended, on the concrete kernel, each time after the entry compression=1, which
is set: compression=7 (7 is no index value) makes `zfs_set_prop_nvlist` return `EINVAL`
with no call but that of the first entry; zoned=1 from the local zone makes it return
`EPERM`; the unknown name "x" makes it return `EINVAL`; the string property
mountpoint="x" is set and the entry after it is processed. -/
theorem zfs_set_prop_nvlist_type_check_witness :
    zfs_set_prop_nvlist sample_kernel 0 [116, 97, 110, 107, 47, 97] 0 0
        ([⟨[99], .uint64 1⟩] ++ ⟨[99], .uint64 7⟩ :: [⟨[99], .uint64 2⟩]) =
        (EINVAL, [(0, event.dsl_prop_set [116, 97, 110, 107, 47, 97] [99] 8 1 [1] 0)], 1) ∧
      zfs_set_prop_nvlist sample_kernel 0 [116, 97, 110, 107, 47, 97] 0 0
        ([⟨[99], .uint64 1⟩] ++ ⟨[122], .uint64 1⟩ :: [⟨[99], .uint64 2⟩]) =
        (EPERM, [(0, event.dsl_prop_set [116, 97, 110, 107, 47, 97] [99] 8 1 [1] 0)], 1) ∧
      zfs_set_prop_nvlist sample_kernel 0 [116, 97, 110, 107, 47, 97] 0 0
        ([⟨[99], .uint64 1⟩] ++ ⟨[120], .string [120]⟩ :: [⟨[99], .uint64 2⟩]) =
        (EINVAL, [(0, event.dsl_prop_set [116, 97, 110, 107, 47, 97] [99] 8 1 [1] 0)], 1) ∧
      zfs_set_prop_nvlist sample_kernel 0 [116, 97, 110, 107, 47, 97] 0 0
        [⟨[99], .uint64 1⟩, ⟨[109], .string [120]⟩, ⟨[99], .uint64 2⟩] =
        (0,
          [(0, event.dsl_prop_set [116, 97, 110, 107, 47, 97] [99] 8 1 [1] 0),
            (1, event.dsl_prop_set [116, 97, 110, 107, 47, 97] [109] 1 2 [120, 0] 0),
            (2, event.dsl_prop_set [116, 97, 110, 107, 47, 97] [99] 8 1 [2] 0)], 3) :=
  ⟨((zfs_set_prop_nvlist_type_check sample_kernel 0 [116, 97, 110, 107, 47, 97] 0 0
      [⟨[99], .uint64 1⟩] [⟨[99], .uint64 2⟩] ⟨[99], .uint64 7⟩
      [(0, event.dsl_prop_set [116, 97, 110, 107, 47, 97] [99] 8 1 [1] 0)] 1 rfl).1
      (by decide) (by decide) (by decide) (by decide) (by decide) (by decide)).2 (by decide),
    (zfs_set_prop_nvlist_type_check sample_kernel 0 [116, 97, 110, 107, 47, 97] 0 0
      [⟨[99], .uint64 1⟩] [⟨[99], .uint64 2⟩] ⟨[122], .uint64 1⟩
      [(0, event.dsl_prop_set [116, 97, 110, 107, 47, 97] [99] 8 1 [1] 0)] 1 rfl).2.1
      (by decide) (by decide),
    ((zfs_set_prop_nvlist_type_check sample_kernel 0 [116, 97, 110, 107, 47, 97] 0 0
      [⟨[99], .uint64 1⟩] [⟨[99], .uint64 2⟩] ⟨[120], .string [120]⟩
      [(0, event.dsl_prop_set [116, 97, 110, 107, 47, 97] [99] 8 1 [1] 0)] 1 rfl).2.2
      (by decide)).2 (fun h => absurd h.1 (by decide)),
    by decide⟩


/-- C19, as stated, fails: on the concrete kernel whose engine cannot read 'zoned', for a
caller in a local zone, `zfs_set_prop_nvlist` with the entry quota=5 on the visible
dataset "tank/a" fails, but with the `ENOENT` of the zone check, not with `EPERM`. -/
theorem zfs_set_prop_nvlist_quota_unreadable :
    sample_kernel_unreadable.INGLOBALZONE = false ∧
      sample_kernel_unreadable.zfs_name_to_prop [113] = zfs_prop_t.ZFS_PROP_QUOTA ∧
      (sample_kernel_unreadable.dsl_prop_get_integer 0 [116, 97, 110, 107, 47, 97]
        str_zoned).1 ≠ 0 ∧
      zfs_set_prop_nvlist sample_kernel_unreadable 0 [116, 97, 110, 107, 47, 97] 0 0
          [⟨[113], .uint64 5⟩] =
        (ENOENT,
          [(0, event.zone_dataset_visible [116, 97, 110, 107, 47, 97]),
            (0, event.dsl_prop_get_integer [116, 97, 110, 107, 47, 97] str_zoned)], 0) ∧
      ENOENT ≠ EPERM := by
  decide

/-- C19, amended.  `zfs_set_prop_nvlist` for a caller outside the global zone, on a list
in which the entries `pre` before the entry `elem` are all passed (calls `t0`, state
`s0`), `elem` being entry number `pre.length` and setting quota on the dataset `name`.
`dsl_dir_set_quota` is called for this entry only if `zfs_dozonecheck(name)` returns 0
and `name` is longer than the setpoint the engine reports for 'zoned'; it is called then
when the value is a 64-bit integer, and the function returns its error if it is nonzero
and goes on with the entries after `elem` otherwise.  When the zone check passes and
`name` is not longer than the setpoint, the function returns `EPERM`; when the zone
check fails, the function returns the error of the zone check, which is `EPERM` when the
dataset is visible and 'zoned' reads as 0, and `ENOENT` when 'zoned' cannot be read or
the dataset is not visible; in these failing cases the calls made for the entry are
queries and the state is `s0`, what the entries before left.  When the setpoint is
`name` or an ancestor of `name`, being longer than the setpoint is being strictly nested
under it, and on the setpoint itself the function fails without a quota call for the
entry. -/
theorem zfs_set_prop_nvlist_quota_rule (k : Kernel σ) (s : σ) (name : List Nat) (dev : Nat)
    (cr : cred_t) (pre rest : List nvpair_t) (elem : nvpair_t) (t0 : List (Nat × event))
    (s0 : σ)
    (hq : k.zfs_name_to_prop (nvpair_name elem) = zfs_prop_t.ZFS_PROP_QUOTA)
    (hlocal : k.INGLOBALZONE = false)
    (hpre : zfs_set_prop_passes k name cr s 0 pre = some (t0, s0)) :
    ((∃ ev, (pre.length, ev) ∈
          (zfs_set_prop_nvlist k s name dev cr (pre ++ elem :: rest)).2.1 ∧
          ev.is_quota_call = true) →
        (zfs_dozonecheck k s0 name cr).1 = 0 ∧
          strlen (k.dsl_prop_get_integer s0 name str_zoned).2.2 < strlen name) ∧
      ((zfs_dozonecheck k s0 name cr).1 = 0 →
        strlen (k.dsl_prop_get_integer s0 name str_zoned).2.2 < strlen name →
        ∀ v, elem.value = nvvalue.uint64 v →
          ((k.dsl_dir_set_quota s0 name v).1 ≠ 0 →
            zfs_set_prop_nvlist k s name dev cr (pre ++ elem :: rest) =
              ((k.dsl_dir_set_quota s0 name v).1,
                t0 ++ ((zfs_dozonecheck k s0 name cr).2 ++
                  [event.dsl_prop_get_integer name str_zoned,
                    event.dsl_dir_set_quota name v (k.dsl_dir_set_quota s0 name v).1]).map
                  (fun ev => (pre.length, ev)),
                (k.dsl_dir_set_quota s0 name v).2)) ∧
          ((k.dsl_dir_set_quota s0 name v).1 = 0 →
            zfs_set_prop_nvlist k s name dev cr (pre ++ elem :: rest) =
              ((zfs_set_prop_loop k name cr (k.dsl_dir_set_quota s0 name v).2
                  (pre.length + 1) rest).1,
                t0 ++ (((zfs_dozonecheck k s0 name cr).2 ++
                  [event.dsl_prop_get_integer name str_zoned,
                    event.dsl_dir_set_quota name v 0]).map (fun ev => (pre.length, ev)) ++
                  (zfs_set_prop_loop k name cr (k.dsl_dir_set_quota s0 name v).2
                    (pre.length + 1) rest).2.1),
                (zfs_set_prop_loop k name cr (k.dsl_dir_set_quota s0 name v).2
                  (pre.length + 1) rest).2.2))) ∧
      ((zfs_dozonecheck k s0 name cr).1 = 0 →
        strlen name ≤ strlen (k.dsl_prop_get_integer s0 name str_zoned).2.2 →
        zfs_set_prop_nvlist k s name dev cr (pre ++ elem :: rest) =
          (EPERM,
            t0 ++ ((zfs_dozonecheck k s0 name cr).2 ++
              [event.dsl_prop_get_integer name str_zoned]).map (fun ev => (pre.length, ev)),
            s0)) ∧
      ((zfs_dozonecheck k s0 name cr).1 ≠ 0 →
        zfs_set_prop_nvlist k s name dev cr (pre ++ elem :: rest) =
          ((zfs_dozonecheck k s0 name cr).1,
            t0 ++ (zfs_dozonecheck k s0 name cr).2.map (fun ev => (pre.length, ev)), s0)) ∧
      ((k.zone_dataset_visible s0 name).1 ≠ 0 →
        (k.dsl_prop_get_integer s0 name str_zoned).1 = 0 →
        (k.dsl_prop_get_integer s0 name str_zoned).2.1 = 0 →
        (zfs_dozonecheck k s0 name cr).1 = EPERM) ∧
      ((k.dsl_prop_get_integer s0 name str_zoned).1 ≠ 0 →
        (zfs_dozonecheck k s0 name cr).1 = ENOENT) ∧
      ((k.zone_dataset_visible s0 name).1 = 0 → (zfs_dozonecheck k s0 name cr).1 = ENOENT) ∧
      (0 ∉ name →
        (name = (k.dsl_prop_get_integer s0 name str_zoned).2.2 ∨
          ∃ tail, name = (k.dsl_prop_get_integer s0 name str_zoned).2.2 ++ 47 :: tail) →
        ((∃ ev, (pre.length, ev) ∈
              (zfs_set_prop_nvlist k s name dev cr (pre ++ elem :: rest)).2.1 ∧
              ev.is_quota_call = true) →
            ∃ tail, name = (k.dsl_prop_get_integer s0 name str_zoned).2.2 ++ 47 :: tail) ∧
          (name = (k.dsl_prop_get_integer s0 name str_zoned).2.2 →
            (zfs_set_prop_nvlist k s name dev cr (pre ++ elem :: rest)).1 ≠ 0 ∧
              (∀ ev, (pre.length, ev) ∈
                  (zfs_set_prop_nvlist k s name dev cr (pre ++ elem :: rest)).2.1 →
                ev.is_quota_call = false) ∧
              (zfs_set_prop_nvlist k s name dev cr (pre ++ elem :: rest)).2.2 = s0)) := by
  obtain ⟨hret, _, hnext, htag⟩ :=
    zfs_set_prop_nvlist_at k s name dev cr pre rest elem t0 s0 hpre
  obtain ⟨hcalled, hcall, hfail1, hfail2, hz1, hz2, hz3, hnest⟩ :=
    zfs_set_prop_elem_quota_rule k s0 name cr elem hq hlocal
  have hcalled1 : (∃ ev, (pre.length, ev) ∈
        (zfs_set_prop_nvlist k s name dev cr (pre ++ elem :: rest)).2.1 ∧
        ev.is_quota_call = true) →
      ∃ ev ∈ (zfs_set_prop_elem k s0 name cr elem).2.1, ev.is_quota_call = true := by
    rintro ⟨ev, hev, hquota⟩
    exact ⟨ev, (htag ev).mp hev, hquota⟩
  refine ⟨fun h => hcalled (hcalled1 h), ?_, ?_, ?_, hz1, hz2, hz3, ?_⟩
  · intro hd hlen v hv
    have hb := hcall hd hlen v hv
    constructor
    · intro hne
      have h := hret (k.dsl_dir_set_quota s0 name v).1 (by rw [hb]; simp [hne])
      rw [hb] at h
      exact h
    · intro he
      have h := hnext (by rw [hb]; simp [he])
      rw [hb] at h
      rw [he] at h
      exact h
  · intro hd hlen
    have hb := hfail1 hd hlen
    have h := hret EPERM (by rw [hb])
    rw [hb] at h
    exact h
  · intro hd
    have hb := hfail2 hd
    have h := hret (zfs_dozonecheck k s0 name cr).1 (by rw [hb])
    rw [hb] at h
    exact h
  · intro h0 hanc
    obtain ⟨hn1, hn2⟩ := hnest h0 hanc
    constructor
    · intro h
      exact hn1 (hcalled1 h)
    · intro heq
      obtain ⟨hnone, hstate, e, he, hctl⟩ := hn2 heq
      have h := hret e hctl
      refine ⟨?_, ?_, ?_⟩
      · rw [h]
        exact he
      · intro ev hev
        exact hnone ev ((htag ev).mp hev)
      · rw [h]
        exact hstate

/-- C19, amended, on the concrete kernel (setpoint "tank"), after the entry
compression=1, which is set.  On "tank/a", quota=5 passes the zone check and the length
rule, `dsl_dir_set_quota` is called and the entry after it is processed.  On a dataset
"tank" that is zoned, visible and writable, the dataset is the setpoint itself and
`zfs_set_prop_nvlist` returns `EPERM` without a quota call, in the state the first entry
left. -/
theorem zfs_set_prop_nvlist_quota_rule_witness :
    zfs_set_prop_nvlist sample_kernel 0 [116, 97, 110, 107, 47, 97] 0 0
        ([⟨[99], .uint64 1⟩] ++ ⟨[113], .uint64 5⟩ :: [⟨[99], .uint64 2⟩]) =
        (0,
          [(0, event.dsl_prop_set [116, 97, 110, 107, 47, 97] [99] 8 1 [1] 0),
            (1, event.zone_dataset_visible [116, 97, 110, 107, 47, 97]),
            (1, event.dsl_prop_get_integer [116, 97, 110, 107, 47, 97] str_zoned),
            (1, event.dsl_prop_get_integer [116, 97, 110, 107, 47, 97] str_zoned),
            (1, event.dsl_dir_set_quota [116, 97, 110, 107, 47, 97] 5 0),
            (2, event.dsl_prop_set [116, 97, 110, 107, 47, 97] [99] 8 1 [2] 0)], 3) ∧
      zfs_set_prop_nvlist { sample_kernel with
          dsl_prop_get_integer := fun _ _ _ => (0, 1, [116, 97, 110, 107]) } 0
          [116, 97, 110, 107] 0 0
          ([⟨[99], .uint64 1⟩] ++ ⟨[113], .uint64 5⟩ :: [⟨[99], .uint64 2⟩]) =
        (EPERM,
          [(0, event.dsl_prop_set [116, 97, 110, 107] [99] 8 1 [1] 0),
            (1, event.zone_dataset_visible [116, 97, 110, 107]),
            (1, event.dsl_prop_get_integer [116, 97, 110, 107] str_zoned),
            (1, event.dsl_prop_get_integer [116, 97, 110, 107] str_zoned)], 1) :=
  ⟨((zfs_set_prop_nvlist_quota_rule sample_kernel 0 [116, 97, 110, 107, 47, 97] 0 0
      [⟨[99], .uint64 1⟩] [⟨[99], .uint64 2⟩] ⟨[113], .uint64 5⟩
      [(0, event.dsl_prop_set [116, 97, 110, 107, 47, 97] [99] 8 1 [1] 0)] 1
      (by decide) (by decide) rfl).2.1 (by decide) (by decide) 5 rfl).2 (by decide),
    (zfs_set_prop_nvlist_quota_rule { sample_kernel with
        dsl_prop_get_integer := fun _ _ _ => (0, 1, [116, 97, 110, 107]) } 0
      [116, 97, 110, 107] 0 0
      [⟨[99], .uint64 1⟩] [⟨[99], .uint64 2⟩] ⟨[113], .uint64 5⟩
      [(0, event.dsl_prop_set [116, 97, 110, 107] [99] 8 1 [1] 0)] 1
      (by decide) (by decide) rfl).2.2.1 (by decide) (by decide)⟩

/-! ### The `retry:` loop -/

theorem dmu_objset_open_retry_busy (k : Kernel σ) (name : List Nat) (type mode : Nat) :
    ∀ (n fuel : Nat) (s : σ), n < fuel →
      (∀ j < n, (k.dmu_objset_open (retry_state k name type mode j s) name type mode).1 =
        EBUSY) →
      (k.dmu_objset_open (retry_state k name type mode n s) name type mode).1 ≠ EBUSY →
      dmu_objset_open_retry k name type mode fuel s =
        some ((k.dmu_objset_open (retry_state k name type mode n s) name type mode).1,
          (k.dmu_objset_open (retry_state k name type mode n s) name type mode).2.1,
          retry_trace name type mode
            (k.dmu_objset_open (retry_state k name type mode n s) name type mode).1 n,
          (k.dmu_objset_open (retry_state k name type mode n s) name type mode).2.2) := by
  intro n
  induction n with
  | zero =>
    intro fuel s hfuel _ hlast
    obtain ⟨f, rfl⟩ : ∃ f, fuel = f + 1 := ⟨fuel - 1, by omega⟩
    simp only [retry_state] at hlast ⊢
    simp [dmu_objset_open_retry, hlast, retry_trace]
  | succ n ih =>
    intro fuel s hfuel hbusy hlast
    obtain ⟨f, rfl⟩ : ∃ f, fuel = f + 1 := ⟨fuel - 1, by omega⟩
    have h0 : (k.dmu_objset_open s name type mode).1 = EBUSY := hbusy 0 (by omega)
    have hrec := ih f (k.delay (k.dmu_objset_open s name type mode).2.2 1) (by omega)
      (fun j hj => hbusy (j + 1) (by omega)) hlast
    simp only [retry_state] at hlast ⊢
    simp only [dmu_objset_open_retry, h0, if_true, hrec, retry_trace]

theorem dmu_objset_open_retry_not_busy (k : Kernel σ) (name : List Nat) (type mode : Nat) :
    ∀ (fuel : Nat) (s : σ) (q : Int × Nat × List event × σ),
      dmu_objset_open_retry k name type mode fuel s = some q → q.1 ≠ EBUSY := by
  intro fuel
  induction fuel with
  | zero =>
    intro s q h
    simp [dmu_objset_open_retry] at h
  | succ f ih =>
    intro s q h
    by_cases hb : (k.dmu_objset_open s name type mode).1 = EBUSY
    · simp only [dmu_objset_open_retry, hb, if_true] at h
      rcases hr : dmu_objset_open_retry k name type mode f
          (k.delay (k.dmu_objset_open s name type mode).2.2 1) with _ | q1
      · rw [hr] at h
        simp at h
      · rw [hr] at h
        simp only [Option.some.injEq] at h
        rw [← h]
        exact ih _ q1 hr
    · simp only [dmu_objset_open_retry, hb, if_false, Option.some.injEq] at h
      rw [← h]
      exact hb

theorem retry_trace_counts (name : List Nat) (type mode : Nat) (ret : Int) (n : Nat) :
    ((retry_trace name type mode ret n).filter event.is_open).length = n + 1 ∧
      ((retry_trace name type mode ret n).filter event.is_delay).length = n := by
  induction n with
  | zero => simp [retry_trace, event.is_open, event.is_delay]
  | succ n ih => simp [retry_trace, event.is_open, event.is_delay, ih.1, ih.2]

/-- C17. In `zfs_ioc_objset_stats`, `zfs_ioc_dataset_list_next` and
`zfs_ioc_snapshot_list_next`, for every `n`: when `dmu_objset_open` returns `EBUSY` on the
first `n` attempts (each followed by `delay(1)`) and something else on the next one, the
`retry:` loop, given room for more than `n` attempts, ends with the result of that attempt
after `n + 1` opens and `n` calls of `delay(1)`, one before each retry, and each handler
goes on from that result.  No number of `EBUSY` attempts makes the loop give `EBUSY`
back: whenever it ends, its result is not `EBUSY`. -/
theorem dmu_objset_open_retry_spec (k : Kernel σ) (zc : zfs_cmd_t) (n fuel : Nat) (s : σ)
    (hfuel : n < fuel)
    (hbusy : ∀ j < n, (k.dmu_objset_open
      (retry_state k (cstr zc.zc_name) k.DMU_OST_ANY (ds_mode_readonly k) j s)
      (cstr zc.zc_name) k.DMU_OST_ANY (ds_mode_readonly k)).1 = EBUSY)
    (hlast : (k.dmu_objset_open
      (retry_state k (cstr zc.zc_name) k.DMU_OST_ANY (ds_mode_readonly k) n s)
      (cstr zc.zc_name) k.DMU_OST_ANY (ds_mode_readonly k)).1 ≠ EBUSY) :
    dmu_objset_open_retry k (cstr zc.zc_name) k.DMU_OST_ANY (ds_mode_readonly k) fuel s =
        some (retry_result k (cstr zc.zc_name) k.DMU_OST_ANY (ds_mode_readonly k) n s) ∧
      ((retry_result k (cstr zc.zc_name) k.DMU_OST_ANY (ds_mode_readonly k) n s).2.2.1.filter
        event.is_open).length = n + 1 ∧
      ((retry_result k (cstr zc.zc_name) k.DMU_OST_ANY (ds_mode_readonly k) n s).2.2.1.filter
        event.is_delay).length = n ∧
      zfs_ioc_objset_stats k fuel s zc =
        some (zfs_ioc_objset_stats_after_open k zc
          (retry_result k (cstr zc.zc_name) k.DMU_OST_ANY (ds_mode_readonly k) n s)) ∧
      zfs_ioc_dataset_list_next k fuel s zc =
        zfs_ioc_dataset_list_next_after_open k fuel zc
          (retry_result k (cstr zc.zc_name) k.DMU_OST_ANY (ds_mode_readonly k) n s) ∧
      zfs_ioc_snapshot_list_next k fuel s zc =
        zfs_ioc_snapshot_list_next_after_open k fuel zc
          (retry_result k (cstr zc.zc_name) k.DMU_OST_ANY (ds_mode_readonly k) n s) ∧
      (∀ (fuel1 : Nat) (s1 : σ) (q : Int × Nat × List event × σ),
        dmu_objset_open_retry k (cstr zc.zc_name) k.DMU_OST_ANY (ds_mode_readonly k) fuel1 s1 =
          some q → q.1 ≠ EBUSY) := by
  have hloop := dmu_objset_open_retry_busy k (cstr zc.zc_name) k.DMU_OST_ANY
    (ds_mode_readonly k) n fuel s hfuel hbusy hlast
  have hcount := retry_trace_counts (cstr zc.zc_name) k.DMU_OST_ANY (ds_mode_readonly k)
    (k.dmu_objset_open (retry_state k (cstr zc.zc_name) k.DMU_OST_ANY (ds_mode_readonly k) n s)
      (cstr zc.zc_name) k.DMU_OST_ANY (ds_mode_readonly k)).1 n
  refine ⟨hloop, hcount.1, hcount.2, ?_, ?_, ?_,
    dmu_objset_open_retry_not_busy k (cstr zc.zc_name) k.DMU_OST_ANY (ds_mode_readonly k)⟩
  · simp only [zfs_ioc_objset_stats, hloop, retry_result]
  · simp only [zfs_ioc_dataset_list_next, hloop, retry_result]
  · simp only [zfs_ioc_snapshot_list_next, hloop, retry_result]

/-- C17, on the concrete kernel: "bank" is held exclusively in the states 0 and 1; the
loop started in state 0 makes three opens with a `delay(1)` before the second and the
third, and `zfs_ioc_objset_stats` goes on with the third, successful, open. -/
theorem dmu_objset_open_retry_spec_witness :
    dmu_objset_open_retry sample_kernel [98, 97, 110, 107] 5 9 5 0 =
        some (0, 7,
          [event.dmu_objset_open [98, 97, 110, 107] 5 9 EBUSY, event.delay 1,
            event.dmu_objset_open [98, 97, 110, 107] 5 9 EBUSY, event.delay 1,
            event.dmu_objset_open [98, 97, 110, 107] 5 9 0], 2) ∧
      (zfs_ioc_objset_stats sample_kernel 5 0 sample_zc_bank).map (fun r => (r.1, r.2.2.1)) =
        some (0,
          [event.dmu_objset_open [98, 97, 110, 107] 5 9 EBUSY, event.delay 1,
            event.dmu_objset_open [98, 97, 110, 107] 5 9 EBUSY, event.delay 1,
            event.dmu_objset_open [98, 97, 110, 107] 5 9 0,
            event.dmu_objset_fast_stat 7, event.spa_altroot 7, event.dmu_objset_close 7]) :=
  ⟨(dmu_objset_open_retry_spec sample_kernel sample_zc_bank 2 5 0 (by decide) (by decide)
      (by decide)).1, by decide⟩

/-! ### Failure of the open -/

/-- C13, as stated, fails: on the concrete kernel the dataset "none" does not exist, the
open fails with `ENOENT`, and `zfs_ioc_objset_stats` returns `ENOENT`, not `ESRCH`. -/
theorem zfs_ioc_objset_stats_enoent :
    (sample_kernel.dmu_objset_open 0 (cstr sample_zc_none.zc_name) sample_kernel.DMU_OST_ANY
        (ds_mode_readonly sample_kernel)).1 = ENOENT ∧
      zfs_ioc_objset_stats sample_kernel 1 0 sample_zc_none =
        some (ENOENT, sample_zc_none,
          [event.dmu_objset_open [110, 111, 110, 101] 5 9 ENOENT], 0) ∧
      ENOENT ≠ ESRCH := by
  decide

/-- C13, amended.  When the `retry:` loop ends on a failed open (an error that is neither 0
nor `EBUSY`, after any number of `EBUSY` attempts), `zfs_ioc_dataset_list_next` and
`zfs_ioc_snapshot_list_next` return `ESRCH` if that error is `ENOENT` and the error itself
otherwise, while `zfs_ioc_objset_stats` returns the error itself in every case, `ENOENT`
included; the request is left as it was and nothing is called after the open. -/
theorem dmu_objset_open_failure_spec (k : Kernel σ) (zc : zfs_cmd_t) (n fuel : Nat) (s : σ)
    (hfuel : n < fuel)
    (hbusy : ∀ j < n, (k.dmu_objset_open
      (retry_state k (cstr zc.zc_name) k.DMU_OST_ANY (ds_mode_readonly k) j s)
      (cstr zc.zc_name) k.DMU_OST_ANY (ds_mode_readonly k)).1 = EBUSY)
    (hlast : (retry_result k (cstr zc.zc_name) k.DMU_OST_ANY (ds_mode_readonly k) n s).1 ≠
      EBUSY)
    (hfail : (retry_result k (cstr zc.zc_name) k.DMU_OST_ANY (ds_mode_readonly k) n s).1 ≠
      0) :
    zfs_ioc_objset_stats k fuel s zc =
        some ((retry_result k (cstr zc.zc_name) k.DMU_OST_ANY (ds_mode_readonly k) n s).1, zc,
          (retry_result k (cstr zc.zc_name) k.DMU_OST_ANY (ds_mode_readonly k) n s).2.2.1,
          (retry_result k (cstr zc.zc_name) k.DMU_OST_ANY (ds_mode_readonly k) n s).2.2.2) ∧
      zfs_ioc_dataset_list_next k fuel s zc =
        some (if (retry_result k (cstr zc.zc_name) k.DMU_OST_ANY (ds_mode_readonly k) n s).1 =
              ENOENT then ESRCH
            else (retry_result k (cstr zc.zc_name) k.DMU_OST_ANY (ds_mode_readonly k) n s).1,
          zc,
          (retry_result k (cstr zc.zc_name) k.DMU_OST_ANY (ds_mode_readonly k) n s).2.2.1,
          (retry_result k (cstr zc.zc_name) k.DMU_OST_ANY (ds_mode_readonly k) n s).2.2.2) ∧
      zfs_ioc_snapshot_list_next k fuel s zc =
        some (if (retry_result k (cstr zc.zc_name) k.DMU_OST_ANY (ds_mode_readonly k) n s).1 =
              ENOENT then ESRCH
            else (retry_result k (cstr zc.zc_name) k.DMU_OST_ANY (ds_mode_readonly k) n s).1,
          zc,
          (retry_result k (cstr zc.zc_name) k.DMU_OST_ANY (ds_mode_readonly k) n s).2.2.1,
          (retry_result k (cstr zc.zc_name) k.DMU_OST_ANY (ds_mode_readonly k) n s).2.2.2) := by
  have hloop : dmu_objset_open_retry k (cstr zc.zc_name) k.DMU_OST_ANY (ds_mode_readonly k)
      fuel s =
      some (retry_result k (cstr zc.zc_name) k.DMU_OST_ANY (ds_mode_readonly k) n s) :=
    dmu_objset_open_retry_busy k (cstr zc.zc_name) k.DMU_OST_ANY
      (ds_mode_readonly k) n fuel s hfuel hbusy hlast
  refine ⟨?_, ?_, ?_⟩
  · simp only [zfs_ioc_objset_stats, hloop, zfs_ioc_objset_stats_after_open]
    rw [if_pos hfail]
  · simp only [zfs_ioc_dataset_list_next, hloop, zfs_ioc_dataset_list_next_after_open]
    rw [if_pos hfail]
  · simp only [zfs_ioc_snapshot_list_next, hloop, zfs_ioc_snapshot_list_next_after_open]
    rw [if_pos hfail]

/-- C13, amended, on the concrete kernel: on the missing dataset "none" the two listing
handlers return `ESRCH` and `zfs_ioc_objset_stats` returns `ENOENT`. -/
theorem dmu_objset_open_failure_spec_witness :
    zfs_ioc_objset_stats sample_kernel 1 0 sample_zc_none =
        some (ENOENT, sample_zc_none,
          [event.dmu_objset_open [110, 111, 110, 101] 5 9 ENOENT], 0) ∧
      zfs_ioc_dataset_list_next sample_kernel 1 0 sample_zc_none =
        some (ESRCH, sample_zc_none,
          [event.dmu_objset_open [110, 111, 110, 101] 5 9 ENOENT], 0) ∧
      zfs_ioc_snapshot_list_next sample_kernel 1 0 sample_zc_none =
        some (ESRCH, sample_zc_none,
          [event.dmu_objset_open [110, 111, 110, 101] 5 9 ENOENT], 0) :=
  dmu_objset_open_failure_spec sample_kernel sample_zc_none 0 1 0 (by decide) (by decide)
    (by decide) (by decide)

/-! ### Listing the children of a dataset -/

theorem get_nvlist_trace (k : Kernel σ) (s : σ) (zc : zfs_cmd_t) :
    ∀ ev ∈ (get_nvlist k s zc).2.2,
      ev.is_create = false ∧ ev.is_set_call = false ∧ ev.is_destroy = false := by
  intro ev hev
  unfold get_nvlist at hev
  simp only at hev
  split_ifs at hev <;>
    simp only [List.mem_cons, List.mem_singleton, List.not_mem_nil, or_false] at hev
  · rcases hev with rfl
    exact ⟨rfl, rfl, rfl⟩
  · rcases hev with rfl | rfl <;> exact ⟨rfl, rfl, rfl⟩
  · rcases hev with rfl | rfl <;> exact ⟨rfl, rfl, rfl⟩

theorem zfs_ioc_create_get_trace (k : Kernel σ) (s : σ) (zc : zfs_cmd_t) :
    ∀ ev ∈ (if zc.zc_nvlist_src ≠ 0 then get_nvlist k s zc else (0, none, [])).2.2,
      ev.is_create = false ∧ ev.is_set_call = false ∧ ev.is_destroy = false := by
  intro ev hev
  split_ifs at hev
  · exact get_nvlist_trace k s zc ev hev
  · simp at hev

theorem zfs_ioc_create_objset_inl (k : Kernel σ) (s : σ) (zc : zfs_cmd_t)
    (r : Int × zfs_cmd_t × List event × σ) (h : zfs_ioc_create_objset k s zc = Sum.inl r) :
    ∀ ev ∈ r.2.2.1, ev.is_create = false ∧ ev.is_set_call = false ∧ ev.is_destroy = false := by
  have hgt := zfs_ioc_create_get_trace k s zc
  unfold zfs_ioc_create_objset at h
  simp only at h
  generalize (if zc.zc_nvlist_src ≠ 0 then get_nvlist k s zc else (0, none, [])) = g at h hgt
  intro ev hev
  split_ifs at h
  all_goals cases h
  all_goals try simp only [List.mem_append, List.mem_cons, List.mem_singleton, List.not_mem_nil,
    or_false] at hev
  all_goals first
    | exact hgt ev hev
    | (rcases hev with h1 | rfl
       · exact hgt ev h1
       · exact ⟨rfl, rfl, rfl⟩)
    | (rcases hev with h1 | rfl | rfl
       · exact hgt ev h1
       · exact ⟨rfl, rfl, rfl⟩
       · exact ⟨rfl, rfl, rfl⟩)

/-- Before `dmu_objset_create` is reached, `zfs_ioc_create` returns without a creation,
a set call or a destruction. -/
theorem zfs_ioc_create_early_return (k : Kernel σ) (s : σ) (zc : zfs_cmd_t)
    (r : Int × zfs_cmd_t × List event × σ) (h : zfs_ioc_create_objset k s zc = Sum.inl r) :
    zfs_ioc_create k s zc = r ∧
      ∀ ev ∈ r.2.2.1, ev.is_create = false ∧ ev.is_set_call = false ∧ ev.is_destroy = false :=
  ⟨by simp only [zfs_ioc_create, h], zfs_ioc_create_objset_inl k s zc r h⟩

/-- When `zfs_ioc_create` reaches `dmu_objset_create`.  Without a clone source: when the
low 32 bits of `zc_objset_type` are `DMU_OST_ZFS`, the name has no '@' and the properties,
if any, were decoded.  With a clone source: when the low 32 bits of `zc_objset_type` are
not `DMU_OST_ZVOL`, the name has no '@', the properties, if any, were decoded, the
terminated source name passes `dataset_namecheck` and the source was opened. -/
theorem zfs_ioc_create_objset_reached (k : Kernel σ) (s : σ) (zc : zfs_cmd_t)
    (hat : strchr zc.zc_name 64 = none)
    (hg : (if zc.zc_nvlist_src ≠ 0 then get_nvlist k s zc else (0, none, [])).1 = 0) :
    (zc.zc_objset_type % 4294967296 = k.DMU_OST_ZFS → zc.zc_value.headD 0 = 0 →
        ∃ f, zfs_ioc_create_objset k s zc = Sum.inr f ∧
          f.error = (k.dmu_objset_create s (cstr zc.zc_name)
            (zc.zc_objset_type % 4294967296) none).1) ∧
      (zc.zc_objset_type % 4294967296 ≠ k.DMU_OST_ZVOL → zc.zc_value.headD 0 ≠ 0 →
        k.dataset_namecheck (cstr (zc.zc_value.set (zc.zc_value.length - 1) 0)) = 0 →
        (k.dmu_objset_open s (cstr (zc.zc_value.set (zc.zc_value.length - 1) 0))
          (zc.zc_objset_type % 4294967296) (ds_mode_readonly k)).1 = 0 →
        ∃ f, zfs_ioc_create_objset k s zc = Sum.inr f ∧
          f.error = (k.dmu_objset_create
            (k.dmu_objset_open s (cstr (zc.zc_value.set (zc.zc_value.length - 1) 0))
              (zc.zc_objset_type % 4294967296) (ds_mode_readonly k)).2.2
            (cstr zc.zc_name) (zc.zc_objset_type % 4294967296)
            (some (k.dmu_objset_open s (cstr (zc.zc_value.set (zc.zc_value.length - 1) 0))
              (zc.zc_objset_type % 4294967296) (ds_mode_readonly k)).2.1)).1) := by
  constructor
  · intro hzfs hplain
    have h : zfs_ioc_create_objset k s zc =
        Sum.inr ⟨(k.dmu_objset_create s (cstr zc.zc_name)
            (zc.zc_objset_type % 4294967296) none).1, zc,
          (if zc.zc_nvlist_src ≠ 0 then get_nvlist k s zc else (0, none, [])).2.1,
          (if zc.zc_nvlist_src ≠ 0 then get_nvlist k s zc else (0, none, [])).2.2 ++
            [event.dmu_objset_create (cstr zc.zc_name) (zc.zc_objset_type % 4294967296) none
              (k.dmu_objset_create s (cstr zc.zc_name)
                (zc.zc_objset_type % 4294967296) none).1],
          (k.dmu_objset_create s (cstr zc.zc_name)
            (zc.zc_objset_type % 4294967296) none).2⟩ := by
      unfold zfs_ioc_create_objset
      simp only [hzfs, ne_eq, not_true_eq_false, false_and, if_false, hat, hg, hplain]
    exact ⟨_, h, rfl⟩
  · intro hzvol hclone hname hopen
    unfold zfs_ioc_create_objset
    simp only [hzvol, and_false, if_false, hat, ne_eq, not_true_eq_false, hg, hclone,
      not_false_eq_true, if_true, hname, hopen]
    exact ⟨_, rfl, rfl⟩

end ZfsIoctl
